import Mathlib

/-!
# Mi-huella: lost-and-found workflow

A shallow embedding of the lost-and-found workflow of the application
(`src/screens/PetsScreen.js`, `src/screens/CommunityScreen.js`,
`src/notificationService.js`) and theorems about it.

Conventions of the embedding.

* A JavaScript string is the list of its UTF-16 code units (`JsString`);
  `js "..."` writes such a string from a literal.
* A value produced by `JSON.parse` is a `JsVal`.
* The remote store is a record of four collections, each a list of
  `(identifier, document)` pairs in the order in which a query returns them.
* Every call that leaves the program (store, location provider, push relay,
  local notification, alert, console) is appended to the `log` of the `World`;
  whether such a call succeeds is read from an environment record passed to
  the handler, one field per call site.
-/

namespace MiHuella

/-! ## Strings -/

/-- A JavaScript string: its sequence of UTF-16 code units. -/
abbrev JsString := List Nat

/-- UTF-16 encoding of a list of Unicode scalar values. -/
def utf16 : List Char → JsString
  | [] => []
  | c :: cs =>
    (if c.toNat < 65536 then [c.toNat]
     else [0xD800 + (c.toNat - 0x10000) / 1024, 0xDC00 + (c.toNat - 0x10000) % 1024])
      ++ utf16 cs

/-- The JavaScript string written by a literal. -/
def js (s : String) : JsString := utf16 s.data

/-- Code units that `String.prototype.trim` removes (WhiteSpace and LineTerminator). -/
def isTrimSpace (u : Nat) : Bool :=
  u = 0x09 || u = 0x0A || u = 0x0B || u = 0x0C || u = 0x0D || u = 0x20 || u = 0xA0
    || u = 0x1680 || (0x2000 ≤ u && u ≤ 0x200A) || u = 0x2028 || u = 0x2029
    || u = 0x202F || u = 0x205F || u = 0x3000 || u = 0xFEFF

/-- `String.prototype.trim`. -/
def trim (s : JsString) : JsString :=
  ((s.dropWhile isTrimSpace).reverse.dropWhile isTrimSpace).reverse

/-! ## JSON values -/

/-- A value returned by `JSON.parse` (or `undefined`, the result of reading an absent
property). A number is kept as the exact rational value of its literal; an object keeps
its members in source order. -/
inductive JsVal where
  | undefined
  | null
  | bool (b : Bool)
  | num (q : ℚ)
  | str (s : JsString)
  | arr (xs : List JsVal)
  | obj (members : List (JsString × JsVal))

/-- ToBoolean. A number literal is falsy when the double nearest to it is zero, that is
when its absolute value is at most `2^-1075` (half the least subnormal, ties to even). -/
def JsVal.truthy : JsVal → Bool
  | .undefined => false
  | .null => false
  | .bool b => b
  | .num q => decide (1 < |q| * 2 ^ 1075)
  | .str s => !s.isEmpty
  | .arr _ => true
  | .obj _ => true

/-- Last binding of `key` among the members of an object (a later duplicate key
overwrites an earlier one in `JSON.parse`). -/
def lookupMember (key : JsString) : List (JsString × JsVal) → JsVal
  | [] => .undefined
  | (k, v) :: rest =>
    match lookupMember key rest with
    | .undefined => if k = key then v else .undefined
    | found => found

/-- Property read `v.key` for the keys `petId`, `ownerId` and `name`, none of which is
a property of a primitive wrapper, of `Array.prototype` or of `Object.prototype`:
`none` is the `TypeError` of reading a property of `null` or `undefined`. -/
def JsVal.getProp (v : JsVal) (key : JsString) : Option JsVal :=
  match v with
  | .undefined => none
  | .null => none
  | .obj members => some (lookupMember key members)
  | _ => some .undefined

/-! ## JSON.stringify of strings -/

/-- Lower-case hexadecimal digit. -/
def hexDigit (n : Nat) : Nat := if n < 10 then 0x30 + n else 0x61 + (n - 10)

/-- UnicodeEscape: a backslash, `u` and four lower-case hexadecimal digits. -/
def unicodeEscape (u : Nat) : JsString :=
  [0x5C, 0x75, hexDigit (u / 4096 % 16), hexDigit (u / 256 % 16), hexDigit (u / 16 % 16),
    hexDigit (u % 16)]

def isHighSurrogate (u : Nat) : Bool := 0xD800 ≤ u && u ≤ 0xDBFF
def isLowSurrogate (u : Nat) : Bool := 0xDC00 ≤ u && u ≤ 0xDFFF

/-- Escaping of one code unit that is not part of a surrogate pair (QuoteJSONString). -/
def escapeUnit (u : Nat) : JsString :=
  if u = 0x08 then [0x5C, 0x62]
  else if u = 0x09 then [0x5C, 0x74]
  else if u = 0x0A then [0x5C, 0x6E]
  else if u = 0x0C then [0x5C, 0x66]
  else if u = 0x0D then [0x5C, 0x72]
  else if u = 0x22 then [0x5C, 0x22]
  else if u = 0x5C then [0x5C, 0x5C]
  else if u < 0x20 || isHighSurrogate u || isLowSurrogate u then unicodeEscape u
  else [u]

/-- The characters between the quotes of QuoteJSONString: a surrogate pair is copied, a
lone surrogate is escaped. -/
def escapeString : JsString → JsString
  | [] => []
  | [u] => escapeUnit u
  | u :: v :: rest =>
    if isHighSurrogate u && isLowSurrogate v then u :: v :: escapeString rest
    else escapeUnit u ++ escapeString (v :: rest)

/-- QuoteJSONString. -/
def quoteJSONString (s : JsString) : JsString := [0x22] ++ escapeString s ++ [0x22]

/-! ## JSON.parse -/

def isJsonSpace (u : Nat) : Bool := u = 0x20 || u = 0x09 || u = 0x0A || u = 0x0D

def skipWs : List Nat → List Nat
  | [] => []
  | u :: rest => if isJsonSpace u then skipWs rest else u :: rest

/-- Value of a hexadecimal digit of either case. -/
def hexValue (u : Nat) : Option Nat :=
  if 0x30 ≤ u && u ≤ 0x39 then some (u - 0x30)
  else if 0x61 ≤ u && u ≤ 0x66 then some (u - 0x61 + 10)
  else if 0x41 ≤ u && u ≤ 0x46 then some (u - 0x41 + 10)
  else none

/-- The code unit denoted by a single-character escape. -/
def simpleEscape (u : Nat) : Option Nat :=
  if u = 0x22 then some 0x22
  else if u = 0x5C then some 0x5C
  else if u = 0x2F then some 0x2F
  else if u = 0x62 then some 0x08
  else if u = 0x66 then some 0x0C
  else if u = 0x6E then some 0x0A
  else if u = 0x72 then some 0x0D
  else if u = 0x74 then some 0x09
  else none

/-- Reads a JSON string after its opening quote: the string and the input after the
closing quote. -/
def parseStringBody : List Nat → Option (JsString × List Nat)
  | [] => none
  | u :: rest =>
    if u = 0x22 then some ([], rest)
    else if u = 0x5C then
      match rest with
      | [] => none
      | e :: rest1 =>
        if e = 0x75 then
          match rest1 with
          | a :: b :: c :: d :: rest2 =>
            match hexValue a, hexValue b, hexValue c, hexValue d with
            | some a, some b, some c, some d =>
              (parseStringBody rest2).map
                (fun r => ((a * 4096 + b * 256 + c * 16 + d) :: r.1, r.2))
            | _, _, _, _ => none
          | _ => none
        else
          match simpleEscape e with
          | some x => (parseStringBody rest1).map (fun r => (x :: r.1, r.2))
          | none => none
    else if u < 0x20 then none
    else (parseStringBody rest).map (fun r => (u :: r.1, r.2))

def isDigit (u : Nat) : Bool := 0x30 ≤ u && u ≤ 0x39

/-- Reads a maximal run of digits: their number, their value after `acc`, the rest. -/
def parseDigits (acc : Nat) : List Nat → Nat × Nat × List Nat
  | [] => (0, acc, [])
  | u :: rest =>
    if isDigit u then
      let r := parseDigits (acc * 10 + (u - 0x30)) rest
      (r.1 + 1, r.2.1, r.2.2)
    else (0, acc, u :: rest)

/-- Integer part of a JSON number: `0`, or a non-empty run of digits not starting
with `0`. -/
def parseIntPart : List Nat → Option (Nat × List Nat)
  | [] => none
  | u :: rest =>
    if u = 0x30 then some (0, rest)
    else if isDigit u then
      let r := parseDigits 0 (u :: rest)
      some (r.2.1, r.2.2)
    else none

/-- Optional fraction of a JSON number, added to the integer part `n`. -/
def parseFraction (n : Nat) : List Nat → Option (ℚ × List Nat)
  | 0x2E :: rest =>
    let r := parseDigits 0 rest
    if r.1 = 0 then none else some ((n : ℚ) + (r.2.1 : ℚ) / 10 ^ r.1, r.2.2)
  | input => some ((n : ℚ), input)

/-- Optional exponent of a JSON number, applied to `q`. -/
def parseExponent (q : ℚ) : List Nat → Option (ℚ × List Nat)
  | [] => some (q, [])
  | e :: rest =>
    if e = 0x65 || e = 0x45 then
      match rest with
      | [] => none
      | s :: rest1 =>
        let digits := if s = 0x2B || s = 0x2D then rest1 else s :: rest1
        let r := parseDigits 0 digits
        if r.1 = 0 then none
        else if s = 0x2D then some (q / 10 ^ r.2.1, r.2.2)
        else some (q * 10 ^ r.2.1, r.2.2)
    else some (q, e :: rest)

/-- Reads a JSON number. -/
def parseNumber (input : List Nat) : Option (ℚ × List Nat) :=
  let negative := input.head? = some 0x2D
  let body := if negative then input.tail else input
  match parseIntPart body with
  | none => none
  | some (n, rest) =>
    match parseFraction n rest with
    | none => none
    | some (q, rest1) =>
      match parseExponent q rest1 with
      | none => none
      | some (v, rest2) => some (if negative then -v else v, rest2)

/-- Removes `word` from the front of the input. -/
def expectWord (word : JsString) (input : List Nat) : Option (List Nat) :=
  if word.isPrefixOf input then some (input.drop word.length) else none

mutual

/-- Reads one JSON value; the input starts at its first character. -/
def parseValue : Nat → List Nat → Option (JsVal × List Nat)
  | 0, _ => none
  | fuel + 1, input =>
    match input with
    | [] => none
    | u :: rest =>
      if u = 0x7B then
        match skipWs rest with
        | 0x7D :: rest1 => some (.obj [], rest1)
        | members => (parseMembers fuel members).map (fun r => (.obj r.1, r.2))
      else if u = 0x5B then
        match skipWs rest with
        | 0x5D :: rest1 => some (.arr [], rest1)
        | elements => (parseElements fuel elements).map (fun r => (.arr r.1, r.2))
      else if u = 0x22 then
        (parseStringBody rest).map (fun r => (.str r.1, r.2))
      else if u = 0x74 then (expectWord (js "true") input).map (fun r => (.bool true, r))
      else if u = 0x66 then (expectWord (js "false") input).map (fun r => (.bool false, r))
      else if u = 0x6E then (expectWord (js "null") input).map (fun r => (.null, r))
      else (parseNumber input).map (fun r => (.num r.1, r.2))

/-- Reads the members of a non-empty object up to and including the closing brace; the
input starts at the first key. -/
def parseMembers : Nat → List Nat → Option (List (JsString × JsVal) × List Nat)
  | 0, _ => none
  | fuel + 1, input =>
    match input with
    | 0x22 :: rest =>
      match parseStringBody rest with
      | none => none
      | some (key, rest1) =>
        match skipWs rest1 with
        | 0x3A :: rest2 =>
          match parseValue fuel (skipWs rest2) with
          | none => none
          | some (v, rest3) =>
            match skipWs rest3 with
            | 0x7D :: rest4 => some ([(key, v)], rest4)
            | 0x2C :: rest4 =>
              (parseMembers fuel (skipWs rest4)).map (fun r => ((key, v) :: r.1, r.2))
            | _ => none
        | _ => none
    | _ => none

/-- Reads the elements of a non-empty array up to and including the closing bracket. -/
def parseElements : Nat → List Nat → Option (List JsVal × List Nat)
  | 0, _ => none
  | fuel + 1, input =>
    match parseValue fuel input with
    | none => none
    | some (v, rest) =>
      match skipWs rest with
      | 0x5D :: rest1 => some ([v], rest1)
      | 0x2C :: rest1 => (parseElements fuel (skipWs rest1)).map (fun r => (v :: r.1, r.2))
      | _ => none

end

/-- `JSON.parse`: one value between optional white space and nothing else; `none` is a
`SyntaxError`. The fuel bounds the depth of the calls among `parseValue`, `parseMembers`
and `parseElements`; of two nested calls of the same function the inner one reads a
shorter input, so twice the length of the text is enough. -/
def jsonParse (text : JsString) : Option JsVal :=
  match parseValue (2 * text.length + 1) (skipWs text) with
  | none => none
  | some (v, rest) => if skipWs rest = [] then some v else none

/-- `JSON.stringify` of an object all of whose property values are strings, without
indentation: the quoted members in property order, separated by commas. -/
def stringifyMembers : List (JsString × JsString) → JsString
  | [] => []
  | [(k, v)] => quoteJSONString k ++ [0x3A] ++ quoteJSONString v
  | (k, v) :: rest => quoteJSONString k ++ [0x3A] ++ quoteJSONString v ++ [0x2C] ++
      stringifyMembers rest

def stringifyObject (members : List (JsString × JsString)) : JsString :=
  [0x7B] ++ stringifyMembers members ++ [0x7D]

/-! ## Documents of the remote store -/

/-- A latitude/longitude pair of finite numbers, each kept as its exact value. -/
structure Coords where
  latitude : ℚ
  longitude : ℚ
  deriving DecidableEq

/-- The `newPet` form of `PetsScreen` (lines 45-53). -/
structure PetForm where
  name : JsString
  age : JsString
  breed : JsString
  color : JsString
  type : JsString
  weight : JsString
  vaccines : JsString
  deriving DecidableEq

/-- A document of `pets`, as written by `addPet` (lines 97-104). -/
structure PetDoc where
  form : PetForm
  userId : JsString
  chip : JsString
  createdAt : JsString
  location : Option Coords
  status : JsString
  deriving DecidableEq

/-- A document of `lost_pet_reports`, as written by `handleReportLost` (lines 148-156) and
completed by `handleSendMessage` (lines 198-204). -/
structure ReportDoc where
  petId : JsString
  userId : JsString
  petName : JsString
  petType : JsString
  location : Coords
  status : JsString
  createdAt : Nat
  foundBy : Option JsString
  foundByPhone : Option JsString
  foundAt : Option Coords
  foundAtTime : Option Nat
  deriving DecidableEq

/-- A document of `notifications`; `read` is absent when the writer does not set it. -/
structure NotificationDoc where
  userId : JsString
  title : JsString
  body : JsString
  createdAt : Nat
  read : Option Bool
  deriving DecidableEq

/-- A document of `users`; each field may be absent. -/
structure UserDoc where
  name : Option JsString
  phone : Option JsString
  expoPushToken : Option JsString
  deriving DecidableEq

/-- An element of the `pets` state of `PetsScreen`: `{ id: d.id, ...d.data() }`. -/
structure PetItem where
  id : JsString
  data : PetDoc
  deriving DecidableEq

/-! ## QR identity codec -/

/-- `getQrValue` (PetsScreen.js, lines 253-260). -/
def getQrValue (selectedPet : Option PetItem) : JsString :=
  match selectedPet with
  | none => js "Error"
  | some pet =>
    stringifyObject
      [(js "petId", pet.id), (js "ownerId", pet.data.userId), (js "name", pet.data.form.name)]

/-- The three properties that `handleBarCodeScanned` reads from the scanned object. -/
structure QrData where
  petId : JsVal
  ownerId : JsVal
  name : JsVal

/-- Lines 119-120 of `handleBarCodeScanned`: `JSON.parse(data)` followed by the check
`!qrData.ownerId || !qrData.name`; `none` is a thrown exception (a `SyntaxError`, the
`TypeError` of reading a property of `null`, or the `Error` "QR no válido."). -/
def decodeQr (data : JsString) : Option QrData :=
  match jsonParse data with
  | none => none
  | some qrData =>
    match qrData.getProp (js "ownerId"), qrData.getProp (js "name"),
        qrData.getProp (js "petId") with
    | some ownerId, some name, some petId =>
      if !ownerId.truthy || !name.truthy then none
      else some { petId := petId, ownerId := ownerId, name := name }
    | _, _, _ => none

/-! ## The world: store, session and log of outgoing calls -/

/-- The remote store: the collections `pets`, `lost_pet_reports`, `notifications` and
`users`. A collection lists its documents with their identifiers, in the order in which
a query returns them. -/
structure Store where
  pets : List (JsString × PetDoc)
  reports : List (JsString × ReportDoc)
  notifications : List (JsString × NotificationDoc)
  users : List (JsString × UserDoc)

/-- The fields written by an `updateDoc` on a `pets` document; an absent `location`
leaves the stored one. -/
structure PetPatch where
  status : JsString
  location : Option Coords
  deriving DecidableEq

/-- The fields written by the `updateDoc` of `handleSendMessage` on a report. -/
structure ReportPatch where
  status : JsString
  foundBy : JsString
  foundByPhone : JsString
  foundAt : Coords
  foundAtTime : Nat
  deriving DecidableEq

/-- A call that leaves the program, in the order in which it is issued. A store call is
logged when it is issued, whether or not the store accepts it. -/
inductive Call where
  | alert (title body : JsString)
  | consoleWarn (label : JsString)
  | consoleError (label : JsString)
  | requestForegroundPermissions
  | getCurrentPosition
  | scheduleNotification (title body : JsString)
  | fetchPush (token title body : JsString)
  | getUserDoc (id : JsString)
  | queryActiveReports (petId : JsVal)
  | addPetDoc (doc : PetDoc)
  | addReportDoc (doc : ReportDoc)
  | addNotificationDoc (doc : NotificationDoc)
  | updateReportDoc (id : JsString) (patch : ReportPatch)
  | updatePetDoc (id : JsString) (patch : PetPatch)
  | deletePetDoc (id : JsString)

/-- A call that reads or writes the store. -/
def Call.isStoreCall : Call → Bool
  | .getUserDoc _ => true
  | .queryActiveReports _ => true
  | .addPetDoc _ => true
  | .addReportDoc _ => true
  | .addNotificationDoc _ => true
  | .updateReportDoc _ _ => true
  | .updatePetDoc _ _ => true
  | .deletePetDoc _ => true
  | _ => false

/-- A call that emits a notification: a local one, a push, or a `notifications`
document. -/
def Call.isNotification : Call → Bool
  | .scheduleNotification _ _ => true
  | .fetchPush _ _ _ => true
  | .addNotificationDoc _ => true
  | _ => false

/-- The store, the signed-in account (`auth.currentUser`, by its `uid`) and the log. -/
structure World where
  store : Store
  currentUser : Option JsString
  log : List Call

def World.call (w : World) (c : Call) : World := { w with log := w.log ++ [c] }

/-- The document of a collection with the given identifier. -/
def findDoc {α : Type} (id : JsString) : List (JsString × α) → Option α
  | [] => none
  | d :: rest => if d.1 = id then some d.2 else findDoc id rest

/-- Applies `f` to the document with the given identifier. -/
def updateAt {α : Type} (id : JsString) (f : α → α) (docs : List (JsString × α)) :
    List (JsString × α) :=
  docs.map (fun d => if d.1 = id then (d.1, f d.2) else d)

def PetPatch.apply (patch : PetPatch) (d : PetDoc) : PetDoc :=
  { d with status := patch.status,
           location := match patch.location with
                       | some c => some c
                       | none => d.location }

def ReportPatch.apply (patch : ReportPatch) (d : ReportDoc) : ReportDoc :=
  { d with status := patch.status, foundBy := some patch.foundBy,
           foundByPhone := some patch.foundByPhone, foundAt := some patch.foundAt,
           foundAtTime := some patch.foundAtTime }

/-- The result of the query `where("petId", "==", petId), where("status", "==", "active")`
on `lost_pet_reports`. -/
def Store.activeReports (st : Store) (petId : JsString) : List (JsString × ReportDoc) :=
  st.reports.filter (fun r => decide (r.2.petId = petId ∧ r.2.status = js "active"))

def Store.addPet (st : Store) (id : JsString) (d : PetDoc) : Store :=
  { st with pets := st.pets ++ [(id, d)] }

def Store.addReport (st : Store) (id : JsString) (d : ReportDoc) : Store :=
  { st with reports := st.reports ++ [(id, d)] }

def Store.addNotification (st : Store) (id : JsString) (d : NotificationDoc) : Store :=
  { st with notifications := st.notifications ++ [(id, d)] }

def Store.updatePet (st : Store) (id : JsString) (patch : PetPatch) : Store :=
  { st with pets := updateAt id patch.apply st.pets }

def Store.updateReport (st : Store) (id : JsString) (patch : ReportPatch) : Store :=
  { st with reports := updateAt id patch.apply st.reports }

def Store.deletePet (st : Store) (id : JsString) : Store :=
  { st with pets := st.pets.filter (fun d => decide (d.1 ≠ id)) }

/-! ### Document references: `doc(db, collection, path)` -/

/-- `String.prototype.split("/")`: the pieces of a string between its "/". -/
def splitSlash : JsString → List JsString
  | [] => [[]]
  | u :: rest =>
    if u = 0x2F then [] :: splitSlash rest
    else
      match splitSlash rest with
      | [] => [[u]]
      | piece :: pieces => (u :: piece) :: pieces

/-- `path.indexOf("//") >= 0`. -/
def hasDoubleSlash : JsString → Bool
  | u :: v :: rest => (decide (u = 0x2F) && decide (v = 0x2F)) || hasDoubleSlash (v :: rest)
  | _ => false

/-- The segments that `ResourcePath.fromString` keeps of a path: its pieces between "/"
that are not empty. -/
def pathSegments (path : JsString) : List JsString :=
  (splitSlash path).filter (fun piece => !piece.isEmpty)

/-- Segments joined by "/". -/
def joinSlash : List JsString → JsString
  | [] => []
  | [segment] => segment
  | segment :: rest => segment ++ [0x2F] ++ joinSlash rest

/-- The document that `doc(db, collection, path)` denotes, as its path below the
collection, or `none` when `doc` throws. `ResourcePath.fromString` throws on a path that
holds "//" and drops the empty pieces of the others; a document reference needs an even
number of segments, the collection counted. One segment is the identifier of a document
of the collection; three or more denote a document of a subcollection, and this store
holds none. -/
def docPath (path : JsString) : Option JsString :=
  if hasDoubleSlash path then none
  else
    let segments := pathSegments path
    if segments.length % 2 = 1 then some (joinSlash segments) else none

/-- The identifier under which `docs` lists the document that `doc(db, collection, path)`
denotes. The store gives identifiers that are not empty and hold no "/", which `docPath`
returns as they are; a `path` that is an identifier of `docs` denotes the document of
that identifier, whatever the string holds. -/
def docRef {α : Type} (docs : List (JsString × α)) (path : JsString) : Option JsString :=
  if (findDoc path docs).isSome then some path else docPath path

/-- An identifier as the store gives them: not empty and without "/". -/
def isDocumentId (id : JsString) : Bool := !id.isEmpty && !id.contains 0x2F

/-- The parts of the JavaScript runtime that the embedding takes as given. -/
structure Runtime where
  /-- ToString of a value that is not a string (a number, an array, an object, ...). -/
  toStringOf : JsVal → JsString

/-- ToString, as applied by a template literal. -/
def JsVal.toStr (rt : Runtime) : JsVal → JsString
  | .str s => s
  | v => rt.toStringOf v

/-- The decimal digits of a natural number. -/
def decimal (n : Nat) : JsString := (Nat.toDigits 10 n).map Char.toNat

/-- `Number.prototype.toFixed(fractionDigits)` on the exact value `x` of a finite number:
below `10^21` the digits of the integer `n` nearest to `|x| * 10^fractionDigits` (the
larger one on a tie), with a point before the last `fractionDigits` of them and a minus
sign when `x < 0`; from `10^21` on, ToString of the number. -/
def toFixed (rt : Runtime) (fractionDigits : Nat) (x : ℚ) : JsString :=
  if 10 ^ 21 ≤ |x| then rt.toStringOf (.num x)
  else
    let n := (⌊|x| * 10 ^ fractionDigits + 1 / 2⌋).toNat
    let intDigits := decimal (n / 10 ^ fractionDigits)
    let frac := decimal (n % 10 ^ fractionDigits)
    let fracDigits := List.replicate (fractionDigits - frac.length) 0x30 ++ frac
    (if x < 0 then [0x2D] else []) ++ intDigits ++
      (if fractionDigits = 0 then [] else 0x2E :: fracDigits)

/-- `v || fallback` for an optional string field: an absent or empty string is falsy. -/
def orElse (v : Option JsString) (fallback : JsString) : JsString :=
  match v with
  | some s => if s.isEmpty then fallback else s
  | none => fallback

/-! ## Location (PetsScreen.js, lines 71-84) -/

/-- What the location provider answers to `getCurrentCoords`. -/
inductive LocationOutcome where
  /-- `requestForegroundPermissionsAsync` rejects. -/
  | permissionRejected
  /-- The permission status is not `"granted"`. -/
  | denied
  /-- `getCurrentPositionAsync` rejects. -/
  | positionRejected
  /-- The position is returned. -/
  | granted (coords : Coords)

/-- `getCurrentCoords` (PetsScreen.js, lines 71-84). -/
def getCurrentCoords (outcome : LocationOutcome) (w : World) : World × Option Coords :=
  let w1 := w.call .requestForegroundPermissions
  match outcome with
  | .permissionRejected =>
    (w1.call (.consoleWarn (js "⚠️ No se pudo obtener ubicación:")), none)
  | .denied =>
    (w1.call (.alert (js "Permiso denegado") (js "Activa la ubicación para continuar.")), none)
  | .positionRejected =>
    ((w1.call .getCurrentPosition).call (.consoleWarn (js "⚠️ No se pudo obtener ubicación:")),
      none)
  | .granted coords => (w1.call .getCurrentPosition, some coords)

/-! ## Notifications -/

/-- Outcomes of the calls of `createAndSaveNotification`. -/
structure NotifyEnv where
  /-- `Notifications.scheduleNotificationAsync` rejects. -/
  scheduleRejects : Bool
  /-- `addDoc` on `notifications` rejects. -/
  addRejects : Bool
  /-- Value of `serverTimestamp()`. -/
  serverTime : Nat
  /-- Identifier given by the store to the new document. -/
  newId : JsString

/-- `createAndSaveNotification` (PetsScreen.js, lines 204-222). -/
def createAndSaveNotification (env : NotifyEnv) (title body : JsString) (w : World) : World :=
  let w1 := w.call (.scheduleNotification title body)
  if env.scheduleRejects then w1.call (.consoleWarn (js "Error al crear notificación:"))
  else
    match w1.currentUser with
    | none => w1
    | some uid =>
      let doc : NotificationDoc :=
        { userId := uid, title := title, body := body, createdAt := env.serverTime,
          read := none }
      let w2 := w1.call (.addNotificationDoc doc)
      if env.addRejects then w2.call (.consoleWarn (js "Error al crear notificación:"))
      else { w2 with store := w2.store.addNotification env.newId doc }

/-- Outcomes of the calls of `sendPushNotification`. -/
structure PushEnv where
  /-- `fetch` to the push relay rejects. -/
  fetchRejects : Bool
  /-- `addDoc` on `notifications` rejects. -/
  addRejects : Bool
  /-- Value of `serverTimestamp()`. -/
  serverTime : Nat
  /-- Identifier given by the store to the new document. -/
  newId : JsString

/-- An optional string is truthy when it is present and not empty. -/
def present (v : Option JsString) : Option JsString :=
  match v with
  | some s => if s.isEmpty then none else some s
  | none => none

/-- `sendPushNotification` (notificationService.js, lines 100-148). -/
def sendPushNotification (env : PushEnv) (expoPushToken : Option JsString)
    (title message : JsString) (recipientId : Option JsString) (w : World) : World :=
  let w1 :=
    match present expoPushToken with
    | none =>
      w.call (.consoleWarn
        (js "No se proporcionó expoPushToken. No se enviará la notificación push."))
    | some token =>
      let w0 := w.call (.fetchPush token title message)
      if env.fetchRejects then w0.call (.consoleError (js "Error al enviar notificación PUSH:"))
      else w0
  match present recipientId with
  | none =>
    w1.call (.consoleError
      (js "No se proporcionó recipientId. No se puede guardar la notificación."))
  | some recipient =>
    let doc : NotificationDoc :=
      { userId := recipient, title := title, body := message, createdAt := env.serverTime,
        read := some false }
    let w2 := w1.call (.addNotificationDoc doc)
    if env.addRejects then
      w2.call (.consoleError (js "Error al guardar notificación en Firestore:"))
    else { w2 with store := w2.store.addNotification env.newId doc }

/-! ## Pet registry (PetsScreen.js) -/

/-- The state of `PetsScreen` that its handlers read and write. -/
structure PetsState where
  modalVisible : Bool
  newPet : PetForm
  saving : Bool
  qrModalVisible : Bool
  selectedPet : Option PetItem

/-- The empty form set by `addPet` after a save (line 111). -/
def emptyForm : PetForm :=
  { name := [], age := [], breed := [], color := [], type := [], weight := [], vaccines := [] }

/-- Outcomes of the calls of `addPet`. -/
structure AddPetEnv where
  location : LocationOutcome
  /-- `addDoc` on `pets` rejects. -/
  addRejects : Bool
  /-- Value of `new Date().toISOString()`. -/
  now : JsString
  /-- Identifier given by the store to the new document. -/
  newId : JsString
  notify : NotifyEnv

/-- The `catch` and `finally` blocks of `addPet` (lines 114-119). -/
def addPetFailed (w : World) (s : PetsState) : World × PetsState :=
  ((w.call (.consoleError (js "Error al guardar mascota:"))).call
      (.alert (js "Error") (js "No se pudo guardar la mascota.")),
    { s with saving := false })

/-- `addPet` (PetsScreen.js, lines 86-120). Reading `user.uid` without a signed-in user
throws a `TypeError`, after the location has been requested. -/
def addPet (env : AddPetEnv) (w : World) (s : PetsState) : World × PetsState :=
  if s.newPet.name.isEmpty || s.newPet.type.isEmpty then
    (w.call (.alert (js "Error") (js "Por favor completa el nombre y el tipo.")), s)
  else
    let s1 := { s with saving := true }
    let located := getCurrentCoords env.location w
    match located.1.currentUser with
    | none => addPetFailed located.1 s1
    | some uid =>
      let doc : PetDoc :=
        { form := s.newPet, userId := uid, chip := js "QR Simulado", createdAt := env.now,
          location := located.2, status := js "safe" }
      let w2 := located.1.call (.addPetDoc doc)
      if env.addRejects then addPetFailed w2 s1
      else
        let w3 := { w2 with store := w2.store.addPet env.newId doc }
        let w4 := createAndSaveNotification env.notify (js "Nueva mascota agregada")
          (js "Has registrado a " ++ s.newPet.name ++ js ".") w3
        (w4.call (.alert (js "Éxito") (js "Mascota guardada correctamente.")),
          { s1 with newPet := emptyForm, modalVisible := false, saving := false })

/-- Outcomes of the calls of the confirmed report-lost action. -/
structure ReportEnv where
  location : LocationOutcome
  /-- `getDocs` of the active-report query rejects. -/
  queryRejects : Bool
  /-- `addDoc` on `lost_pet_reports` rejects. -/
  addRejects : Bool
  /-- `updateDoc` on the pet rejects for a reason other than a missing document. -/
  updateRejects : Bool
  /-- Value of `serverTimestamp()`. -/
  serverTime : Nat
  /-- Identifier given by the store to the new report. -/
  newId : JsString
  notify : NotifyEnv

/-- The `catch` block of the report-lost action (lines 167-170). -/
def reportFailed (w : World) : World :=
  (w.call (.consoleError (js "Error al crear reporte:"))).call
    (.alert (js "Error") (js "No se pudo crear el reporte."))

/-- The `onPress` of "Sí, Reportar" in `handleReportLost` (PetsScreen.js, lines 131-171).
`pet.id` is the identifier of a document of the `pets` snapshot, which `doc` takes as it
is; `updateDoc` rejects when the document does not exist. -/
def confirmReportLost (env : ReportEnv) (pet : PetItem) (w : World) : World :=
  let located := getCurrentCoords env.location w
  match located.2 with
  | none =>
    located.1.call
      (.alert (js "Error") (js "No se pudo obtener tu ubicación actual para el reporte."))
  | some coords =>
    let w1 := located.1.call (.queryActiveReports (.str pet.id))
    if env.queryRejects then reportFailed w1
    else if !(w1.store.activeReports pet.id).isEmpty then
      w1.call (.alert (js "Reporte existente")
        (pet.data.form.name ++ js " ya tiene un reporte activo."))
    else
      let doc : ReportDoc :=
        { petId := pet.id, userId := pet.data.userId, petName := pet.data.form.name,
          petType := pet.data.form.type, location := coords, status := js "active",
          createdAt := env.serverTime, foundBy := none, foundByPhone := none,
          foundAt := none, foundAtTime := none }
      let w2 := w1.call (.addReportDoc doc)
      if env.addRejects then reportFailed w2
      else
        let w3 := { w2 with store := w2.store.addReport env.newId doc }
        let patch : PetPatch := { status := js "lost", location := none }
        let w4 := w3.call (.updatePetDoc pet.id patch)
        if env.updateRejects || (findDoc pet.id w4.store.pets).isNone then reportFailed w4
        else
          let w5 := { w4 with store := w4.store.updatePet pet.id patch }
          let w6 := createAndSaveNotification env.notify (js "🆘 Reporte Creado")
            (js "Tu reporte de " ++ pet.data.form.name ++
              js " está activo. ¡Esperamos que la encuentres pronto!") w5
          w6.call (.alert (js "Reporte Creado")
            (js "Tu mascota ahora es visible en el mapa de la comunidad."))

/-- `handleReportLost` (PetsScreen.js, lines 122-175): the confirmation dialog, then
nothing ("Cancelar", `none`) or the confirmed action. -/
def handleReportLost (choice : Option ReportEnv) (pet : PetItem) (w : World) : World :=
  let w1 := w.call (.alert (js "Reportar Mascota Perdida")
    (js "¿Deseas reportar a " ++ pet.data.form.name ++
      js " como perdida? Esto creará una alerta en el mapa de la comunidad."))
  match choice with
  | none => w1
  | some env => confirmReportLost env pet w1

/-- Outcomes of the calls of the confirmed delete action. -/
structure DeleteEnv where
  /-- `deleteDoc` on the pet rejects. -/
  deleteRejects : Bool
  notify : NotifyEnv

/-- The `catch` block of the delete action (lines 194-197). -/
def deleteFailed (w : World) : World :=
  (w.call (.consoleError (js "Error al eliminar mascota:"))).call
    (.alert (js "Error") (js "No se pudo eliminar la mascota."))

/-- The `onPress` of "Eliminar" in `deletePet` (PetsScreen.js, lines 186-198). `petId` is
the identifier of a document of the `pets` snapshot (line 328), which `doc` takes as it
is. -/
def confirmDeletePet (env : DeleteEnv) (petId petName : JsString) (w : World) : World :=
  let w1 := w.call (.deletePetDoc petId)
  if env.deleteRejects then deleteFailed w1
  else
    let w2 := { w1 with store := w1.store.deletePet petId }
    let w3 := createAndSaveNotification env.notify (js "Mascota eliminada")
      (petName ++ js " ha sido eliminada de tu lista.") w2
    w3.call (.alert (js "Eliminada") (petName ++ js " fue eliminada correctamente."))

/-- `deletePet` (PetsScreen.js, lines 177-202): the confirmation dialog, then nothing
("Cancelar", `none`) or the confirmed action. -/
def deletePet (choice : Option DeleteEnv) (petId petName : JsString) (w : World) : World :=
  let w1 := w.call (.alert (js "Eliminar mascota")
    (js "¿Seguro que quieres eliminar a " ++ petName ++ js "?"))
  match choice with
  | none => w1
  | some env => confirmDeletePet env petId petName w1

/-! ## Community screen (CommunityScreen.js) -/

/-- The resolution candidate `scannedPetData` (lines 137-146). `ownerId` has passed
through `doc(db, "users", ownerId)`, which accepts only a string. -/
structure Candidate where
  petId : JsVal
  petName : JsVal
  ownerId : JsString
  ownerName : JsString
  ownerPhone : JsString
  ownerPushToken : Option JsString
  rescuerName : JsString
  rescuerPhone : JsString

/-- The state of `CommunityScreen` that its handlers read and write. -/
structure CommunityState where
  scannerVisible : Bool
  scanned : Bool
  messageModalVisible : Bool
  scannedPetData : Option Candidate
  message : JsString
  isProcessing : Bool

/-- Outcomes of the calls of `handleBarCodeScanned`. -/
structure ScanEnv where
  /-- `getDoc` of the finder profile rejects. -/
  rescuerReadRejects : Bool
  /-- `getDoc` of the owner profile rejects. -/
  ownerReadRejects : Bool

/-- The `catch` block of `handleBarCodeScanned` (lines 151-155). -/
def scanFailed (w : World) (s : CommunityState) : World × CommunityState :=
  ((w.call (.consoleError (js "Error al escanear QR:"))).call
      (.alert (js "Error") (js "Este QR no es válido.")),
    { s with scanned := false })

/-- Strict equality `uid === v` of a string with a value. -/
def JsVal.isString (v : JsVal) (s : JsString) : Bool :=
  match v with
  | .str t => decide (t = s)
  | _ => false

/-- `handleBarCodeScanned` (CommunityScreen.js, lines 106-156). A value of `ownerId` that
is not a string makes `doc(db, "users", ownerId)` throw, and so does a string that is no
document path; the document read is the one that the path denotes (`docRef`), while the
candidate keeps `ownerId` as scanned. Reading `rescuerData.name` when the finder has no
`users` document throws a `TypeError`. The uid of the signed-in account is an identifier
given by the authentication service. -/
def handleBarCodeScanned (env : ScanEnv) (data : JsString) (w : World) (s : CommunityState) :
    World × CommunityState :=
  if s.scanned then (w, s)
  else
    let s1 := { s with scanned := true, scannerVisible := false }
    match w.currentUser with
    | none =>
      (w.call (.alert (js "Error") (js "Debes iniciar sesión para reportar un hallazgo.")),
        { s1 with scanned := false })
    | some uid =>
      match decodeQr data with
      | none => scanFailed w s1
      | some qrData =>
        if qrData.ownerId.isString uid then
          (w.call (.alert (js "¡Es tu mascota!")
              (js "No puedes escanear tu propio QR de rescate.")),
            { s1 with scanned := false })
        else
          let w1 := w.call (.getUserDoc uid)
          if env.rescuerReadRejects then scanFailed w1 s1
          else
            match qrData.ownerId with
            | .str ownerId =>
              match docRef w1.store.users ownerId with
              | none => scanFailed w1 s1
              | some ownerKey =>
                let w2 := w1.call (.getUserDoc ownerKey)
                if env.ownerReadRejects then scanFailed w2 s1
                else
                  match findDoc ownerKey w2.store.users, findDoc uid w2.store.users with
                  | some ownerData, some rescuerData =>
                    (w2,
                      { s1 with
                        scannedPetData := some
                          { petId := qrData.petId, petName := qrData.name, ownerId := ownerId,
                            ownerName := orElse ownerData.name (js "Dueño"),
                            ownerPhone := orElse ownerData.phone (js "No disponible"),
                            ownerPushToken := ownerData.expoPushToken,
                            rescuerName := orElse rescuerData.name (js "Un buen samaritano"),
                            rescuerPhone := orElse rescuerData.phone (js "No proporcionado") },
                        messageModalVisible := true })
                  | _, _ => scanFailed w2 s1
            | _ => scanFailed w1 s1

/-- `closeMessageModal` (lines 245-250). -/
def closeMessageModal (s : CommunityState) : CommunityState :=
  { s with messageModalVisible := false, message := [], scannedPetData := none,
           scanned := false }

/-- Outcomes of the calls of `handleSendMessage`. -/
structure SendEnv where
  /-- The position returned by `getCurrentPositionAsync`, or `none` when it rejects. -/
  position : Option Coords
  push : PushEnv
  /-- `getDocs` of the active-report query rejects. -/
  queryRejects : Bool
  /-- `updateDoc` on the report rejects. -/
  reportUpdateRejects : Bool
  /-- `updateDoc` on the pet rejects for a reason other than a missing document. -/
  petUpdateRejects : Bool
  /-- Value of `serverTimestamp()` in the report update. -/
  serverTime : Nat

/-- The `catch` and `finally` blocks of `handleSendMessage` (lines 220-225). -/
def sendFailed (w : World) (s : CommunityState) : World × CommunityState :=
  ((w.call (.consoleError (js "Error al enviar mensaje:"))).call
      (.alert (js "Error") (js "No se pudo enviar la notificación.")),
    { s with isProcessing := false })

/-- The title of the notification built by `handleSendMessage` (line 180). -/
def foundTitle (rt : Runtime) (petName : JsVal) : JsString :=
  js "✅ ¡" ++ petName.toStr rt ++ js " ha sido localizada!"

/-- The body of the notification built by `handleSendMessage` (lines 177-186). -/
def foundBody (rt : Runtime) (c : Candidate) (coords : Coords) (message : JsString) :
    JsString :=
  let locationString :=
    js "Lat: " ++ toFixed rt 4 coords.latitude ++ js ", Lon: " ++ toFixed rt 4 coords.longitude
  let body := c.rescuerName ++ js " escaneó el QR de tu mascota en: " ++ locationString ++
    js ".\nTeléfono del rescatista: " ++ c.rescuerPhone ++ js "."
  if (trim message).length > 0 then body ++ js "\n\nMensaje: \"" ++ trim message ++ js "\""
  else body

/-- Step 4 of `handleSendMessage` on the first report of the query result, if any
(lines 196-205): the world after it, and whether the `updateDoc` was accepted. The
identifier `reportSnap.docs[0].id` is one of the collection, which `doc` takes as it
is. -/
def resolveFirstReport (env : SendEnv) (c : Candidate) (coords : Coords)
    (found : List (JsString × ReportDoc)) (w : World) : World × Bool :=
  match found with
  | [] => (w, true)
  | first :: _ =>
    let patch : ReportPatch :=
      { status := js "found", foundBy := c.rescuerName, foundByPhone := c.rescuerPhone,
        foundAt := coords, foundAtTime := env.serverTime }
    let w1 := w.call (.updateReportDoc first.1 patch)
    if env.reportUpdateRejects then (w1, false)
    else ({ w1 with store := w1.store.updateReport first.1 patch }, true)

/-- `handleSendMessage` (CommunityScreen.js, lines 159-226). `where("petId", "==", petId)`
throws on `undefined` and compares the field with the value as it is; a value that is not
a string equals the `petId` of no report and makes `doc(db, "pets", petId)` throw, and so
does a string that is no document path; the pet updated is the document that the path
denotes (`docRef`); `updateDoc` rejects when the document does not exist. -/
def handleSendMessage (rt : Runtime) (env : SendEnv) (w : World) (s : CommunityState) :
    World × CommunityState :=
  match s.scannedPetData with
  | none => (w, s)
  | some c =>
    if s.isProcessing then (w, s)
    else
      let s1 := { s with isProcessing := true }
      let w1 := w.call .getCurrentPosition
      match env.position with
      | none => sendFailed w1 s1
      | some coords =>
        let title := foundTitle rt c.petName
        let body := foundBody rt c coords s.message
        let w2 := sendPushNotification env.push c.ownerPushToken title body (some c.ownerId) w1
        match c.petId with
        | .undefined => sendFailed w2 s1
        | petId =>
          let w3 := w2.call (.queryActiveReports petId)
          if env.queryRejects then sendFailed w3 s1
          else
            let found :=
              match petId with
              | .str id => w3.store.activeReports id
              | _ => []
            let resolved := resolveFirstReport env c coords found w3
            if !resolved.2 then sendFailed resolved.1 s1
            else
              match petId with
              | .str path =>
                match docRef resolved.1.store.pets path with
                | none => sendFailed resolved.1 s1
                | some id =>
                  let patch : PetPatch := { status := js "safe", location := some coords }
                  let w5 := resolved.1.call (.updatePetDoc id patch)
                  if env.petUpdateRejects || (findDoc id w5.store.pets).isNone then
                    sendFailed w5 s1
                  else
                    let w6 := { w5 with store := w5.store.updatePet id patch }
                    ((w6.call (.alert (js "¡Notificación Enviada!")
                        (js "Gracias por ayudar. El dueño de " ++ c.petName.toStr rt ++
                          js " ha sido notificado."))),
                      { closeMessageModal s1 with isProcessing := false })
              | _ => sendFailed resolved.1 s1

/-! ## Unread count (App.js, lines 32-50) -/

/-- The state of `MainTabs` that the snapshot listener writes. -/
structure MainTabsState where
  unreadCount : Nat
  deriving DecidableEq

/-- The documents delivered by the subscription `where("userId", "==", user.uid)` on
`notifications` (lines 40-43). -/
def notificationsOf (st : Store) (uid : JsString) : List NotificationDoc :=
  (st.notifications.filter (fun d => decide (d.2.userId = uid))).map (fun d => d.2)

/-- The snapshot listener of `MainTabs` (lines 44-48): `!n.read` holds of a document
whose `read` is `false` or absent. -/
def onNotificationsSnapshot (snapshot : List NotificationDoc) (_s : MainTabsState) :
    MainTabsState :=
  let all := snapshot
  let unread := (all.filter (fun n => !(n.read == some true))).length
  { unreadCount := unread }

/-- The result of the query of `handleSendMessage` for the active reports of `petId`
(lines 192-194): no stored `petId` equals a value that is not a string. -/
def activeReportsFor (st : Store) (petId : JsVal) : List (JsString × ReportDoc) :=
  match petId with
  | .str id => st.activeReports id
  | _ => []

/-- The identifier of the `pets` document that `doc(db, "pets", petId)` denotes (there
is none when `doc` throws). -/
def petRefFor (st : Store) (petId : JsVal) : Option JsString :=
  match petId with
  | .str path => docRef st.pets path
  | _ => none

/-- A numeral with exactly `k` decimal places: an optional minus sign, one or more
digits, a point and `k` digits. -/
def isFixedDecimal (k : Nat) (t : JsString) : Bool :=
  let unsigned :=
    match t with
    | 0x2D :: rest => rest
    | _ => t
  !(unsigned.takeWhile isDigit).isEmpty &&
    match unsigned.dropWhile isDigit with
    | 0x2E :: decimals => decimals.length == k && decimals.all isDigit
    | _ => false

/-- The quoted suffix appended to the body for a non-empty message (line 185). -/
def messageSuffix (message : JsString) : JsString :=
  js "\n\nMensaje: \"" ++ trim message ++ js "\""

/-! ## Exceptions made explicit

The handlers above are written with their `try`/`catch` blocks already resolved. The
definitions below write the same handlers statement by statement over code that may
throw, so that an exception that no `catch` block receives shows in the result. -/

/-- How a piece of code ends: normally, with a value, or by throwing. -/
inductive Completion (α : Type) where
  | normal (value : α)
  | thrown (error : JsString)

/-- Code that runs on the world and on the state `σ` of a screen and ends with a
`Completion`. -/
def Code (σ α : Type) : Type := World → σ → World × σ × Completion α

def Code.run {σ α : Type} (code : Code σ α) (w : World) (s : σ) : World × σ × Completion α :=
  code w s

def Code.pure {σ α : Type} (a : α) : Code σ α := fun w s => (w, s, .normal a)

/-- Sequencing: a thrown exception skips the rest. -/
def Code.bind {σ α β : Type} (code : Code σ α) (next : α → Code σ β) : Code σ β := fun w s =>
  match code w s with
  | (w1, s1, .normal a) => next a w1 s1
  | (w1, s1, .thrown e) => (w1, s1, .thrown e)

def Code.throw {σ α : Type} (error : JsString) : Code σ α := fun w s => (w, s, .thrown error)

/-- `try { body } catch (e) { handler }`. -/
def Code.tryCatch {σ α : Type} (body : Code σ α) (handler : JsString → Code σ α) :
    Code σ α := fun w s =>
  match body w s with
  | (w1, s1, .thrown e) => handler e w1 s1
  | (w1, s1, .normal a) => (w1, s1, .normal a)

/-- `try { body } finally { cleanup }`: the cleanup runs however the body ends. -/
def Code.tryFinally {σ α β : Type} (body : Code σ α) (cleanup : Option α → Code σ β) :
    Code σ (α × β) := fun w s =>
  match body w s with
  | (w1, s1, .normal a) =>
    match cleanup (some a) w1 s1 with
    | (w2, s2, .normal b) => (w2, s2, .normal (a, b))
    | (w2, s2, .thrown e) => (w2, s2, .thrown e)
  | (w1, s1, .thrown e) =>
    match cleanup none w1 s1 with
    | (w2, s2, .normal _) => (w2, s2, .thrown e)
    | (w2, s2, .thrown e2) => (w2, s2, .thrown e2)

instance {σ : Type} : Monad (Code σ) where
  pure := Code.pure
  bind := Code.bind

instance {σ : Type} : MonadExcept JsString (Code σ) where
  throw := Code.throw
  tryCatch := Code.tryCatch

instance {σ : Type} : MonadFinally (Code σ) where
  tryFinally' := Code.tryFinally

/-- A call that cannot fail (an alert, a console entry). -/
def Code.log {σ : Type} (c : Call) : Code σ Unit := fun w s => (w.call c, s, .normal ())

/-- An awaited call: it is issued, then throws when it is rejected. -/
def Code.await {σ : Type} (rejects : Bool) (c : Call) : Code σ Unit := fun w s =>
  if rejects then (w.call c, s, .thrown (js "rejected")) else (w.call c, s, .normal ())

/-- The effect on the store of a call that was accepted. -/
def Code.writeStore {σ : Type} (effect : Store → Store) : Code σ Unit := fun w s =>
  ({ w with store := effect w.store }, s, .normal ())

def Code.getStore {σ : Type} : Code σ Store := fun w s => (w, s, .normal w.store)

/-- `auth.currentUser`. -/
def Code.currentUser {σ : Type} : Code σ (Option JsString) := fun w s =>
  (w, s, .normal w.currentUser)

def Code.getState {σ : Type} : Code σ σ := fun w s => (w, s, .normal s)

/-- A state setter of the screen. -/
def Code.setState {σ : Type} (update : σ → σ) : Code σ Unit := fun w s =>
  (w, update s, .normal ())

/-- `Location.requestForegroundPermissionsAsync()`: whether the status is "granted". -/
def Code.requestPermissions {σ : Type} (outcome : LocationOutcome) : Code σ Bool := do
  match outcome with
  | .permissionRejected => Code.await true .requestForegroundPermissions; pure false
  | .denied => Code.log .requestForegroundPermissions; pure false
  | _ => Code.log .requestForegroundPermissions; pure true

/-- `Location.getCurrentPositionAsync({})`. -/
def Code.currentPosition {σ : Type} (position : Option Coords) : Code σ Coords := do
  match position with
  | none => Code.await true .getCurrentPosition; throw (js "rejected")
  | some coords => Code.log .getCurrentPosition; pure coords

/-- `getCurrentCoords` (PetsScreen.js, lines 71-84), statement by statement. -/
def getCurrentCoordsCode {σ : Type} (outcome : LocationOutcome) : Code σ (Option Coords) := do
  try
    let granted ← Code.requestPermissions outcome
    if !granted then
      Code.log (.alert (js "Permiso denegado") (js "Activa la ubicación para continuar."))
      pure none
    else
      let coords ← Code.currentPosition
        (match outcome with
          | .granted coords => some coords
          | _ => none)
      pure (some coords)
  catch _ =>
    Code.log (.consoleWarn (js "⚠️ No se pudo obtener ubicación:"))
    pure none

/-- `createAndSaveNotification` (PetsScreen.js, lines 204-222), statement by statement. -/
def createAndSaveNotificationCode {σ : Type} (env : NotifyEnv) (title body : JsString) :
    Code σ Unit := do
  try
    Code.await env.scheduleRejects (.scheduleNotification title body)
    let user ← Code.currentUser
    match user with
    | none => pure ()
    | some uid =>
      let doc : NotificationDoc :=
        { userId := uid, title := title, body := body, createdAt := env.serverTime,
          read := none }
      Code.await env.addRejects (.addNotificationDoc doc)
      Code.writeStore (fun st => st.addNotification env.newId doc)
  catch _ =>
    Code.log (.consoleWarn (js "Error al crear notificación:"))

/-- `sendPushNotification` (notificationService.js, lines 100-148), statement by
statement. -/
def sendPushNotificationCode {σ : Type} (env : PushEnv) (expoPushToken : Option JsString)
    (title message : JsString) (recipientId : Option JsString) : Code σ Unit := do
  match present expoPushToken with
  | none =>
    Code.log (.consoleWarn
      (js "No se proporcionó expoPushToken. No se enviará la notificación push."))
  | some token =>
    try
      Code.await env.fetchRejects (.fetchPush token title message)
    catch _ =>
      Code.log (.consoleError (js "Error al enviar notificación PUSH:"))
  match present recipientId with
  | none =>
    Code.log (.consoleError
      (js "No se proporcionó recipientId. No se puede guardar la notificación."))
  | some recipient =>
    let doc : NotificationDoc :=
      { userId := recipient, title := title, body := message, createdAt := env.serverTime,
        read := some false }
    try
      Code.await env.addRejects (.addNotificationDoc doc)
      Code.writeStore (fun st => st.addNotification env.newId doc)
    catch _ =>
      Code.log (.consoleError (js "Error al guardar notificación en Firestore:"))

/-- `doc(db, collection, path)`: the identifier of the document that the path denotes; it
throws when the path is no document path. -/
def Code.doc {σ : Type} (reference : Store → Option JsString) : Code σ JsString := do
  let st ← Code.getStore
  match reference st with
  | none => throw (js "FirebaseError")
  | some id => pure id

/-- `updateDoc` on a `pets` document: it throws when the store rejects it or when the
document does not exist. -/
def Code.updatePet {σ : Type} (rejects : Bool) (id : JsString) (patch : PetPatch) :
    Code σ Unit := do
  let st ← Code.getStore
  Code.await (rejects || (findDoc id st.pets).isNone) (.updatePetDoc id patch)
  Code.writeStore (fun st => st.updatePet id patch)

/-- `addPet` (PetsScreen.js, lines 86-120), statement by statement. -/
def addPetCode (env : AddPetEnv) : Code PetsState Unit := do
  let s ← Code.getState
  if s.newPet.name.isEmpty || s.newPet.type.isEmpty then
    Code.log (.alert (js "Error") (js "Por favor completa el nombre y el tipo."))
  else
    try
      Code.setState (fun s => { s with saving := true })
      let user ← Code.currentUser
      let coords ← getCurrentCoordsCode env.location
      match user with
      | none => throw (js "TypeError")
      | some uid =>
        let doc : PetDoc :=
          { form := s.newPet, userId := uid, chip := js "QR Simulado", createdAt := env.now,
            location := coords, status := js "safe" }
        Code.await env.addRejects (.addPetDoc doc)
        Code.writeStore (fun st => st.addPet env.newId doc)
        createAndSaveNotificationCode env.notify (js "Nueva mascota agregada")
          (js "Has registrado a " ++ s.newPet.name ++ js ".")
        Code.setState (fun s => { s with newPet := emptyForm })
        Code.setState (fun s => { s with modalVisible := false })
        Code.log (.alert (js "Éxito") (js "Mascota guardada correctamente."))
    catch _ =>
      Code.log (.consoleError (js "Error al guardar mascota:"))
      Code.log (.alert (js "Error") (js "No se pudo guardar la mascota."))
    finally
      Code.setState (fun s => { s with saving := false })

/-- The `onPress` of "Sí, Reportar" in `handleReportLost` (PetsScreen.js, lines 131-171),
statement by statement. -/
def confirmReportLostCode {σ : Type} (env : ReportEnv) (pet : PetItem) : Code σ Unit := do
  let located ← getCurrentCoordsCode env.location
  match located with
  | none =>
    Code.log (.alert (js "Error") (js "No se pudo obtener tu ubicación actual para el reporte."))
  | some coords =>
    try
      Code.await env.queryRejects (.queryActiveReports (.str pet.id))
      let st ← Code.getStore
      let existingReport := st.activeReports pet.id
      if !existingReport.isEmpty then
        Code.log (.alert (js "Reporte existente")
          (pet.data.form.name ++ js " ya tiene un reporte activo."))
      else
        let doc : ReportDoc :=
          { petId := pet.id, userId := pet.data.userId, petName := pet.data.form.name,
            petType := pet.data.form.type, location := coords, status := js "active",
            createdAt := env.serverTime, foundBy := none, foundByPhone := none,
            foundAt := none, foundAtTime := none }
        Code.await env.addRejects (.addReportDoc doc)
        Code.writeStore (fun st => st.addReport env.newId doc)
        let patch : PetPatch := { status := js "lost", location := none }
        Code.updatePet env.updateRejects pet.id patch
        createAndSaveNotificationCode env.notify (js "🆘 Reporte Creado")
          (js "Tu reporte de " ++ pet.data.form.name ++
            js " está activo. ¡Esperamos que la encuentres pronto!")
        Code.log (.alert (js "Reporte Creado")
          (js "Tu mascota ahora es visible en el mapa de la comunidad."))
    catch _ =>
      Code.log (.consoleError (js "Error al crear reporte:"))
      Code.log (.alert (js "Error") (js "No se pudo crear el reporte."))

/-- The `onPress` of "Eliminar" in `deletePet` (PetsScreen.js, lines 186-198), statement
by statement. -/
def confirmDeletePetCode {σ : Type} (env : DeleteEnv) (petId petName : JsString) :
    Code σ Unit := do
  try
    Code.await env.deleteRejects (.deletePetDoc petId)
    Code.writeStore (fun st => st.deletePet petId)
    createAndSaveNotificationCode env.notify (js "Mascota eliminada")
      (petName ++ js " ha sido eliminada de tu lista.")
    Code.log (.alert (js "Eliminada") (petName ++ js " fue eliminada correctamente."))
  catch _ =>
    Code.log (.consoleError (js "Error al eliminar mascota:"))
    Code.log (.alert (js "Error") (js "No se pudo eliminar la mascota."))

/-- `handleBarCodeScanned` (CommunityScreen.js, lines 106-156), statement by statement. -/
def handleBarCodeScannedCode (env : ScanEnv) (data : JsString) : Code CommunityState Unit := do
  let s ← Code.getState
  if s.scanned then pure ()
  else
    Code.setState (fun s => { s with scanned := true })
    Code.setState (fun s => { s with scannerVisible := false })
    let rescuerUser ← Code.currentUser
    match rescuerUser with
    | none =>
      Code.log (.alert (js "Error") (js "Debes iniciar sesión para reportar un hallazgo."))
      Code.setState (fun s => { s with scanned := false })
    | some uid =>
      try
        match decodeQr data with
        | none => throw (js "QR no válido.")
        | some qrData =>
          if qrData.ownerId.isString uid then
            Code.log (.alert (js "¡Es tu mascota!")
              (js "No puedes escanear tu propio QR de rescate."))
            Code.setState (fun s => { s with scanned := false })
          else
            Code.await env.rescuerReadRejects (.getUserDoc uid)
            let rescuerDoc := findDoc uid (← Code.getStore).users
            match qrData.ownerId with
            | .str ownerId =>
              let ownerKey ← Code.doc (fun st => docRef st.users ownerId)
              Code.await env.ownerReadRejects (.getUserDoc ownerKey)
              let ownerDoc := findDoc ownerKey (← Code.getStore).users
              match ownerDoc, rescuerDoc with
              | none, _ => throw (js "Dueño no encontrado.")
              | some _, none => throw (js "TypeError")
              | some ownerData, some rescuerData =>
                let candidate : Candidate :=
                  { petId := qrData.petId, petName := qrData.name, ownerId := ownerId,
                    ownerName := orElse ownerData.name (js "Dueño"),
                    ownerPhone := orElse ownerData.phone (js "No disponible"),
                    ownerPushToken := ownerData.expoPushToken,
                    rescuerName := orElse rescuerData.name (js "Un buen samaritano"),
                    rescuerPhone := orElse rescuerData.phone (js "No proporcionado") }
                Code.setState (fun s => { s with scannedPetData := some candidate })
                Code.setState (fun s => { s with messageModalVisible := true })
            | _ => throw (js "FirebaseError")
      catch _ =>
        Code.log (.consoleError (js "Error al escanear QR:"))
        Code.log (.alert (js "Error") (js "Este QR no es válido."))
        Code.setState (fun s => { s with scanned := false })

/-- `handleSendMessage` (CommunityScreen.js, lines 159-226), statement by statement. -/
def handleSendMessageCode (rt : Runtime) (env : SendEnv) : Code CommunityState Unit := do
  let s ← Code.getState
  match s.scannedPetData with
  | none => pure ()
  | some c =>
    if s.isProcessing then pure ()
    else
      Code.setState (fun s => { s with isProcessing := true })
      try
        let coords ← Code.currentPosition env.position
        let title := foundTitle rt c.petName
        let body := foundBody rt c coords s.message
        sendPushNotificationCode env.push c.ownerPushToken title body (some c.ownerId)
        match c.petId with
        | .undefined => throw (js "FirebaseError")
        | petId =>
          Code.await env.queryRejects (.queryActiveReports petId)
          let st ← Code.getStore
          let reportSnap :=
            match petId with
            | .str id => st.activeReports id
            | _ => []
          match reportSnap with
          | [] => pure ()
          | first :: _ =>
            let patch : ReportPatch :=
              { status := js "found", foundBy := c.rescuerName, foundByPhone := c.rescuerPhone,
                foundAt := coords, foundAtTime := env.serverTime }
            Code.await env.reportUpdateRejects (.updateReportDoc first.1 patch)
            Code.writeStore (fun st => st.updateReport first.1 patch)
          match petId with
          | .str path =>
            let id ← Code.doc (fun st => docRef st.pets path)
            let patch : PetPatch := { status := js "safe", location := some coords }
            Code.updatePet env.petUpdateRejects id patch
          | _ => throw (js "FirebaseError")
          Code.log (.alert (js "¡Notificación Enviada!")
            (js "Gracias por ayudar. El dueño de " ++ c.petName.toStr rt ++
              js " ha sido notificado."))
          Code.setState closeMessageModal
      catch _ =>
        Code.log (.consoleError (js "Error al enviar mensaje:"))
        Code.log (.alert (js "Error") (js "No se pudo enviar la notificación."))
      finally
        Code.setState (fun s => { s with isProcessing := false })

/-! ## Pet icons (PetsScreen.js, lines 226-246) -/

/-- The part of the Unicode case mapping that the embedding takes as given. -/
structure CaseMapping where
  /-- `toLowerCase` of a string that has a code unit outside ASCII. -/
  lowerOf : JsString → JsString

/-- Lower case of an ASCII code unit: `A`-`Z` go to `a`-`z`. -/
def asciiLower (u : Nat) : Nat := if 0x41 ≤ u ∧ u ≤ 0x5A then u + 0x20 else u

/-- `String.prototype.toLowerCase`: on a string of ASCII code units each unit is mapped
by itself. -/
def toLowerCase (cm : CaseMapping) (s : JsString) : JsString :=
  if s.all (fun u => decide (u < 0x80)) then s.map asciiLower else cm.lowerOf s

/-- The own properties of the object literal `icons` (lines 228-244), in source order. -/
def icons : List (JsString × JsString) :=
  [(js "perro", js "https://cdn-icons-png.flaticon.com/512/616/616408.png"),
   (js "gato", js "https://cdn-icons-png.flaticon.com/512/616/616430.png"),
   (js "ave", js "https://cdn-icons-png.flaticon.com/512/6031/6031612.png"),
   (js "pez", js "https://cdn-icons-png.flaticon.com/512/2241/2241046.png"),
   (js "conejo", js "https://cdn-icons-png.flaticon.com/512/3831/3831225.png"),
   (js "tortuga", js "https://cdn-icons-png.flaticon.com/512/1623/1623835.png"),
   (js "hamster", js "https://cdn-icons-png.flaticon.com/512/1405/1405497.png"),
   (js "cobaya", js "https://cdn-icons-png.flaticon.com/512/7699/7699663.png"),
   (js "chinchilla", js "https://cdn-icons-png.flaticon.com/512/2808/2808845.png"),
   (js "raton", js "https://cdn-icons-png.flaticon.com/512/4734/47342.png"),
   (js "serpiente", js "https://cdn-icons-png.flaticon.com/512/5375/5375880.png"),
   (js "iguana", js "https://cdn-icons-png.flaticon.com/512/3060/3060599.png"),
   (js "axolote", js "https://cdn-icons-png.flaticon.com/512/9599/9599605.png"),
   (js "loro", js "https://cdn-icons-png.flaticon.com/512/2808/2808884.png"),
   (js "default", js "https://cdn-icons-png.flaticon.com/512/616/616554.png")]

/-- The property names of `Object.prototype`, the prototype of an object literal. Each
of them holds a function, except `__proto__`, whose getter returns `Object.prototype`
itself. -/
def objectPrototypeNames : List JsString :=
  [js "constructor", js "hasOwnProperty", js "isPrototypeOf", js "propertyIsEnumerable",
   js "toLocaleString", js "toString", js "valueOf", js "__proto__", js "__defineGetter__",
   js "__defineSetter__", js "__lookupGetter__", js "__lookupSetter__"]

/-- A value read from `icons`. -/
inductive IconValue where
  /-- One of the strings of the table. -/
  | url (s : JsString)
  /-- The function or object held by `Object.prototype` under this name; it is no
  string. -/
  | inherited (name : JsString)
  deriving DecidableEq

/-- The property read `icons[key]`: an own property, else a property inherited from
`Object.prototype`, else `undefined` (`none`). -/
def iconsGet (key : JsString) : Option IconValue :=
  match findDoc key icons with
  | some s => some (.url s)
  | none => if key ∈ objectPrototypeNames then some (.inherited key) else none

/-- ToBoolean of a value read from `icons`: a string is truthy when it is not empty, a
function or an object always. -/
def IconValue.truthy : IconValue → Bool
  | .url s => !s.isEmpty
  | .inherited _ => true

/-- `getPetIcon` (PetsScreen.js, lines 226-246); `none` is the argument `undefined`, for
which the parameter takes its default `""`. -/
def getPetIcon (cm : CaseMapping) (type : Option JsString) : Option IconValue :=
  let type :=
    match type with
    | some s => s
    | none => js ""
  let key := toLowerCase cm (trim type)
  match iconsGet key with
  | some v => if v.truthy then some v else iconsGet (js "default")
  | none => iconsGet (js "default")

/-- The icon that the table registers for a key: the URL of a listed species, and the
default URL for every other key. -/
def registeredIcon (key : JsString) : JsString :=
  match findDoc key (icons.take 14) with
  | some s => s
  | none => js "https://cdn-icons-png.flaticon.com/512/616/616554.png"

/-! ## New-pet form (PetsScreen.js, lines 364-370) -/

/-- Evaluation of the identifier `newPet` in a change handler: the form of the render
that created the handler. -/
def Code.newPet : Code PetsState PetForm := fun w s => (w, s, .normal s.newPet)

/-- Evaluation of the identifier `newMascota` (line 366). PetsScreen.js declares,
imports and receives no such name, and it is no global: the evaluation throws a
`ReferenceError`. -/
def Code.newMascota : Code PetsState PetForm := throw (js "ReferenceError")

/-- The state setter `setNewPet`. -/
def setNewPet (form : PetForm) : Code PetsState Unit :=
  Code.setState (fun s => { s with newPet := form })

/-- `onChangeText` of "Nombre" (line 364). -/
def onChangeName (t : JsString) : Code PetsState Unit := do
  let newPet ← Code.newPet
  setNewPet { newPet with name := t }

/-- `onChangeText` of "Tipo" (line 365). -/
def onChangeType (t : JsString) : Code PetsState Unit := do
  let newPet ← Code.newPet
  setNewPet { newPet with type := t }

/-- `onChangeText` of "Edad" (line 366). -/
def onChangeAge (t : JsString) : Code PetsState Unit := do
  let newMascota ← Code.newMascota
  setNewPet { newMascota with age := t }

/-- `onChangeText` of "Raza" (line 367). -/
def onChangeBreed (t : JsString) : Code PetsState Unit := do
  let newPet ← Code.newPet
  setNewPet { newPet with breed := t }

/-- `onChangeText` of "Color" (line 368). -/
def onChangeColor (t : JsString) : Code PetsState Unit := do
  let newPet ← Code.newPet
  setNewPet { newPet with color := t }

/-- `onChangeText` of "Peso (kg)" (line 369). -/
def onChangeWeight (t : JsString) : Code PetsState Unit := do
  let newPet ← Code.newPet
  setNewPet { newPet with weight := t }

/-- `onChangeText` of "Vacunas (opcional)" (line 370). -/
def onChangeVaccines (t : JsString) : Code PetsState Unit := do
  let newPet ← Code.newPet
  setNewPet { newPet with vaccines := t }

/-! ## Map centre (CommunityScreen.js, lines 36-39 and 253-267) -/

/-- A JavaScript number: a finite value, kept as the rational that it denotes (`0` also
stands for `-0`), `NaN`, or an infinity. -/
inductive JsNumber where
  | finite (q : ℚ)
  | nan
  | infinity
  | negInfinity
  deriving DecidableEq

/-- `Number.isFinite`. -/
def JsNumber.isFinite : JsNumber → Bool
  | .finite _ => true
  | _ => false

/-- ToBoolean of a number: `0`, `-0` and `NaN` are falsy. -/
def JsNumber.truthy : JsNumber → Bool
  | .finite q => decide (q ≠ 0)
  | .nan => false
  | _ => true

/-- The operator `a || b` on numbers. -/
def JsNumber.or (a b : JsNumber) : JsNumber := if a.truthy then a else b

/-- `Number(x)` for a value `x` that is a number already. -/
def Number (x : JsNumber) : JsNumber := x

/-- The `location` state of `CommunityScreen`, when it is not `null`: the `coords` of the
position returned by the location provider (line 88) or `INITIAL_REGION` (lines 83 and
91); both carry the numbers `latitude` and `longitude`. -/
structure MapLocation where
  latitude : JsNumber
  longitude : JsNumber
  deriving DecidableEq

/-- `INITIAL_REGION` (lines 36-39). -/
def INITIAL_REGION : MapLocation :=
  { latitude := .finite 19.4326, longitude := .finite (-99.1332) }

/-- `locationValid` (lines 253-256); `none` is the state `null`. -/
def locationValid (location : Option MapLocation) : Bool :=
  match location with
  | none => false
  | some l => (Number l.latitude).isFinite && (Number l.longitude).isFinite

/-- `safeLat` (line 266). -/
def safeLat (location : MapLocation) : JsNumber :=
  (Number location.latitude).or INITIAL_REGION.latitude

/-- `safeLng` (line 267). -/
def safeLng (location : MapLocation) : JsNumber :=
  (Number location.longitude).or INITIAL_REGION.longitude

/-- What `CommunityScreen` renders: the loader, or the map with the user marker and the
view centred at `[safeLat, safeLng]` (lines 309 and 332). -/
inductive CommunityView where
  | loader
  | map (safeLat safeLng : JsNumber)
  deriving DecidableEq

/-- The render of `CommunityScreen` from `loading` and `location` (lines 253-267). -/
def renderCommunity (loading : Bool) (location : Option MapLocation) : CommunityView :=
  if loading || !locationValid location then .loader
  else
    match location with
    | none => .loader
    | some l => .map (safeLat l) (safeLng l)

/-! ## Sequences of workflow actions -/

/-- The number of active reports of a pet. -/
def activeCount (st : Store) (petId : JsString) : Nat := (st.activeReports petId).length

/-- Stores reached from an empty `lost_pet_reports` collection by report-lost and
resolve-found actions, each run to completion under any outcome of its calls, for any
signed-in account and screen state. -/
inductive Reachable : Store → Prop where
  | init (st : Store) : st.reports = [] → Reachable st
  | report (env : ReportEnv) (pet : PetItem) (w : World) :
      Reachable w.store → Reachable (confirmReportLost env pet w).store
  | resolve (rt : Runtime) (env : SendEnv) (w : World) (s : CommunityState) :
      Reachable w.store → Reachable (handleSendMessage rt env w s).1.store

/-- Stores reached from a store without pets and without reports by fully successful
`addPet`, report-lost and resolve-found actions, run one after the other: each action
meets the conditions under which it reaches its success notice ("Éxito", "Reporte
Creado", "¡Notificación Enviada!"), and the store gives a new document an identifier
that is not in use in its collection. A resolve-found action succeeds for a candidate
whose `petId` is a path that denotes a stored pet. -/
inductive ReachableBySuccess : Store → Prop where
  | init (st : Store) : st.pets = [] → st.reports = [] → ReachableBySuccess st
  | addPet (env : AddPetEnv) (w : World) (s : PetsState) (uid : JsString) :
      ReachableBySuccess w.store → s.newPet.name ≠ [] → s.newPet.type ≠ [] →
      w.currentUser = some uid → env.addRejects = false →
      findDoc env.newId w.store.pets = none →
      ReachableBySuccess (addPet env w s).1.store
  | report (env : ReportEnv) (pet : PetItem) (w : World) (coords : Coords) (d : PetDoc) :
      ReachableBySuccess w.store → env.location = .granted coords →
      env.queryRejects = false → w.store.activeReports pet.id = [] →
      env.addRejects = false → env.updateRejects = false →
      findDoc pet.id w.store.pets = some d → findDoc env.newId w.store.reports = none →
      ReachableBySuccess (confirmReportLost env pet w).store
  | resolve (rt : Runtime) (env : SendEnv) (w : World) (s : CommunityState) (c : Candidate)
      (path id : JsString) (coords : Coords) (d : PetDoc) :
      ReachableBySuccess w.store → s.scannedPetData = some c → s.isProcessing = false →
      env.position = some coords → c.petId = .str path → env.queryRejects = false →
      env.reportUpdateRejects = false → env.petUpdateRejects = false →
      docRef w.store.pets path = some id → findDoc id w.store.pets = some d →
      ReachableBySuccess (handleSendMessage rt env w s).1.store

/-- As `ReachableBySuccess`, with every resolve-found action run for a candidate whose
`petId` is the identifier of a stored pet, as it is in the QR that `getQrValue` writes
for that pet. -/
inductive ReachableByExactIds : Store → Prop where
  | init (st : Store) : st.pets = [] → st.reports = [] → ReachableByExactIds st
  | addPet (env : AddPetEnv) (w : World) (s : PetsState) (uid : JsString) :
      ReachableByExactIds w.store → s.newPet.name ≠ [] → s.newPet.type ≠ [] →
      w.currentUser = some uid → env.addRejects = false →
      findDoc env.newId w.store.pets = none →
      ReachableByExactIds (addPet env w s).1.store
  | report (env : ReportEnv) (pet : PetItem) (w : World) (coords : Coords) (d : PetDoc) :
      ReachableByExactIds w.store → env.location = .granted coords →
      env.queryRejects = false → w.store.activeReports pet.id = [] →
      env.addRejects = false → env.updateRejects = false →
      findDoc pet.id w.store.pets = some d → findDoc env.newId w.store.reports = none →
      ReachableByExactIds (confirmReportLost env pet w).store
  | resolve (rt : Runtime) (env : SendEnv) (w : World) (s : CommunityState) (c : Candidate)
      (id : JsString) (coords : Coords) (d : PetDoc) :
      ReachableByExactIds w.store → s.scannedPetData = some c → s.isProcessing = false →
      env.position = some coords → c.petId = .str id → env.queryRejects = false →
      env.reportUpdateRejects = false → env.petUpdateRejects = false →
      findDoc id w.store.pets = some d →
      ReachableByExactIds (handleSendMessage rt env w s).1.store

/-- The invariant behind the state machine: report identifiers are distinct, every
active report belongs to a stored pet, and every pet is either "lost" with one active
report or "safe" with none. -/
def StateMachineInvariant (st : Store) : Prop :=
  (st.reports.map (fun r => r.1)).Nodup ∧
  (∀ r ∈ st.reports, r.2.status = js "active" → (findDoc r.2.petId st.pets).isSome) ∧
  ∀ p ∈ st.pets, (p.2.status = js "lost" ∧ activeCount st p.1 = 1) ∨
    (p.2.status = js "safe" ∧ activeCount st p.1 = 0)

/-! ## Example scenario -/

/-- The pet of the example scenario: `Rex`, a dog of owner `u1`, document `pets/p1`. -/
def rexPet : PetItem :=
  { id := js "p1",
    data :=
      { form := { name := js "Rex", age := [], breed := [], color := [], type := js "Perro",
                  weight := [], vaccines := [] },
        userId := js "u1", chip := js "QR Simulado", createdAt := js "2025-01-01T00:00:00.000Z",
        location := none, status := js "safe" } }

/-- The QR text of the example scenario. -/
def rexPayload : JsString :=
  js "\x7b\"petId\":\"p1\",\"ownerId\":\"u1\",\"name\":\"Rex\"\x7d"

/-- A runtime for the closed examples below, none of which reaches `toStringOf`: every
name in them is a string and every coordinate is below `10^21`. -/
def exampleRuntime : Runtime := { toStringOf := fun _ => [] }

def ownerProfile : UserDoc :=
  { name := some (js "Ana"), phone := some (js "555-0101"),
    expoPushToken := some (js "ExponentPushToken[ana]") }

def finderProfile : UserDoc :=
  { name := some (js "Luis"), phone := some (js "555-0202"), expoPushToken := none }

def homeCoords : Coords := { latitude := 19.4326, longitude := -99.1332 }

def parkCoords : Coords := { latitude := 19.4204, longitude := -99.1819 }

/-- A store with the two profiles and the pet `p1`, safe, and no report. -/
def safeStore : Store :=
  { pets := [(js "p1", rexPet.data)], reports := [], notifications := [],
    users := [(js "u1", ownerProfile), (js "u2", finderProfile)] }

/-- The owner `u1` is signed in. -/
def ownerWorld : World := { store := safeStore, currentUser := some (js "u1"), log := [] }

def okNotify : NotifyEnv :=
  { scheduleRejects := false, addRejects := false, serverTime := 1000, newId := js "n1" }

/-- Every call of the report-lost action succeeds. -/
def okReport : ReportEnv :=
  { location := .granted homeCoords, queryRejects := false, addRejects := false,
    updateRejects := false, serverTime := 1000, newId := js "r1", notify := okNotify }

/-- The world after the owner has reported `p1` lost. -/
def lostWorld : World := confirmReportLost okReport rexPet ownerWorld

/-- The finder `u2` is signed in. -/
def finderWorld : World := { lostWorld with currentUser := some (js "u2"), log := [] }

/-- The community screen with the scanner open and armed. -/
def armedScreen : CommunityState :=
  { scannerVisible := true, scanned := false, messageModalVisible := false,
    scannedPetData := none, message := [], isProcessing := false }

def okScan : ScanEnv := { rescuerReadRejects := false, ownerReadRejects := false }

/-- The candidate staged by scanning the QR of `p1` as `u2`. -/
def rexCandidate : Candidate :=
  { petId := .str (js "p1"), petName := .str (js "Rex"), ownerId := js "u1",
    ownerName := js "Ana", ownerPhone := js "555-0101",
    ownerPushToken := some (js "ExponentPushToken[ana]"),
    rescuerName := js "Luis", rescuerPhone := js "555-0202" }

/-- The community screen with the candidate staged and a message typed. -/
def stagedScreen : CommunityState :=
  { scannerVisible := false, scanned := true, messageModalVisible := true,
    scannedPetData := some rexCandidate, message := js "Encontrado en el parque",
    isProcessing := false }

def okPush : PushEnv :=
  { fetchRejects := false, addRejects := false, serverTime := 2000, newId := js "n2" }

/-- Every call of `handleSendMessage` succeeds. -/
def okSend : SendEnv :=
  { position := some parkCoords, push := okPush, queryRejects := false,
    reportUpdateRejects := false, petUpdateRejects := false, serverTime := 2000 }

/-- As `okSend`, but `getDocs` of the active-report query rejects. -/
def queryRejectedSend : SendEnv := { okSend with queryRejects := true }

/-- As `okReport`, but `addDoc` of the report rejects. -/
def addRejectedReport : ReportEnv := { okReport with addRejects := true }

/-- As `okPush`, but `addDoc` of the notification record rejects. -/
def addRejectedPush : PushEnv := { okPush with addRejects := true }

/-- As `okSend`, but the position is not obtained. -/
def noPositionSend : SendEnv := { okSend with position := none }

/-- As `okReport`, but the location permission is denied. -/
def deniedReport : ReportEnv := { okReport with location := .denied }

/-- A QR text without the key `petId`. -/
def payloadWithoutPetId : JsString := js "\x7b\"ownerId\":\"u1\",\"name\":\"Rex\"\x7d"

/-- The pets screen with a filled form. -/
def filledForm : PetsState :=
  { modalVisible := true, newPet := rexPet.data.form, saving := false,
    qrModalVisible := false, selectedPet := none }

/-- Every call of `addPet` succeeds. -/
def okAddPet : AddPetEnv :=
  { location := .granted homeCoords, addRejects := false,
    now := js "2025-01-01T00:00:00.000Z", newId := js "p2", notify := okNotify }

/-- As `okAddPet`, but the local notification is not scheduled. -/
def unscheduledAddPet : AddPetEnv :=
  { okAddPet with notify := { okNotify with scheduleRejects := true } }

/-- The pets screen with the type of the pet left empty. -/
def formWithoutType : PetsState :=
  { filledForm with newPet := { rexPet.data.form with type := [] } }

/-- The finder `u3` is signed in and has no `users` document. -/
def strangerWorld : World := { lostWorld with currentUser := some (js "u3"), log := [] }

/-- A `users` document that holds nothing but a push token. -/
def bareProfile : UserDoc :=
  { name := none, phone := none, expoPushToken := some (js "ExponentPushToken[eva]") }

/-- The finder `u4` is signed in; the `users` document of `u4` has no name and no phone. -/
def bareFinderWorld : World :=
  { store := { lostWorld.store with users := lostWorld.store.users ++ [(js "u4", bareProfile)] },
    currentUser := some (js "u4"), log := [] }

/-- The community screen after `u2` has scanned the QR of `p1` and typed a message
(`onChangeText={setMessage}`, line 401). -/
def typedScreen : CommunityState :=
  { (handleBarCodeScanned okScan rexPayload finderWorld armedScreen).2 with
    message := js "Encontrado en el parque" }

/-- The world after `u2` has scanned the QR of `p1` and sent the message. -/
def foundWorld (rt : Runtime) : World :=
  (handleSendMessage rt okSend
    (handleBarCodeScanned okScan rexPayload finderWorld armedScreen).1 typedScreen).1

/-- As `okSend`, but `updateDoc` of the report rejects. -/
def reportRejectedSend : SendEnv := { okSend with reportUpdateRejects := true }

/-- As `finderWorld`, with a second active report `r2` of the pet `p1`. -/
def twinReportsWorld : World :=
  { finderWorld with
    store := { finderWorld.store with
               reports := finderWorld.store.reports ++
                 [(js "r2",
                   { petId := js "p1", userId := js "u1", petName := js "Rex",
                     petType := js "Perro", location := homeCoords, status := js "active",
                     createdAt := 1500, foundBy := none, foundByPhone := none,
                     foundAt := none, foundAtTime := none })] } }

/-- The finder `u2` is signed in while `p1` is safe and has no report. -/
def safeFinderWorld : World := { store := safeStore, currentUser := some (js "u2"), log := [] }

/-- The owner `u1` is signed in and the store holds no pet and no report. -/
def emptyWorld : World :=
  { store := { pets := [], reports := [], notifications := [],
               users := [(js "u1", ownerProfile), (js "u2", finderProfile)] },
    currentUser := some (js "u1"), log := [] }

/-- The world after `u1` has registered a pet, stored as `p2`, and reported it lost. -/
def registeredLostWorld : World :=
  confirmReportLost okReport { rexPet with id := js "p2" }
    (addPet okAddPet emptyWorld filledForm).1

/-- The finder `u2` is signed in after `p2` has been registered and reported lost. -/
def registeredFinderWorld : World :=
  { registeredLostWorld with currentUser := some (js "u2"), log := [] }

/-- A QR text whose `petId` is the identifier `p2` followed by "/". -/
def slashPayload : JsString :=
  js "\x7b\"petId\":\"p2/\",\"ownerId\":\"u1\",\"name\":\"Rex\"\x7d"

/-- The community screen after `u2` has scanned `slashPayload`. -/
def slashScreen : CommunityState :=
  (handleBarCodeScanned okScan slashPayload registeredFinderWorld armedScreen).2

/-- The world after `u2` has sent the message for the candidate of `slashPayload`. -/
def slashResolvedWorld : World :=
  (handleSendMessage exampleRuntime okSend registeredFinderWorld slashScreen).1

/-- A QR text whose `ownerId` is the uid `u1` followed by "/". -/
def ownerSlashPayload : JsString :=
  js "\x7b\"petId\":\"p1\",\"ownerId\":\"u1/\",\"name\":\"Rex\"\x7d"

/-- A position on the prime meridian. -/
def meridianLocation : MapLocation :=
  { latitude := .finite 51.5, longitude := .finite 0 }

/-- The form with the name typed in. -/
def namedForm : PetsState :=
  { modalVisible := true, newPet := { emptyForm with name := js "Rex" }, saving := false,
    qrModalVisible := false, selectedPet := none }

/-! ## Round trip of the QR identity codec -/

theorem hexValue_hexDigit (d : Nat) (h : d < 16) : hexValue (hexDigit d) = some d := by
  interval_cases d <;> rfl

theorem unicodeEscape_value (u : Nat) (h : u < 65536) :
    u / 4096 % 16 * 4096 + u / 256 % 16 * 256 + u / 16 % 16 * 16 + u % 16 = u := by
  omega

/-- One step of `parseStringBody` on a non-empty input. -/
theorem parseStringBody_cons (u : Nat) (rest : List Nat) :
    parseStringBody (u :: rest) =
      if u = 0x22 then some ([], rest)
      else if u = 0x5C then
        match rest with
        | [] => none
        | e :: rest1 =>
          if e = 0x75 then
            match rest1 with
            | a :: b :: c :: d :: rest2 =>
              match hexValue a, hexValue b, hexValue c, hexValue d with
              | some a, some b, some c, some d =>
                (parseStringBody rest2).map
                  (fun r => ((a * 4096 + b * 256 + c * 16 + d) :: r.1, r.2))
              | _, _, _, _ => none
            | _ => none
          else
            match simpleEscape e with
            | some x => (parseStringBody rest1).map (fun r => (x :: r.1, r.2))
            | none => none
      else if u < 0x20 then none
      else (parseStringBody rest).map (fun r => (u :: r.1, r.2)) := by
  rw [parseStringBody.eq_def]

/-- The parser reads back one escaped code unit. -/
theorem parseStringBody_escapeUnit (u : Nat) (tail : List Nat) :
    parseStringBody (escapeUnit u ++ tail) =
      (parseStringBody tail).map (fun r => (u :: r.1, r.2)) := by
  unfold escapeUnit
  split_ifs with h1 h2 h3 h4 h5 h6 h7 h8
  · subst h1; simp [parseStringBody_cons, simpleEscape]
  · subst h2; simp [parseStringBody_cons, simpleEscape]
  · subst h3; simp [parseStringBody_cons, simpleEscape]
  · subst h4; simp [parseStringBody_cons, simpleEscape]
  · subst h5; simp [parseStringBody_cons, simpleEscape]
  · subst h6; simp [parseStringBody_cons, simpleEscape]
  · subst h7; simp [parseStringBody_cons, simpleEscape]
  · have hu : u < 65536 := by
      simp only [isHighSurrogate, isLowSurrogate, Bool.or_eq_true, Bool.and_eq_true,
        decide_eq_true_eq] at h8
      omega
    simp only [unicodeEscape, List.cons_append, List.nil_append]
    rw [parseStringBody_cons]
    simp only [Nat.reduceEqDiff, if_false, if_true]
    rw [hexValue_hexDigit _ (Nat.mod_lt _ (by norm_num)),
      hexValue_hexDigit _ (Nat.mod_lt _ (by norm_num)),
      hexValue_hexDigit _ (Nat.mod_lt _ (by norm_num)),
      hexValue_hexDigit _ (Nat.mod_lt _ (by norm_num))]
    simp only [unicodeEscape_value u hu]
  · simp only [Bool.or_eq_true, decide_eq_true_eq, not_or, not_lt] at h8
    have h9 : ¬ u < 0x20 := by omega
    simp only [List.cons_append, List.nil_append]
    rw [parseStringBody_cons, if_neg h6, if_neg h7, if_neg h9]

/-- The parser copies a code unit of a surrogate pair. -/
theorem parseStringBody_surrogate (u : Nat) (tail : List Nat)
    (h : isHighSurrogate u = true ∨ isLowSurrogate u = true) :
    parseStringBody (u :: tail) = (parseStringBody tail).map (fun r => (u :: r.1, r.2)) := by
  have hu : 0xD800 ≤ u := by
    simp only [isHighSurrogate, isLowSurrogate, Bool.and_eq_true, decide_eq_true_eq] at h
    omega
  have h1 : ¬ u = 0x22 := by omega
  have h2 : ¬ u = 0x5C := by omega
  have h3 : ¬ u < 0x20 := by omega
  rw [parseStringBody_cons, if_neg h1, if_neg h2, if_neg h3]

/-- Reading the escaped form of `s` followed by a closing quote gives back `s`. -/
theorem parseStringBody_escapeString (s : JsString) (rest : List Nat) :
    parseStringBody (escapeString s ++ 0x22 :: rest) = some (s, rest) := by
  induction s using escapeString.induct with
  | case1 => simp [escapeString, parseStringBody_cons]
  | case2 u =>
    rw [escapeString, parseStringBody_escapeUnit]
    simp [parseStringBody_cons]
  | case3 u v tl h ih =>
    simp only [Bool.and_eq_true] at h
    rw [escapeString, if_pos (by simp [h.1, h.2]), List.cons_append, List.cons_append,
      parseStringBody_surrogate u _ (Or.inl h.1), parseStringBody_surrogate v _ (Or.inr h.2), ih]
    rfl
  | case4 u v tl h ih =>
    rw [escapeString, if_neg h, List.append_assoc, parseStringBody_escapeUnit, ih]
    rfl

theorem parseValue_quoted (fuel : Nat) (s : JsString) (rest : List Nat) :
    parseValue (fuel + 1) (quoteJSONString s ++ rest) = some (.str s, rest) := by
  simp [quoteJSONString, parseValue, parseStringBody_escapeString]

theorem parseMembers_one (fuel : Nat) (k v : JsString) (rest : List Nat) :
    parseMembers (fuel + 2) (quoteJSONString k ++ [0x3A] ++ quoteJSONString v ++ 0x7D :: rest)
      = some ([(k, .str v)], rest) := by
  have h := parseValue_quoted fuel v (0x7D :: rest)
  simp only [quoteJSONString, List.append_assoc, List.cons_append, List.nil_append] at h ⊢
  simp [parseMembers, parseStringBody_escapeString, skipWs, isJsonSpace, h]

/-- Reading the members written by `stringifyMembers`, up to the closing brace. -/
theorem parseMembers_stringifyMembers (ms : List (JsString × JsString)) :
    ∀ (fuel : Nat) (rest : List Nat), ms ≠ [] → ms.length + 1 ≤ fuel →
      parseMembers fuel (stringifyMembers ms ++ 0x7D :: rest) =
        some (ms.map (fun m => (m.1, JsVal.str m.2)), rest) := by
  induction ms using stringifyMembers.induct with
  | case1 => intro _ _ h; exact absurd rfl h
  | case2 k v =>
    intro fuel rest _ hf
    obtain ⟨n, rfl⟩ : ∃ n, fuel = n + 2 := ⟨fuel - 2, by simp at hf; omega⟩
    simpa [stringifyMembers] using parseMembers_one n k v rest
  | case3 k v tl hne ih =>
    intro fuel rest _ hf
    have htl : tl ≠ [] := hne
    obtain ⟨n, rfl⟩ : ∃ n, fuel = n + 2 := ⟨fuel - 2, by simp at hf; omega⟩
    have hrec := ih (n + 1) rest htl (by simp at hf ⊢; omega)
    have hv := parseValue_quoted n v (0x2C :: (stringifyMembers tl ++ 0x7D :: rest))
    have hstart : ∃ t, stringifyMembers tl ++ 0x7D :: rest = 0x22 :: t := by
      cases tl with
      | nil => exact absurd rfl htl
      | cons m tl2 =>
        cases tl2 <;> exact ⟨_, by simp [stringifyMembers, quoteJSONString]; rfl⟩
    obtain ⟨t, ht⟩ := hstart
    rw [stringifyMembers]
    · simp only [quoteJSONString, List.append_assoc, List.cons_append, List.nil_append] at hv ⊢
      rw [ht] at hv hrec ⊢
      simp [parseMembers, parseStringBody_escapeString, skipWs, isJsonSpace, hv]
      simpa [parseMembers] using hrec
    · exact hne

theorem length_le_stringifyMembers (ms : List (JsString × JsString)) :
    ms.length ≤ (stringifyMembers ms).length := by
  induction ms using stringifyMembers.induct with
  | case1 => simp [stringifyMembers]
  | case2 k v => simp [stringifyMembers, quoteJSONString]
  | case3 k v tl hne ih =>
    rw [stringifyMembers]
    · simp [quoteJSONString] at ih ⊢; omega
    · exact hne

/-- `JSON.parse` inverts `JSON.stringify` on objects with string-valued properties. -/
theorem jsonParse_stringifyObject (ms : List (JsString × JsString)) :
    jsonParse (stringifyObject ms) = some (.obj (ms.map (fun m => (m.1, JsVal.str m.2)))) := by
  cases hms : ms with
  | nil => rfl
  | cons m tl =>
    rw [← hms]
    have hne : ms ≠ [] := by rw [hms]; exact List.cons_ne_nil _ _
    have hlen := length_le_stringifyMembers ms
    have hpos : 0 < ms.length := List.length_pos.mpr hne
    have hstart : ∃ t, stringifyMembers ms ++ [0x7D] = 0x22 :: t := by
      rw [hms]
      cases tl <;> exact ⟨_, by simp [stringifyMembers, quoteJSONString]; rfl⟩
    obtain ⟨t, ht⟩ := hstart
    have htext : stringifyObject ms = 0x7B :: 0x22 :: t := by
      simp [stringifyObject, ← ht]
    have hrec := parseMembers_stringifyMembers ms (2 * (stringifyObject ms).length) [] hne
      (by simp [stringifyObject]; omega)
    rw [ht, htext] at hrec
    rw [jsonParse, htext]
    simp only [List.length_cons] at hrec ⊢
    simp [parseValue, skipWs, isJsonSpace, hrec]

/-- C1 (QR round trip): for every pet whose id, userId and name are non-empty strings,
decoding the text produced by `getQrValue` for that pet (`JSON.parse` followed by the key
checks of `handleBarCodeScanned`) succeeds and yields exactly petId = pet.id,
ownerId = pet.userId and name = pet.name. -/
theorem qr_round_trip (pet : PetItem) (_hid : pet.id ≠ []) (howner : pet.data.userId ≠ [])
    (hname : pet.data.form.name ≠ []) :
    decodeQr (getQrValue (some pet)) =
      some { petId := .str pet.id, ownerId := .str pet.data.userId,
             name := .str pet.data.form.name } := by
  have h1 : (js "petId" = js "ownerId") = False := by decide
  have h2 : (js "petId" = js "name") = False := by decide
  have h3 : (js "ownerId" = js "name") = False := by decide
  have h4 : (js "ownerId" = js "petId") = False := by decide
  have h5 : (js "name" = js "petId") = False := by decide
  have h6 : (js "name" = js "ownerId") = False := by decide
  simp only [decodeQr, getQrValue, jsonParse_stringifyObject, List.map, JsVal.getProp,
    lookupMember, h1, h2, h3, h4, h5, h6, if_true, if_false, JsVal.truthy]
  simp [howner, hname]

/-- The round trip at the payload of the example scenario. -/
theorem qr_round_trip_witness :
    getQrValue (some rexPet) = rexPayload ∧
    decodeQr rexPayload =
      some { petId := .str (js "p1"), ownerId := .str (js "u1"), name := .str (js "Rex") } :=
  ⟨by decide, qr_round_trip rexPet (by decide) (by decide) (by decide)⟩

/-! ## Facts about the store operations -/

theorem findDoc_updateAt {α : Type} (id : JsString) (f : α → α) (docs : List (JsString × α)) :
    findDoc id (updateAt id f docs) = (findDoc id docs).map f := by
  induction docs with
  | nil => rfl
  | cons d rest ih =>
    by_cases h : d.1 = id
    · simp [updateAt, findDoc, h]
    · simp only [updateAt, List.map_cons, findDoc, h, if_false]
      simpa [updateAt] using ih

/-- A path that is an identifier of the collection denotes the document of that
identifier. -/
theorem docRef_of_findDoc {α : Type} (docs : List (JsString × α)) (path : JsString) (d : α)
    (h : findDoc path docs = some d) : docRef docs path = some path := by
  simp [docRef, h]

/-- Paths and the documents that they denote: a "/" at either end is dropped, and `doc`
throws on the empty path, on "//" and on a path of two segments. -/
theorem docPath_examples :
    docPath (js "p1") = some (js "p1") ∧ docPath (js "p1/") = some (js "p1") ∧
    docPath (js "/p1") = some (js "p1") ∧ docPath (js "") = none ∧
    docPath (js "p1//") = none ∧ docPath (js "a/b") = none ∧
    docPath (js "a/b/c") = some (js "a/b/c") := by
  decide

/-! ## ScanDiscovery: `handleBarCodeScanned` -/

/-- The owner `u1` scans a QR text whose `ownerId` is "u1/": the text is not the uid, so
the self-scan test passes; `doc(db, "users", "u1/")` denotes `users/u1`, which is read,
and the candidate is staged with `ownerId` as scanned. -/
theorem scan_by_path_reads_owner :
    handleBarCodeScanned okScan ownerSlashPayload ownerWorld armedScreen =
      ({ ownerWorld with
          log := ownerWorld.log ++ [.getUserDoc (js "u1"), .getUserDoc (js "u1")] },
        { armedScreen with
          scanned := true, scannerVisible := false, messageModalVisible := true,
          scannedPetData := some
            { rexCandidate with
              ownerId := js "u1/", rescuerName := js "Ana", rescuerPhone := js "555-0101" } }) :=
  rfl

/-- A text that does not parse, or whose parsed value has no `ownerId` or no `name`, is
not decoded. -/
theorem decodeQr_eq_none (data : JsString)
    (h : jsonParse data = none ∨
      ∃ v, jsonParse data = some v ∧
        (v.getProp (js "ownerId") = some .undefined ∨ v.getProp (js "name") = some .undefined)) :
    decodeQr data = none := by
  rcases h with h | ⟨v, hv, h | h⟩
  · simp [decodeQr, h]
  · simp only [decodeQr, hv, h]
    cases v.getProp (js "name") <;> cases v.getProp (js "petId") <;> simp [JsVal.truthy]
  · simp only [decodeQr, hv, h]
    cases v.getProp (js "ownerId") <;> cases v.getProp (js "petId") <;> simp [JsVal.truthy]

/-- A scan whose text is not decoded stages nothing and touches no document: the world
gains the console entry and the alert of the `catch` block, the screen only closes the
scanner. -/
theorem scan_undecodable (env : ScanEnv) (data : JsString) (w : World) (s : CommunityState)
    (uid : JsString) (harmed : s.scanned = false) (huser : w.currentUser = some uid)
    (hdata : decodeQr data = none) :
    handleBarCodeScanned env data w s =
      ((w.call (.consoleError (js "Error al escanear QR:"))).call
          (.alert (js "Error") (js "Este QR no es válido.")),
        { s with scanned := false, scannerVisible := false }) := by
  simp [handleBarCodeScanned, harmed, huser, hdata, scanFailed]

/-- C2, at the failing input: the text `{"ownerId":"u1","name":"Rex"}` parses to an object
without the key `petId`, and `handleBarCodeScanned`, run for the finder `u2`, stages a
resolution candidate whose `petId` is `undefined` and opens the message modal. -/
theorem scan_without_petId_stages :
    (jsonParse payloadWithoutPetId).bind (fun v => v.getProp (js "petId")) = some .undefined ∧
    (handleBarCodeScanned okScan payloadWithoutPetId finderWorld armedScreen).2 =
      { armedScreen with
        scanned := true, scannerVisible := false,
        scannedPetData := some { rexCandidate with petId := .undefined },
        messageModalVisible := true } :=
  ⟨rfl, rfl⟩

/-- C3 (self-scan): for every valid payload whose `ownerId` equals the uid of the signed-in
finder, `handleBarCodeScanned`, called with the scanner armed, changes the world only by
the alert "¡Es tu mascota!" appended to the log (the store is untouched and no store
call, read or write, is issued) and changes the screen only by closing the scanner: no
candidate is staged, the message modal is as before and `scanned` is `false` again. -/
theorem self_scan_rejected (env : ScanEnv) (data : JsString) (w : World) (s : CommunityState)
    (uid : JsString) (qrData : QrData) (harmed : s.scanned = false)
    (huser : w.currentUser = some uid) (hvalid : decodeQr data = some qrData)
    (hself : qrData.ownerId = .str uid) :
    handleBarCodeScanned env data w s =
      ({ w with log := w.log ++
          [.alert (js "¡Es tu mascota!") (js "No puedes escanear tu propio QR de rescate.")] },
        { s with scanned := false, scannerVisible := false }) := by
  simp [handleBarCodeScanned, harmed, huser, hvalid, hself, JsVal.isString, World.call]

/-- The owner `u1` scans the QR of the own pet `p1`. -/
theorem self_scan_rejected_witness :
    handleBarCodeScanned okScan rexPayload ownerWorld armedScreen =
      ({ ownerWorld with log := ownerWorld.log ++
          [.alert (js "¡Es tu mascota!") (js "No puedes escanear tu propio QR de rescate.")] },
        { armedScreen with scanned := false, scannerVisible := false }) :=
  self_scan_rejected okScan rexPayload ownerWorld armedScreen (js "u1")
    { petId := .str (js "p1"), ownerId := .str (js "u1"), name := .str (js "Rex") }
    rfl rfl rfl rfl

/-! ## Effects of the notification writers on the store -/

@[simp] theorem World.call_store (w : World) (c : Call) : (w.call c).store = w.store := rfl

@[simp] theorem World.call_currentUser (w : World) (c : Call) :
    (w.call c).currentUser = w.currentUser := rfl

@[simp] theorem getCurrentCoords_store (outcome : LocationOutcome) (w : World) :
    (getCurrentCoords outcome w).1.store = w.store := by
  cases outcome <;> rfl

@[simp] theorem getCurrentCoords_currentUser (outcome : LocationOutcome) (w : World) :
    (getCurrentCoords outcome w).1.currentUser = w.currentUser := by
  cases outcome <;> rfl

/-- `sendPushNotification` writes at most to `notifications`. -/
theorem sendPushNotification_store (env : PushEnv) (token : Option JsString)
    (title message : JsString) (recipientId : Option JsString) (w : World) :
    (sendPushNotification env token title message recipientId w).store =
        w.store ∨
      ∃ doc, (sendPushNotification env token title message recipientId w).store =
        w.store.addNotification env.newId doc := by
  unfold sendPushNotification
  cases present token <;> cases present recipientId <;> cases env.fetchRejects <;>
    cases env.addRejects <;> simp

@[simp] theorem sendPushNotification_pets (env : PushEnv) (token : Option JsString)
    (title message : JsString) (recipientId : Option JsString) (w : World) :
    (sendPushNotification env token title message recipientId w).store.pets = w.store.pets := by
  rcases sendPushNotification_store env token title message recipientId w with h | ⟨doc, h⟩
  · rw [h]
  · rw [h]; rfl

@[simp] theorem sendPushNotification_reports (env : PushEnv) (token : Option JsString)
    (title message : JsString) (recipientId : Option JsString) (w : World) :
    (sendPushNotification env token title message recipientId w).store.reports =
      w.store.reports := by
  rcases sendPushNotification_store env token title message recipientId w with h | ⟨doc, h⟩
  · rw [h]
  · rw [h]; rfl

/-- `createAndSaveNotification` writes at most to `notifications`. -/
theorem createAndSaveNotification_store (env : NotifyEnv) (title body : JsString) (w : World) :
    (createAndSaveNotification env title body w).store = w.store ∨
      ∃ doc, (createAndSaveNotification env title body w).store =
        w.store.addNotification env.newId doc := by
  unfold createAndSaveNotification
  cases h : w.currentUser <;> cases env.scheduleRejects <;> cases env.addRejects <;> simp [h]

@[simp] theorem createAndSaveNotification_pets (env : NotifyEnv) (title body : JsString)
    (w : World) : (createAndSaveNotification env title body w).store.pets = w.store.pets := by
  rcases createAndSaveNotification_store env title body w with h | ⟨doc, h⟩
  · rw [h]
  · rw [h]; rfl

@[simp] theorem createAndSaveNotification_reports (env : NotifyEnv) (title body : JsString)
    (w : World) :
    (createAndSaveNotification env title body w).store.reports = w.store.reports := by
  rcases createAndSaveNotification_store env title body w with h | ⟨doc, h⟩
  · rw [h]
  · rw [h]; rfl

@[simp] theorem resolveFirstReport_pets (env : SendEnv) (c : Candidate) (coords : Coords)
    (found : List (JsString × ReportDoc)) (w : World) :
    (resolveFirstReport env c coords found w).1.store.pets = w.store.pets := by
  unfold resolveFirstReport
  cases found
  · rfl
  · simp only []; split_ifs <;> rfl

theorem resolveFirstReport_accepted (env : SendEnv) (c : Candidate) (coords : Coords)
    (found : List (JsString × ReportDoc)) (w : World) (h : env.reportUpdateRejects = false) :
    (resolveFirstReport env c coords found w).2 = true := by
  unfold resolveFirstReport
  cases found <;> simp [h]

/-! ## ResolveFound: `handleSendMessage` -/

/-- C4 fails as stated: with the candidate of `p1` staged, the position obtained and the
push accepted, a rejected active-report query makes `handleSendMessage` stop before the
pet update; `pets/p1` keeps status "lost" and no location. -/
theorem resolve_aborts_on_rejected_query :
    stagedScreen.scannedPetData = some rexCandidate ∧
    queryRejectedSend.position = some parkCoords ∧
    queryRejectedSend.push.fetchRejects = false ∧
    (findDoc (js "p1")
      (handleSendMessage exampleRuntime queryRejectedSend finderWorld
        stagedScreen).1.store.pets).map
      (fun d => (d.status, d.location)) = some (js "lost", none) ∧
    js "lost" ≠ js "safe" :=
  ⟨rfl, rfl, rfl, rfl, by decide⟩

/-- C4, amended: for every staged resolution candidate whose `petId` names an existing
`pets` document and every free-text message, once the position of the finder is obtained
and the store accepts the calls that follow it (the active-report query, the update of
the report it finds, the update of the pet), `handleSendMessage`, called while no send
is in progress, ends with that document at status "safe" and location the coordinates
of the finder, whatever the push token and whether the push call and the write of the
notification record succeed or fail. -/
theorem resolve_sets_pet_safe (rt : Runtime) (env : SendEnv) (w : World) (s : CommunityState)
    (c : Candidate) (id : JsString) (coords : Coords) (d : PetDoc)
    (hstaged : s.scannedPetData = some c) (hidle : s.isProcessing = false)
    (hpos : env.position = some coords) (hid : c.petId = .str id)
    (hpet : findDoc id w.store.pets = some d) (hquery : env.queryRejects = false)
    (hreport : env.reportUpdateRejects = false) (hupdate : env.petUpdateRejects = false) :
    findDoc id (handleSendMessage rt env w s).1.store.pets =
      some { d with status := js "safe", location := some coords } := by
  simp [handleSendMessage, hstaged, hidle, hpos, hid, hquery, hupdate, hpet,
    resolveFirstReport_accepted _ _ _ _ _ hreport, Store.updatePet, findDoc_updateAt,
    PetPatch.apply, docRef_of_findDoc _ _ _ hpet]

/-- The pet `p1` is found while the push call and the notification write both fail. -/
theorem resolve_sets_pet_safe_witness :
    findDoc (js "p1")
        (handleSendMessage exampleRuntime
          { okSend with push := { okPush with fetchRejects := true, addRejects := true } }
          finderWorld stagedScreen).1.store.pets =
      some { rexPet.data with status := js "safe", location := some parkCoords } :=
  resolve_sets_pet_safe exampleRuntime
    { okSend with push := { okPush with fetchRejects := true, addRejects := true } }
    finderWorld stagedScreen rexCandidate (js "p1") parkCoords
    { rexPet.data with status := js "lost" } rfl rfl rfl rfl rfl rfl rfl rfl

/-- C8 (ResolveFound requires a location): if `getCurrentPositionAsync` rejects,
`handleSendMessage`, called with a candidate staged, leaves the store and the screen as
they were; the log gains the position request, the console entry and the alert
"No se pudo enviar la notificación." and nothing else: no push, no notification record,
no call on a report or a pet. -/
theorem resolve_requires_location (rt : Runtime) (env : SendEnv) (w : World)
    (s : CommunityState) (c : Candidate) (hstaged : s.scannedPetData = some c)
    (hidle : s.isProcessing = false) (hpos : env.position = none) :
    handleSendMessage rt env w s =
      ({ w with log := w.log ++
          [.getCurrentPosition, .consoleError (js "Error al enviar mensaje:"),
            .alert (js "Error") (js "No se pudo enviar la notificación.")] }, s) := by
  cases s
  simp only at hstaged hidle
  simp [handleSendMessage, hstaged, hidle, hpos, sendFailed, World.call]

/-- The finder of `p1` sends the message while the position is unavailable. -/
theorem resolve_requires_location_witness :
    handleSendMessage exampleRuntime noPositionSend finderWorld stagedScreen =
      ({ finderWorld with log := finderWorld.log ++
          [.getCurrentPosition, .consoleError (js "Error al enviar mensaje:"),
            .alert (js "Error") (js "No se pudo enviar la notificación.")] }, stagedScreen) :=
  resolve_requires_location exampleRuntime noPositionSend finderWorld stagedScreen rexCandidate
    rfl rfl rfl

/-! ## Notification Dispatcher: `sendPushNotification` -/

/-- C7 fails as stated: with a recipient present and the push accepted, a rejected
`addDoc` leaves `notifications` without the record. -/
theorem push_record_lost_on_rejected_write :
    present (some (js "u1")) = some (js "u1") ∧
    addRejectedPush.fetchRejects = false ∧
    (sendPushNotification addRejectedPush (some (js "ExponentPushToken[ana]")) (js "t") (js "m")
      (some (js "u1")) finderWorld).store.notifications = finderWorld.store.notifications :=
  ⟨rfl, rfl, rfl⟩

/-- C7, amended: for every title, message and push token (present, empty or absent) and
whether the push call succeeds, fails or is skipped, `sendPushNotification` changes the
store as follows: when `recipientId` is present and the store accepts the write, exactly
the document {userId: recipientId, title, body: message, read: false, createdAt: server
time} is added to `notifications`; when `recipientId` is absent, or the write is
rejected, the store is unchanged. -/
theorem push_notification_record (env : PushEnv) (token : Option JsString)
    (title message : JsString) (recipientId : Option JsString) (w : World) :
    (sendPushNotification env token title message recipientId w).store =
      match present recipientId with
      | some recipient =>
        if env.addRejects then w.store
        else
          { w.store with
            notifications := w.store.notifications ++
              [(env.newId,
                { userId := recipient, title := title, body := message,
                  createdAt := env.serverTime, read := some false })] }
      | none => w.store := by
  unfold sendPushNotification
  cases present token <;> cases present recipientId <;> cases env.fetchRejects <;>
    cases env.addRejects <;> simp [Store.addNotification]

/-! ## Report: the confirmed report-lost action -/

/-- C5 fails as stated: for the safe pet `p1` without any report and with coordinates
obtained, a rejected `addDoc` leaves `lost_pet_reports` empty and the pet at status
"safe". -/
theorem report_aborts_on_rejected_write :
    addRejectedReport.location = .granted homeCoords ∧
    ownerWorld.store.activeReports rexPet.id = [] ∧
    (confirmReportLost addRejectedReport rexPet ownerWorld).store.reports = [] ∧
    (findDoc (js "p1") (confirmReportLost addRejectedReport rexPet ownerWorld).store.pets).map
      (fun d => d.status) = some (js "safe") ∧
    js "safe" ≠ js "lost" :=
  ⟨rfl, rfl, rfl, rfl, by decide⟩

/-- C5, amended: for every pet whose `pets` document exists and every store state holding
no active report for that pet, when coordinates are obtained and the store accepts the
three calls of the action (the active-report query, the write of the report, the update
of the pet), the confirmed report-lost action adds exactly one `lost_pet_reports`
document (petId = pet.id, userId = pet.userId, status "active", location = the obtained
coordinates) and sets the status of the pet to "lost". -/
theorem report_creates_active_report (env : ReportEnv) (pet : PetItem) (w : World)
    (coords : Coords) (d : PetDoc) (hloc : env.location = .granted coords)
    (hnone : w.store.activeReports pet.id = []) (hpet : findDoc pet.id w.store.pets = some d)
    (hquery : env.queryRejects = false) (hadd : env.addRejects = false)
    (hupdate : env.updateRejects = false) :
    (confirmReportLost env pet w).store.reports =
        w.store.reports ++
          [(env.newId,
            { petId := pet.id, userId := pet.data.userId, petName := pet.data.form.name,
              petType := pet.data.form.type, location := coords, status := js "active",
              createdAt := env.serverTime, foundBy := none, foundByPhone := none,
              foundAt := none, foundAtTime := none })] ∧
      findDoc pet.id (confirmReportLost env pet w).store.pets =
        some { d with status := js "lost" } := by
  simp [confirmReportLost, hloc, getCurrentCoords, hnone, hquery, hadd, hupdate, hpet,
    Store.addReport, Store.updatePet, findDoc_updateAt, PetPatch.apply]

/-- The owner of `p1` reports it lost. -/
theorem report_creates_active_report_witness :
    (confirmReportLost okReport rexPet ownerWorld).store.reports =
        [(js "r1",
          { petId := js "p1", userId := js "u1", petName := js "Rex", petType := js "Perro",
            location := homeCoords, status := js "active", createdAt := 1000, foundBy := none,
            foundByPhone := none, foundAt := none, foundAtTime := none })] ∧
      findDoc (js "p1") (confirmReportLost okReport rexPet ownerWorld).store.pets =
        some { rexPet.data with status := js "lost" } :=
  report_creates_active_report okReport rexPet ownerWorld homeCoords rexPet.data
    rfl rfl rfl rfl rfl rfl

/-- C9 (Report requires coordinates): if `getCurrentCoords` returns null, the confirmed
report-lost action leaves the store as it was (no report is created, the status of the
pet is unchanged); it only appends calls to the log, the last of them the alert
"No se pudo obtener tu ubicación actual para el reporte.", none of them a store call or
a notification. -/
theorem report_requires_coords (env : ReportEnv) (pet : PetItem) (w : World)
    (hnull : (getCurrentCoords env.location w).2 = none) :
    (confirmReportLost env pet w).store = w.store ∧
    (confirmReportLost env pet w).log.take w.log.length = w.log ∧
    ((confirmReportLost env pet w).log.drop w.log.length).all
      (fun c => !c.isStoreCall && !c.isNotification) = true ∧
    (confirmReportLost env pet w).log.getLast? =
      some (.alert (js "Error")
        (js "No se pudo obtener tu ubicación actual para el reporte.")) := by
  cases hloc : env.location with
  | granted coords => simp [hloc, getCurrentCoords] at hnull
  | permissionRejected =>
    simp [confirmReportLost, hloc, getCurrentCoords, World.call, Call.isStoreCall,
      Call.isNotification]
  | denied =>
    simp [confirmReportLost, hloc, getCurrentCoords, World.call, Call.isStoreCall,
      Call.isNotification]
  | positionRejected =>
    simp [confirmReportLost, hloc, getCurrentCoords, World.call, Call.isStoreCall,
      Call.isNotification]

/-- The owner of `p1` reports it lost while the location permission is denied. -/
theorem report_requires_coords_witness :
    (getCurrentCoords deniedReport.location ownerWorld).2 = none ∧
    (confirmReportLost deniedReport rexPet ownerWorld).store = ownerWorld.store ∧
    (confirmReportLost deniedReport rexPet ownerWorld).log.take ownerWorld.log.length =
      ownerWorld.log ∧
    ((confirmReportLost deniedReport rexPet ownerWorld).log.drop ownerWorld.log.length).all
      (fun c => !c.isStoreCall && !c.isNotification) = true ∧
    (confirmReportLost deniedReport rexPet ownerWorld).log.getLast? =
      some (.alert (js "Error")
        (js "No se pudo obtener tu ubicación actual para el reporte.")) :=
  ⟨rfl, report_requires_coords deniedReport rexPet ownerWorld rfl⟩

/-! ## createPet: `addPet` -/

/-- C10 fails as stated: with name and type filled and the owner `u1` signed in, `addPet`
creates the pet with status "safe" and reports success, but when the local notification
cannot be scheduled no `notifications` document is written. -/
theorem add_pet_without_notification :
    filledForm.newPet.name ≠ [] ∧ filledForm.newPet.type ≠ [] ∧
    (findDoc (js "p2") (addPet unscheduledAddPet ownerWorld filledForm).1.store.pets).map
      (fun d => d.status) = some (js "safe") ∧
    (addPet unscheduledAddPet ownerWorld filledForm).1.store.notifications = [] ∧
    (addPet unscheduledAddPet ownerWorld filledForm).1.log.getLast? =
      some (.alert (js "Éxito") (js "Mascota guardada correctamente.")) :=
  ⟨by decide, by decide, rfl, rfl, rfl⟩

/-- C10, amended: for every pet form with non-empty name and type and a signed-in owner,
when the store accepts the write of the pet, `addPet` adds exactly one `pets` document,
with status "safe" and the uid of the owner; and when moreover the local notification is
scheduled and the store accepts the notification write, exactly one `notifications`
document is added, addressed to the owner (userId = the uid of the owner). -/
theorem add_pet_creates_safe_pet (env : AddPetEnv) (w : World) (s : PetsState)
    (uid : JsString) (hname : s.newPet.name ≠ []) (htype : s.newPet.type ≠ [])
    (huser : w.currentUser = some uid) (hadd : env.addRejects = false) :
    (addPet env w s).1.store.pets =
        w.store.pets ++
          [(env.newId,
            { form := s.newPet, userId := uid, chip := js "QR Simulado", createdAt := env.now,
              location := (getCurrentCoords env.location w).2, status := js "safe" })] ∧
      (env.notify.scheduleRejects = false → env.notify.addRejects = false →
        (addPet env w s).1.store.notifications =
          w.store.notifications ++
            [(env.notify.newId,
              { userId := uid, title := js "Nueva mascota agregada",
                body := js "Has registrado a " ++ s.newPet.name ++ js ".",
                createdAt := env.notify.serverTime, read := none })]) := by
  constructor
  · simp [addPet, hname, htype, huser, hadd, Store.addPet]
  · intro hs ha
    simp [addPet, hname, htype, huser, hadd, Store.addPet, createAndSaveNotification, hs, ha,
      Store.addNotification]

/-- The owner `u1` registers a pet and every call succeeds. -/
theorem add_pet_creates_safe_pet_witness :
    (addPet okAddPet ownerWorld filledForm).1.store.pets =
        safeStore.pets ++
          [(js "p2",
            { form := rexPet.data.form, userId := js "u1", chip := js "QR Simulado",
              createdAt := js "2025-01-01T00:00:00.000Z", location := some homeCoords,
              status := js "safe" })] ∧
      (addPet okAddPet ownerWorld filledForm).1.store.notifications =
        [(js "n1",
          { userId := js "u1", title := js "Nueva mascota agregada",
            body := js "Has registrado a Rex.", createdAt := 1000, read := none })] :=
  ⟨(add_pet_creates_safe_pet okAddPet ownerWorld filledForm (js "u1") (by decide) (by decide)
      rfl rfl).1,
    (add_pet_creates_safe_pet okAddPet ownerWorld filledForm (js "u1") (by decide) (by decide)
      rfl rfl).2 rfl rfl⟩

/-! ## At most one active report per pet -/

theorem filter_map_length_le {α : Type} (p : α → Bool) (f : α → α) (l : List α)
    (h : ∀ x, p (f x) = true → p x = true) :
    ((l.map f).filter p).length ≤ (l.filter p).length := by
  rw [← List.countP_eq_length_filter, ← List.countP_eq_length_filter, List.countP_map]
  exact List.countP_mono_left (fun x _ hx => h x hx)

/-- Resolving reports never adds an active one. -/
theorem activeCount_updateReport_le (st : Store) (id : JsString) (patch : ReportPatch)
    (petId : JsString) (h : patch.status = js "found") :
    activeCount (st.updateReport id patch) petId ≤ activeCount st petId := by
  unfold activeCount Store.activeReports Store.updateReport updateAt
  apply filter_map_length_le
  intro x hx
  by_cases hid : x.1 = id
  · simp only [hid, if_true, ReportPatch.apply, h, decide_eq_true_eq] at hx
    exact absurd hx.2 (by decide)
  · simpa [hid] using hx

/-- A new report of a pet without an active one keeps every count at most one. -/
theorem activeCount_addReport_le (st : Store) (id : JsString) (doc : ReportDoc)
    (petId : JsString) (hnone : st.activeReports doc.petId = [])
    (h : activeCount st petId ≤ 1) : activeCount (st.addReport id doc) petId ≤ 1 := by
  unfold activeCount Store.activeReports Store.addReport at *
  rw [List.filter_append, List.length_append]
  by_cases hp : doc.petId = petId
  · subst hp
    rw [hnone, List.length_nil, Nat.zero_add]
    exact (List.length_filter_le _ _).trans (by simp)
  · have hnew : List.filter (fun r : JsString × ReportDoc =>
        decide (r.2.petId = petId ∧ r.2.status = js "active")) [(id, doc)] = [] := by
      simp [List.filter_cons, hp]
    rw [hnew, List.length_nil, Nat.add_zero]
    exact h

/-- The reports after the confirmed report-lost action: as before, or with one report
added for a pet that had no active one. -/
theorem confirmReportLost_reports (env : ReportEnv) (pet : PetItem) (w : World) :
    (confirmReportLost env pet w).store.reports = w.store.reports ∨
      (w.store.activeReports pet.id = [] ∧
        ∃ doc : ReportDoc, doc.petId = pet.id ∧
          (confirmReportLost env pet w).store.reports =
            (w.store.addReport env.newId doc).reports) := by
  cases hloc : (getCurrentCoords env.location w).2 with
  | none => left; simp [confirmReportLost, hloc]
  | some coords =>
    by_cases hq : env.queryRejects = true
    · left; simp [confirmReportLost, hloc, hq, reportFailed]
    · by_cases he : w.store.activeReports pet.id = []
      · by_cases ha : env.addRejects = true
        · left; simp [confirmReportLost, hloc, hq, he, ha, reportFailed]
        · right
          refine ⟨he, ⟨pet.id, pet.data.userId, pet.data.form.name, pet.data.form.type, coords,
            js "active", env.serverTime, none, none, none, none⟩, rfl, ?_⟩
          simp only [confirmReportLost, hloc, hq, he, ha, World.call_store,
            getCurrentCoords_store, List.isEmpty_nil, Bool.not_true, if_false,
            Bool.false_eq_true]
          split_ifs <;> simp [reportFailed, Store.updatePet, Store.addReport]
      · left
        have he2 : (w.store.activeReports pet.id).isEmpty = false := by
          cases hl : w.store.activeReports pet.id with
          | nil => exact absurd hl he
          | cons x rest => rfl
        simp [confirmReportLost, hloc, hq, he2]

/-- The reports after step 4 of `handleSendMessage`: as before, or with the documents of
one identifier set to status "found". -/
theorem resolveFirstReport_reports (env : SendEnv) (c : Candidate) (coords : Coords)
    (found : List (JsString × ReportDoc)) (w : World) :
    (resolveFirstReport env c coords found w).1.store.reports = w.store.reports ∨
      ∃ (id : JsString) (patch : ReportPatch), patch.status = js "found" ∧
        (resolveFirstReport env c coords found w).1.store.reports =
          (w.store.updateReport id patch).reports := by
  unfold resolveFirstReport
  cases found with
  | nil => left; rfl
  | cons first rest =>
    by_cases hr : env.reportUpdateRejects = true
    · left; simp [hr]
    · right
      exact ⟨first.1, ⟨js "found", c.rescuerName, c.rescuerPhone, coords, env.serverTime⟩,
        rfl, by simp [hr]⟩

/-- The reports after `handleSendMessage`: as before, or with the documents of one
identifier set to status "found". -/
theorem handleSendMessage_reports (rt : Runtime) (env : SendEnv) (w : World)
    (s : CommunityState) :
    (handleSendMessage rt env w s).1.store.reports = w.store.reports ∨
      ∃ (id : JsString) (patch : ReportPatch), patch.status = js "found" ∧
        (handleSendMessage rt env w s).1.store.reports =
          (w.store.updateReport id patch).reports := by
  unfold handleSendMessage
  cases hc : s.scannedPetData with
  | none => left; rfl
  | some c =>
    simp only []
    by_cases hp : s.isProcessing = true
    · left; simp [hp]
    · simp only [hp, if_false, Bool.false_eq_true]
      cases hpos : env.position with
      | none => left; rfl
      | some coords =>
        simp only []
        generalize c.petId = pid
        have key : ∀ found : List (JsString × ReportDoc),
            (resolveFirstReport env c coords found
                ((sendPushNotification env.push c.ownerPushToken (foundTitle rt c.petName)
                  (foundBody rt c coords s.message) (some c.ownerId)
                  (w.call .getCurrentPosition)).call (.queryActiveReports pid))).1.store.reports =
              w.store.reports ∨
            ∃ (id : JsString) (patch : ReportPatch), patch.status = js "found" ∧
              (resolveFirstReport env c coords found
                ((sendPushNotification env.push c.ownerPushToken (foundTitle rt c.petName)
                  (foundBody rt c coords s.message) (some c.ownerId)
                  (w.call .getCurrentPosition)).call (.queryActiveReports pid))).1.store.reports =
                (w.store.updateReport id patch).reports := by
          intro found
          rcases resolveFirstReport_reports env c coords found
            ((sendPushNotification env.push c.ownerPushToken (foundTitle rt c.petName)
              (foundBody rt c coords s.message) (some c.ownerId)
              (w.call .getCurrentPosition)).call (.queryActiveReports pid))
            with h | ⟨id, patch, hp, h⟩
          · left; simpa using h
          · right; exact ⟨id, patch, hp, by simpa [Store.updateReport] using h⟩
        by_cases hq : env.queryRejects = true
        · left; cases pid <;> simp [hq, sendFailed]
        · cases pid with
          | undefined => left; simp [sendFailed]
          | str id =>
            simp only [hq, if_false, Bool.false_eq_true]
            split_ifs
            · simpa [sendFailed] using key _
            · split
              · simpa [sendFailed] using key _
              · split_ifs
                · simpa [sendFailed] using key _
                · simpa [sendFailed, Store.updatePet] using key _
          | _ =>
            simp only [hq, if_false, Bool.false_eq_true]
            split_ifs <;> simpa [sendFailed] using key _

theorem activeCount_congr (st st2 : Store) (petId : JsString) (h : st2.reports = st.reports) :
    activeCount st2 petId = activeCount st petId := by
  unfold activeCount Store.activeReports
  rw [h]

/-- C6 (at most one active report per pet): in every store reached from an empty
`lost_pet_reports` collection by any sequence of report-lost and resolve-found actions,
each run to completion whatever the outcome of its calls (success or abort), every pet
has at most one report with status "active". -/
theorem at_most_one_active_report (st : Store) (h : Reachable st) (petId : JsString) :
    activeCount st petId ≤ 1 := by
  induction h with
  | init st hempty => simp [activeCount, Store.activeReports, hempty]
  | report env pet w _ ih =>
    rcases confirmReportLost_reports env pet w with h | ⟨hnone, doc, hdoc, h⟩
    · rw [activeCount_congr _ _ petId h]; exact ih
    · rw [activeCount_congr _ _ petId h]
      exact activeCount_addReport_le w.store env.newId doc petId (by rw [hdoc]; exact hnone) ih
  | resolve rt env w s _ ih =>
    rcases handleSendMessage_reports rt env w s with h | ⟨id, patch, hp, h⟩
    · rw [activeCount_congr _ _ petId h]; exact ih
    · rw [activeCount_congr _ _ petId h]
      exact (activeCount_updateReport_le w.store id patch petId hp).trans ih

/-- After the owner has reported `p1` lost twice in a row, `p1` has one active report. -/
theorem at_most_one_active_report_witness :
    Reachable (confirmReportLost okReport rexPet lostWorld).store ∧
    activeCount (confirmReportLost okReport rexPet lostWorld).store (js "p1") = 1 ∧
    activeCount (confirmReportLost okReport rexPet lostWorld).store (js "p1") ≤ 1 :=
  ⟨Reachable.report okReport rexPet lostWorld
      (Reachable.report okReport rexPet ownerWorld (Reachable.init safeStore rfl)),
    by decide,
    at_most_one_active_report _
      (Reachable.report okReport rexPet lostWorld
        (Reachable.report okReport rexPet ownerWorld (Reachable.init safeStore rfl)))
      (js "p1")⟩

/-! ## createPet validation -/

/-- C11 (createPet validation): for every pet form whose name or type is empty, `addPet`
only shows the notice "Por favor completa el nombre y el tipo.": the store and the screen
are as before and the alert is the only call issued, so no `pets` document is added, no
location is requested and no notification is emitted. -/
theorem add_pet_validation (env : AddPetEnv) (w : World) (s : PetsState)
    (hmissing : s.newPet.name = [] ∨ s.newPet.type = []) :
    addPet env w s =
      ({ w with log := w.log ++
          [.alert (js "Error") (js "Por favor completa el nombre y el tipo.")] }, s) := by
  rcases hmissing with h | h <;> simp [addPet, h, World.call]

/-- The owner `u1` saves a form without a type. -/
theorem add_pet_validation_witness :
    addPet okAddPet ownerWorld formWithoutType =
      ({ ownerWorld with log := ownerWorld.log ++
          [.alert (js "Error") (js "Por favor completa el nombre y el tipo.")] },
        formWithoutType) :=
  add_pet_validation okAddPet ownerWorld formWithoutType (Or.inr rfl)

/-! ## ScanDiscovery: the profile of the finder -/

/-- An absent or empty field takes the fallback. -/
theorem orElse_of_absent (v : Option JsString) (fallback : JsString)
    (h : present v = none) : orElse v fallback = fallback := by
  cases v with
  | none => rfl
  | some t =>
    cases t with
    | nil => rfl
    | cons u rest => simp [present] at h

/-- Where the `users` document of the finder exists without a name and without a phone
(absent or empty) and the profile of the owner exists, a valid payload of another owner is
staged with the defaults of lines 144-145: the finder is named "Un buen samaritano", with
phone "No proporcionado". -/
theorem scan_defaults_for_finder (env : ScanEnv) (data : JsString) (w : World)
    (s : CommunityState) (uid ownerId : JsString) (qrData : QrData)
    (ownerData rescuerData : UserDoc) (harmed : s.scanned = false)
    (huser : w.currentUser = some uid) (hvalid : decodeQr data = some qrData)
    (howner : qrData.ownerId = .str ownerId) (hother : ownerId ≠ uid)
    (hread1 : env.rescuerReadRejects = false) (hread2 : env.ownerReadRejects = false)
    (hownerDoc : findDoc ownerId w.store.users = some ownerData)
    (hfinderDoc : findDoc uid w.store.users = some rescuerData)
    (hname : present rescuerData.name = none) (hphone : present rescuerData.phone = none) :
    handleBarCodeScanned env data w s =
      ({ w with log := w.log ++ [.getUserDoc uid, .getUserDoc ownerId] },
        { s with
          scanned := true, scannerVisible := false, messageModalVisible := true,
          scannedPetData := some
            { petId := qrData.petId, petName := qrData.name, ownerId := ownerId,
              ownerName := orElse ownerData.name (js "Dueño"),
              ownerPhone := orElse ownerData.phone (js "No disponible"),
              ownerPushToken := ownerData.expoPushToken,
              rescuerName := js "Un buen samaritano",
              rescuerPhone := js "No proporcionado" } }) := by
  have hn := orElse_of_absent rescuerData.name (js "Un buen samaritano") hname
  have hp := orElse_of_absent rescuerData.phone (js "No proporcionado") hphone
  simp [handleBarCodeScanned, harmed, huser, hvalid, howner, JsVal.isString, hother, hread1,
    hread2, hownerDoc, hfinderDoc, hn, hp, World.call, docRef_of_findDoc _ _ _ hownerDoc]

/-- The finder `u4`, whose profile has neither name nor phone, scans the QR of `p1`. -/
theorem scan_defaults_of_bare_profile :
    handleBarCodeScanned okScan rexPayload bareFinderWorld armedScreen =
      ({ bareFinderWorld with
          log := bareFinderWorld.log ++ [.getUserDoc (js "u4"), .getUserDoc (js "u1")] },
        { armedScreen with
          scanned := true, scannerVisible := false, messageModalVisible := true,
          scannedPetData := some
            { rexCandidate with
              rescuerName := js "Un buen samaritano",
              rescuerPhone := js "No proporcionado" } }) :=
  scan_defaults_for_finder okScan rexPayload bareFinderWorld armedScreen (js "u4") (js "u1")
    { petId := .str (js "p1"), ownerId := .str (js "u1"), name := .str (js "Rex") }
    ownerProfile bareProfile rfl rfl rfl rfl (by decide) rfl rfl rfl rfl rfl rfl

/-- C12, at the failing input: the finder `u3`, who has no `users` document, scans the
valid QR of `p1`, whose owner `u1` is another account and has a profile, and both reads
are answered. `handleBarCodeScanned` does not succeed: the log ends with the console
entry of the `catch` block and the alert "Este QR no es válido.", no candidate is staged
and the message modal stays closed. -/
theorem scan_needs_finder_profile :
    strangerWorld.currentUser = some (js "u3") ∧
    findDoc (js "u3") strangerWorld.store.users = none ∧
    findDoc (js "u1") strangerWorld.store.users = some ownerProfile ∧
    decodeQr rexPayload =
      some { petId := .str (js "p1"), ownerId := .str (js "u1"), name := .str (js "Rex") } ∧
    handleBarCodeScanned okScan rexPayload strangerWorld armedScreen =
      ({ strangerWorld with
          log := strangerWorld.log ++
            [.getUserDoc (js "u3"), .getUserDoc (js "u1"),
              .consoleError (js "Error al escanear QR:"),
              .alert (js "Error") (js "Este QR no es válido.")] },
        { armedScreen with scannerVisible := false }) ∧
    (handleBarCodeScanned okScan rexPayload strangerWorld armedScreen).2.scannedPetData =
      none ∧
    (handleBarCodeScanned okScan rexPayload strangerWorld armedScreen).2.messageModalVisible =
      false :=
  ⟨rfl, rfl, rfl, rfl, rfl, rfl, rfl⟩

/-! ## End-to-end scenario -/

/-- `toFixed` below `10^21`, from the integer `n` nearest to `|x| * 10^fractionDigits`
(the larger one on a tie). -/
theorem toFixed_of_round (rt : Runtime) (fractionDigits : Nat) (x : ℚ) (n : Nat)
    (hsmall : |x| < 10 ^ 21) (hlo : (n : ℚ) ≤ |x| * 10 ^ fractionDigits + 1 / 2)
    (hhi : |x| * 10 ^ fractionDigits + 1 / 2 < (n : ℚ) + 1) :
    toFixed rt fractionDigits x =
      (if x < 0 then [0x2D] else []) ++ decimal (n / 10 ^ fractionDigits) ++
        (if fractionDigits = 0 then []
         else 0x2E ::
          (List.replicate (fractionDigits - (decimal (n % 10 ^ fractionDigits)).length) 0x30 ++
            decimal (n % 10 ^ fractionDigits))) := by
  have hfloor : ⌊|x| * 10 ^ fractionDigits + 1 / 2⌋ = (n : ℤ) := by
    rw [Int.floor_eq_iff]
    exact ⟨by exact_mod_cast hlo, by exact_mod_cast hhi⟩
  unfold toFixed
  rw [if_neg (not_le.mpr hsmall)]
  simp only [hfloor, Int.toNat_ofNat]

theorem toFixed_park_latitude (rt : Runtime) :
    toFixed rt 4 parkCoords.latitude = js "19.4204" := by
  rw [toFixed_of_round rt 4 _ 194204 (by norm_num [parkCoords, abs_of_nonneg])
    (by norm_num [parkCoords, abs_of_nonneg]) (by norm_num [parkCoords, abs_of_nonneg])]
  norm_num [parkCoords]
  rfl

theorem toFixed_park_longitude (rt : Runtime) :
    toFixed rt 4 parkCoords.longitude = js "-99.1819" := by
  rw [toFixed_of_round rt 4 _ 991819 (by norm_num [parkCoords, abs_of_neg])
    (by norm_num [parkCoords, abs_of_neg]) (by norm_num [parkCoords, abs_of_neg])]
  norm_num [parkCoords]
  rfl

set_option maxRecDepth 8192 in
/-- The body of the notification of the scenario. -/
theorem foundBody_park (rt : Runtime) :
    foundBody rt rexCandidate parkCoords (js "Encontrado en el parque") =
      js "Luis escaneó el QR de tu mascota en: Lat: 19.4204, Lon: -99.1819." ++
        js "\nTeléfono del rescatista: 555-0202." ++
        js "\n\nMensaje: \"" ++ js "Encontrado en el parque" ++ js "\"" := by
  unfold foundBody
  rw [toFixed_park_latitude, toFixed_park_longitude]
  rfl

/-- C13 (end-to-end scenario): in the store holding the pet `p1` ("Rex", "Perro",
status "safe", owner `u1`), the profiles of `u1` and of the finder `u2` and no report,
with every call accepted: the report-lost action of the owner yields one report
{petId "p1", status "active"} and pet status "lost"; `u2` scanning
`{"petId":"p1","ownerId":"u1","name":"Rex"}` passes `handleBarCodeScanned`, which stages
the candidate and opens the modal; `handleSendMessage` with the message
"Encontrado en el parque" then leaves that report with status "found", the pet with
status "safe", and exactly one new `notifications` document, for `u1`, whose body
contains "Encontrado en el parque". -/
theorem end_to_end_scenario (rt : Runtime) :
    (ownerWorld.store.pets.map (fun d => (d.1, d.2.form.name, d.2.form.type, d.2.status,
        d.2.userId)) = [(js "p1", js "Rex", js "Perro", js "safe", js "u1")] ∧
      ownerWorld.store.reports = []) ∧
    (lostWorld.store.reports.map (fun r => (r.1, r.2.petId, r.2.status)) =
        [(js "r1", js "p1", js "active")] ∧
      lostWorld.store.pets.map (fun d => (d.1, d.2.status)) = [(js "p1", js "lost")]) ∧
    (rexPayload = js "\x7b\"petId\":\"p1\",\"ownerId\":\"u1\",\"name\":\"Rex\"\x7d" ∧
      finderWorld.currentUser = some (js "u2") ∧
      (handleBarCodeScanned okScan rexPayload finderWorld armedScreen).2.scannedPetData =
        some rexCandidate ∧
      (handleBarCodeScanned okScan rexPayload finderWorld armedScreen).2.messageModalVisible =
        true) ∧
    (typedScreen.message = js "Encontrado en el parque" ∧
      (foundWorld rt).store.reports.map (fun r => (r.1, r.2.petId, r.2.status)) =
        [(js "r1", js "p1", js "found")] ∧
      (foundWorld rt).store.pets.map (fun d => (d.1, d.2.status)) = [(js "p1", js "safe")] ∧
      (foundWorld rt).store.notifications =
        finderWorld.store.notifications ++
          [(js "n2",
            { userId := js "u1", title := js "✅ ¡Rex ha sido localizada!",
              body := js "Luis escaneó el QR de tu mascota en: Lat: 19.4204, Lon: -99.1819." ++
                js "\nTeléfono del rescatista: 555-0202." ++
                js "\n\nMensaje: \"" ++ js "Encontrado en el parque" ++ js "\"",
              createdAt := 2000, read := some false })]) :=
  ⟨⟨rfl, rfl⟩, ⟨rfl, rfl⟩, ⟨rfl, rfl, rfl, rfl⟩, rfl, rfl, rfl, by
    have h : (foundWorld rt).store.notifications =
        finderWorld.store.notifications ++
          [(js "n2",
            { userId := js "u1", title := js "✅ ¡Rex ha sido localizada!",
              body := foundBody rt rexCandidate parkCoords (js "Encontrado en el parque"),
              createdAt := 2000, read := some false })] := rfl
    rw [h, foundBody_park]⟩

/-! ## Unread count and the `read` flag -/

/-- C15 fails as stated: the snapshot of `u1` after `addPet` holds the one notification
written by `createAndSaveNotification`, which has no `read` field; `MainTabs` sets the
unread count to 1, while no entry of the snapshot has `read` equal to `false`. -/
theorem unread_count_counts_absent_flag :
    notificationsOf (addPet okAddPet ownerWorld filledForm).1.store (js "u1") =
      [{ userId := js "u1", title := js "Nueva mascota agregada",
         body := js "Has registrado a Rex.", createdAt := 1000, read := none }] ∧
    (onNotificationsSnapshot
      (notificationsOf (addPet okAddPet ownerWorld filledForm).1.store (js "u1"))
      { unreadCount := 0 }).unreadCount = 1 ∧
    ((notificationsOf (addPet okAddPet ownerWorld filledForm).1.store (js "u1")).filter
      (fun n => n.read == some false)).length = 0 :=
  ⟨rfl, rfl, rfl⟩

/-- C15, amended: for every notifications snapshot delivered for the signed-in user, the
unread count set by `MainTabs` equals the number of entries of that snapshot whose `read`
field is `false` or absent, recomputed from the whole snapshot each time (it does not
depend on the count held before). -/
theorem unread_count (snapshot : List NotificationDoc) (s : MainTabsState) :
    (onNotificationsSnapshot snapshot s).unreadCount =
      (snapshot.filter (fun n => n.read == some false)).length +
        (snapshot.filter (fun n => n.read == none)).length := by
  unfold onNotificationsSnapshot
  simp only
  induction snapshot with
  | nil => rfl
  | cons n rest ih =>
    simp only [List.filter_cons]
    rcases hr : n.read with _ | b
    · simp [ih]; omega
    · cases b <;> simp [ih]; omega

/-- C18, at the failing input: with `u1` signed in and every call accepted,
`createAndSaveNotification` writes a `notifications` document without a `read` field,
while `sendPushNotification` writes the same fields with `read` equal to `false`. -/
theorem registry_notification_has_no_read_flag :
    (createAndSaveNotification okNotify (js "Nueva mascota agregada")
        (js "Has registrado a Rex.") ownerWorld).store.notifications =
      [(js "n1",
        { userId := js "u1", title := js "Nueva mascota agregada",
          body := js "Has registrado a Rex.", createdAt := 1000, read := none })] ∧
    (sendPushNotification okPush none (js "Nueva mascota agregada")
        (js "Has registrado a Rex.") (some (js "u1")) ownerWorld).store.notifications =
      [(js "n2",
        { userId := js "u1", title := js "Nueva mascota agregada",
          body := js "Has registrado a Rex.", createdAt := 2000, read := some false })] :=
  ⟨rfl, rfl⟩

/-! ## Report resolution and its frame -/

theorem updateAt_length {α : Type} (id : JsString) (f : α → α) (docs : List (JsString × α)) :
    (updateAt id f docs).length = docs.length := by
  simp [updateAt]

/-- `updateAt` leaves every document with another identifier in its place. -/
theorem updateAt_getElem?_of_ne {α : Type} (id : JsString) (f : α → α)
    (docs : List (JsString × α)) (k : Nat) (e : JsString × α) (h : docs[k]? = some e)
    (hne : e.1 ≠ id) : (updateAt id f docs)[k]? = some e := by
  simp [updateAt, List.getElem?_map, h, hne]

/-- The patch written on the report by `handleSendMessage` (lines 198-204). -/
theorem resolveFirstReport_cons (env : SendEnv) (c : Candidate) (coords : Coords)
    (first : JsString × ReportDoc) (rest : List (JsString × ReportDoc)) (w : World)
    (h : env.reportUpdateRejects = false) :
    (resolveFirstReport env c coords (first :: rest) w).1.store.reports =
      updateAt first.1
        (ReportPatch.apply ⟨js "found", c.rescuerName, c.rescuerPhone, coords, env.serverTime⟩)
        w.store.reports := by
  simp [resolveFirstReport, h, Store.updateReport]

/-- The reports after `handleSendMessage`: as before, or with the first report of the
query result patched. -/
theorem handleSendMessage_reports_frame (rt : Runtime) (env : SendEnv) (w : World)
    (s : CommunityState) (c : Candidate) (hstaged : s.scannedPetData = some c) :
    (handleSendMessage rt env w s).1.store.reports = w.store.reports ∨
      ∃ (first : JsString × ReportDoc) (rest : List (JsString × ReportDoc))
        (patch : ReportPatch),
        activeReportsFor w.store c.petId = first :: rest ∧
        (handleSendMessage rt env w s).1.store.reports =
          updateAt first.1 patch.apply w.store.reports := by
  unfold handleSendMessage
  simp only [hstaged]
  by_cases hp : s.isProcessing = true
  · left; simp [hp]
  · simp only [hp, if_false, Bool.false_eq_true]
    cases hpos : env.position with
    | none => left; rfl
    | some coords =>
      simp only []
      by_cases hq : env.queryRejects = true
      · left; cases c.petId <;> simp [hq, sendFailed]
      · by_cases hr : env.reportUpdateRejects = true
        · left
          cases hid : c.petId with
          | undefined => simp [sendFailed]
          | str id =>
            simp only [hq, if_false, Bool.false_eq_true]
            cases hf : (Store.activeReports
              ((sendPushNotification env.push c.ownerPushToken (foundTitle rt c.petName)
                (foundBody rt c coords s.message) (some c.ownerId)
                (w.call .getCurrentPosition)).call (.queryActiveReports (.str id))).store id)
              <;> simp [resolveFirstReport, hr, sendFailed, Store.updatePet]
            split
            · simp [sendFailed]
            · split_ifs <;> simp [sendFailed]
          | _ => simp [hq, resolveFirstReport, sendFailed]
        · cases hid : c.petId with
          | undefined => left; simp [sendFailed]
          | str id =>
            have hsame : Store.activeReports
                ((sendPushNotification env.push c.ownerPushToken (foundTitle rt c.petName)
                  (foundBody rt c coords s.message) (some c.ownerId)
                  (w.call .getCurrentPosition)).call (.queryActiveReports (.str id))).store id =
                w.store.activeReports id := by
              simp [Store.activeReports]
            simp only [hq, if_false, Bool.false_eq_true, hsame]
            cases hf : w.store.activeReports id with
            | nil =>
              left
              simp only [resolveFirstReport]
              split_ifs
              · simp [sendFailed]
              · split
                · simp [sendFailed]
                · split_ifs <;> simp [sendFailed, Store.updatePet]
            | cons first rest =>
              right
              refine ⟨first, rest,
                ⟨js "found", c.rescuerName, c.rescuerPhone, coords, env.serverTime⟩,
                by simp [activeReportsFor, hf], ?_⟩
              have hrf := resolveFirstReport_cons env c coords first rest
                ((sendPushNotification env.push c.ownerPushToken (foundTitle rt c.petName)
                  (foundBody rt c coords s.message) (some c.ownerId)
                  (w.call .getCurrentPosition)).call (.queryActiveReports (.str id)))
                (by simpa using hr)
              simp only [World.call_store, sendPushNotification_reports] at hrf
              split_ifs
              · simp [sendFailed, hrf]
              · split
                · simp [sendFailed, hrf]
                · split_ifs <;> simp [sendFailed, Store.updatePet, hrf]
          | _ => left; simp [hq, resolveFirstReport, sendFailed]

/-- The pets after `handleSendMessage`: as before, or with the document that
`doc(db, "pets", petId)` denotes patched. -/
theorem handleSendMessage_pets_frame (rt : Runtime) (env : SendEnv) (w : World)
    (s : CommunityState) (c : Candidate) (hstaged : s.scannedPetData = some c) :
    (handleSendMessage rt env w s).1.store.pets = w.store.pets ∨
      ∃ (id : JsString) (patch : PetPatch), petRefFor w.store c.petId = some id ∧
        (handleSendMessage rt env w s).1.store.pets = updateAt id patch.apply w.store.pets := by
  unfold handleSendMessage
  simp only [hstaged]
  by_cases hp : s.isProcessing = true
  · left; simp [hp]
  · simp only [hp, if_false, Bool.false_eq_true]
    cases hpos : env.position with
    | none => left; rfl
    | some coords =>
      simp only []
      by_cases hq : env.queryRejects = true
      · left; cases c.petId <;> simp [hq, sendFailed]
      · cases hid : c.petId with
        | undefined => left; simp [sendFailed]
        | str path =>
          simp only [hq, if_false, Bool.false_eq_true]
          split_ifs
          · left; simp [sendFailed]
          · split
            · left; simp [sendFailed]
            · rename_i id hkey
              split_ifs
              · left; simp [sendFailed]
              · right
                exact ⟨id, ⟨js "safe", some coords⟩, by simpa [petRefFor] using hkey,
                  by simp [Store.updatePet]⟩
        | _ =>
          left
          simp only [hq, if_false, Bool.false_eq_true]
          split_ifs <;> simp [sendFailed]

/-- A string without "/" has itself as its only piece. -/
theorem splitSlash_of_no_slash (id : JsString) (h : 0x2F ∉ id) : splitSlash id = [id] := by
  induction id with
  | nil => rfl
  | cons u rest ih =>
    have hu : u ≠ 0x2F := fun hu => h (by simp [hu])
    have hrest : 0x2F ∉ rest := fun hm => h (List.mem_cons_of_mem _ hm)
    simp [splitSlash, hu, ih hrest]

theorem hasDoubleSlash_of_no_slash (id : JsString) (h : 0x2F ∉ id) :
    hasDoubleSlash id = false := by
  induction id with
  | nil => rfl
  | cons u rest ih =>
    have hu : u ≠ 0x2F := fun hu => h (by simp [hu])
    have hrest : 0x2F ∉ rest := fun hm => h (List.mem_cons_of_mem _ hm)
    cases rest with
    | nil => rfl
    | cons v more => simp [hasDoubleSlash, hu, ih hrest]

/-- An identifier as the store gives them is the path of its own document. -/
theorem docPath_of_isDocumentId (id : JsString) (h : isDocumentId id = true) :
    docPath id = some id := by
  simp only [isDocumentId, Bool.and_eq_true, Bool.not_eq_true'] at h
  have hne : id.isEmpty = false := h.1
  have hslash : 0x2F ∉ id := by simpa using h.2
  simp [docPath, pathSegments, splitSlash_of_no_slash id hslash,
    hasDoubleSlash_of_no_slash id hslash, hne, joinSlash]

/-- In a collection the `path` of an identifier as the store gives them denotes the
document of that identifier. -/
theorem docRef_of_isDocumentId {α : Type} (docs : List (JsString × α)) (id : JsString)
    (h : isDocumentId id = true) : docRef docs id = some id := by
  unfold docRef
  split_ifs
  · rfl
  · exact docPath_of_isDocumentId id h

/-- In a collection whose identifiers are as the store gives them, `doc` denotes what
`docPath` computes from the path alone. -/
theorem docRef_eq_docPath {α : Type} (docs : List (JsString × α)) (path : JsString)
    (hdocs : ∀ e ∈ docs, isDocumentId e.1 = true) : docRef docs path = docPath path := by
  unfold docRef
  split_ifs with h
  · obtain ⟨d, hd⟩ := Option.isSome_iff_exists.mp h
    have hmem : ∃ e ∈ docs, e.1 = path := by
      clear h
      induction docs with
      | nil => simp [findDoc] at hd
      | cons x rest ih =>
        by_cases hx : x.1 = path
        · exact ⟨x, List.mem_cons_self _ _, hx⟩
        · simp only [findDoc, hx, if_false] at hd
          obtain ⟨e, he, heq⟩ := ih (fun e he => hdocs e (List.mem_cons_of_mem _ he)) hd
          exact ⟨e, List.mem_cons_of_mem _ he, heq⟩
    obtain ⟨e, he, heq⟩ := hmem
    rw [← heq]
    exact (docPath_of_isDocumentId e.1 (hdocs e he)).symm
  · rfl

/-- C20 fails as stated: `u2` sends the message for a candidate whose `petId` is "p2/".
`doc(db, "pets", "p2/")` denotes `pets/p2`: the `pets` document of identifier "p2", which
is not the `petId` of the candidate, goes from "lost" at the home coordinates to "safe"
at the coordinates of the finder. -/
theorem resolve_by_path_rewrites_other_id :
    slashScreen.scannedPetData = some { rexCandidate with petId := .str (js "p2/") } ∧
    JsVal.str (js "p2/") ≠ JsVal.str (js "p2") ∧
    registeredFinderWorld.store.pets.map (fun d => (d.1, d.2.status, d.2.location)) =
      [(js "p2", js "lost", some homeCoords)] ∧
    slashResolvedWorld.store.pets.map (fun d => (d.1, d.2.status, d.2.location)) =
      [(js "p2", js "safe", some parkCoords)] ∧
    js "lost" ≠ js "safe" := by
  refine ⟨rfl, ?_, rfl, rfl, by decide⟩
  intro h
  exact absurd (JsVal.str.inj h) (by decide)

/-- C20, amended (frame of ResolveFound): for every store state, staged candidate and
outcome of the calls, `handleSendMessage` keeps the number and the order of the
`lost_pet_reports` and `pets` documents; every report whose identifier is not that of the
first report returned by the active-report query for `candidate.petId` is unchanged, in
particular every further report returned by that query; and every `pets` document other
than the one that `doc(db, "pets", candidate.petId)` denotes is unchanged. For a `petId`
that is an identifier as the store gives them (not empty, without "/"), that document is
`pets/{candidate.petId}`. -/
theorem resolve_frame (rt : Runtime) (env : SendEnv) (w : World) (s : CommunityState)
    (c : Candidate) (hstaged : s.scannedPetData = some c) :
    ((handleSendMessage rt env w s).1.store.reports.length = w.store.reports.length ∧
      ∀ (k : Nat) (e : JsString × ReportDoc), w.store.reports[k]? = some e →
        (activeReportsFor w.store c.petId).head?.map (fun r => r.1) ≠ some e.1 →
        (handleSendMessage rt env w s).1.store.reports[k]? = some e) ∧
    (∀ e ∈ (activeReportsFor w.store c.petId).tail,
        (activeReportsFor w.store c.petId).head?.map (fun r => r.1) ≠ some e.1 →
        e ∈ (handleSendMessage rt env w s).1.store.reports) ∧
    ((handleSendMessage rt env w s).1.store.pets.length = w.store.pets.length ∧
      ∀ (k : Nat) (e : JsString × PetDoc), w.store.pets[k]? = some e →
        petRefFor w.store c.petId ≠ some e.1 →
        (handleSendMessage rt env w s).1.store.pets[k]? = some e) ∧
    (∀ id : JsString, c.petId = .str id → isDocumentId id = true →
      petRefFor w.store c.petId = some id) := by
  have hreports : (handleSendMessage rt env w s).1.store.reports.length =
        w.store.reports.length ∧
      ∀ (k : Nat) (e : JsString × ReportDoc), w.store.reports[k]? = some e →
        (activeReportsFor w.store c.petId).head?.map (fun r => r.1) ≠ some e.1 →
        (handleSendMessage rt env w s).1.store.reports[k]? = some e := by
    rcases handleSendMessage_reports_frame rt env w s c hstaged with h | ⟨first, rest, patch, hq, h⟩
    · rw [h]; exact ⟨rfl, fun k e he _ => he⟩
    · rw [h, hq]
      refine ⟨updateAt_length _ _ _, fun k e he hne => ?_⟩
      exact updateAt_getElem?_of_ne _ _ _ k e he (fun heq => hne (by simp [heq]))
  refine ⟨hreports, ?_, ?_, ?_⟩
  · intro e he hne
    have hmem : e ∈ w.store.reports := by
      have h1 : e ∈ activeReportsFor w.store c.petId := List.mem_of_mem_tail he
      unfold activeReportsFor at h1
      cases hid : c.petId <;> rw [hid] at h1 <;> simp only [List.not_mem_nil] at h1
      exact (List.mem_filter.mp h1).1
    obtain ⟨k, hk⟩ := List.mem_iff_getElem?.mp hmem
    exact List.mem_iff_getElem?.mpr ⟨k, hreports.2 k e hk hne⟩
  · rcases handleSendMessage_pets_frame rt env w s c hstaged with h | ⟨id, patch, hid, h⟩
    · rw [h]; exact ⟨rfl, fun k e he _ => he⟩
    · rw [h]
      refine ⟨updateAt_length _ _ _, fun k e he hne => ?_⟩
      exact updateAt_getElem?_of_ne _ _ _ k e he (fun heq => hne (by rw [hid, heq]))
  · intro id hid hdoc
    rw [hid]
    exact docRef_of_isDocumentId w.store.pets id hdoc

/-- The pet `p1` has two active reports; `u2` resolves: the second report stays as it
was, in its place. -/
theorem resolve_frame_witness :
    (handleSendMessage exampleRuntime okSend twinReportsWorld stagedScreen).1.store.reports.map
        (fun r => (r.1, r.2.status)) = [(js "r1", js "found"), (js "r2", js "active")] ∧
    (handleSendMessage exampleRuntime okSend twinReportsWorld stagedScreen).1.store.reports[1]? =
        twinReportsWorld.store.reports[1]? ∧
    (js "r2",
      ({ petId := js "p1", userId := js "u1", petName := js "Rex", petType := js "Perro",
         location := homeCoords, status := js "active", createdAt := 1500, foundBy := none,
         foundByPhone := none, foundAt := none, foundAtTime := none } : ReportDoc)) ∈
      (handleSendMessage exampleRuntime okSend twinReportsWorld stagedScreen).1.store.reports :=
  ⟨rfl,
    (resolve_frame exampleRuntime okSend twinReportsWorld stagedScreen rexCandidate rfl).1.2 1 _
      rfl (by decide),
    (resolve_frame exampleRuntime okSend twinReportsWorld stagedScreen rexCandidate rfl).2.1 _
      (List.mem_singleton.mpr rfl) (by decide)⟩

/-- C17 fails as stated: the query for the active reports of `p1` returns the report
`r1`, the store rejects its update, and `handleSendMessage` leaves `r1` active without
any `foundBy`, and the pet "lost". -/
theorem resolve_report_update_rejected :
    (activeReportsFor finderWorld.store rexCandidate.petId).map (fun r => r.1) = [js "r1"] ∧
    reportRejectedSend.queryRejects = false ∧
    (handleSendMessage exampleRuntime reportRejectedSend finderWorld
        stagedScreen).1.store.reports.map (fun r => (r.1, r.2.status, r.2.foundBy)) =
      [(js "r1", js "active", none)] ∧
    (handleSendMessage exampleRuntime reportRejectedSend finderWorld
        stagedScreen).1.store.pets.map (fun d => (d.1, d.2.status)) = [(js "p1", js "lost")] ∧
    js "active" ≠ js "found" :=
  ⟨rfl, rfl, rfl, rfl, by decide⟩

/-- C17, amended: let `handleSendMessage` run with a staged candidate whose `petId` is a
string, the position obtained and the query for the reports with that `petId` and status
"active" answered. When the query returns a report and the store accepts its update,
that report gets status "found", foundBy = finder name, foundByPhone = finder phone,
foundAt = the coordinates of the finder and foundAtTime = server time, and no other
identifier is written. When the query returns none, no report is modified, and when the
store accepts the update of the existing document `pets/{petId}` the pet is still set to
"safe" at the coordinates of the finder. -/
theorem resolve_report (rt : Runtime) (env : SendEnv) (w : World) (s : CommunityState)
    (c : Candidate) (id : JsString) (coords : Coords)
    (hstaged : s.scannedPetData = some c) (hidle : s.isProcessing = false)
    (hpos : env.position = some coords) (hid : c.petId = .str id)
    (hquery : env.queryRejects = false) :
    (∀ (first : JsString × ReportDoc) (rest : List (JsString × ReportDoc)),
      w.store.activeReports id = first :: rest → env.reportUpdateRejects = false →
      (first.1,
        { first.2 with
          status := js "found", foundBy := some c.rescuerName,
          foundByPhone := some c.rescuerPhone, foundAt := some coords,
          foundAtTime := some env.serverTime }) ∈
          (handleSendMessage rt env w s).1.store.reports ∧
        (handleSendMessage rt env w s).1.store.reports =
          updateAt first.1
            (ReportPatch.apply
              ⟨js "found", c.rescuerName, c.rescuerPhone, coords, env.serverTime⟩)
            w.store.reports) ∧
    (w.store.activeReports id = [] →
      (handleSendMessage rt env w s).1.store.reports = w.store.reports ∧
      ∀ d : PetDoc, env.petUpdateRejects = false → findDoc id w.store.pets = some d →
        findDoc id (handleSendMessage rt env w s).1.store.pets =
          some { d with status := js "safe", location := some coords }) := by
  constructor
  · intro first rest hfound hreport
    have heq : (handleSendMessage rt env w s).1.store.reports =
        updateAt first.1
          (ReportPatch.apply ⟨js "found", c.rescuerName, c.rescuerPhone, coords, env.serverTime⟩)
          w.store.reports := by
      have hsame : Store.activeReports
          ((sendPushNotification env.push c.ownerPushToken (foundTitle rt c.petName)
            (foundBody rt c coords s.message) (some c.ownerId)
            (w.call .getCurrentPosition)).call (.queryActiveReports (.str id))).store id =
          first :: rest := by
        rw [← hfound]; simp [Store.activeReports]
      simp only [handleSendMessage, hstaged, hidle, hpos, hid, hquery, hsame, if_false,
        Bool.false_eq_true]
      have hrf := resolveFirstReport_cons env c coords first rest
        ((sendPushNotification env.push c.ownerPushToken (foundTitle rt c.petName)
          (foundBody rt c coords s.message) (some c.ownerId)
          (w.call .getCurrentPosition)).call (.queryActiveReports (.str id))) hreport
      simp only [World.call_store, sendPushNotification_reports] at hrf
      split_ifs
      · simp [sendFailed, hrf]
      · split
        · simp [sendFailed, hrf]
        · split_ifs <;> simp [sendFailed, Store.updatePet, hrf]
    refine ⟨?_, heq⟩
    rw [heq]
    have hmem : first ∈ w.store.reports := by
      have h1 : first ∈ w.store.activeReports id := by rw [hfound]; exact List.mem_cons_self _ _
      exact (List.mem_filter.mp h1).1
    unfold updateAt
    exact List.mem_map.mpr ⟨first, hmem, by simp [ReportPatch.apply]⟩
  · intro hnone
    have hsame : Store.activeReports
        ((sendPushNotification env.push c.ownerPushToken (foundTitle rt c.petName)
          (foundBody rt c coords s.message) (some c.ownerId)
          (w.call .getCurrentPosition)).call (.queryActiveReports (.str id))).store id = [] := by
      rw [← hnone]; simp [Store.activeReports]
    constructor
    · simp only [handleSendMessage, hstaged, hidle, hpos, hid, hquery, hsame, if_false,
        Bool.false_eq_true, resolveFirstReport]
      split_ifs
      · simp [sendFailed]
      · split
        · simp [sendFailed]
        · split_ifs <;> simp [sendFailed, Store.updatePet]
    · intro d hupdate hpet
      simp only [handleSendMessage, hstaged, hidle, hpos, hid, hquery, hsame, if_false,
        Bool.false_eq_true, resolveFirstReport]
      simp [hupdate, hpet, Store.updatePet, findDoc_updateAt, PetPatch.apply,
        docRef_of_findDoc _ _ _ hpet]

/-- The finder `u2` resolves `p1`, once with its active report `r1` and once without any
report. -/
theorem resolve_report_witness :
    ((js "r1",
        ({ petId := js "p1", userId := js "u1", petName := js "Rex", petType := js "Perro",
           location := homeCoords, status := js "found", createdAt := 1000,
           foundBy := some (js "Luis"), foundByPhone := some (js "555-0202"),
           foundAt := some parkCoords, foundAtTime := some 2000 } : ReportDoc)) ∈
        (handleSendMessage exampleRuntime okSend finderWorld stagedScreen).1.store.reports ∧
      (handleSendMessage exampleRuntime okSend finderWorld stagedScreen).1.store.reports =
        updateAt (js "r1")
          (ReportPatch.apply ⟨js "found", js "Luis", js "555-0202", parkCoords, 2000⟩)
          finderWorld.store.reports) ∧
    ((handleSendMessage exampleRuntime okSend safeFinderWorld stagedScreen).1.store.reports =
        [] ∧
      findDoc (js "p1")
          (handleSendMessage exampleRuntime okSend safeFinderWorld stagedScreen).1.store.pets =
        some { rexPet.data with status := js "safe", location := some parkCoords }) :=
  ⟨(resolve_report exampleRuntime okSend finderWorld stagedScreen rexCandidate (js "p1")
      parkCoords rfl rfl rfl rfl rfl).1 _ [] rfl rfl,
    ((resolve_report exampleRuntime okSend safeFinderWorld stagedScreen rexCandidate (js "p1")
      parkCoords rfl rfl rfl rfl rfl).2 rfl).1,
    ((resolve_report exampleRuntime okSend safeFinderWorld stagedScreen rexCandidate (js "p1")
      parkCoords rfl rfl rfl rfl rfl).2 rfl).2 rexPet.data rfl rfl⟩

/-! ## Message format -/

theorem isDigit_digitChar (d : Nat) (h : d < 10) : isDigit (Nat.digitChar d).toNat = true := by
  interval_cases d <;> rfl

theorem toDigitsCore_all_digits (fuel : Nat) :
    ∀ (n : Nat) (ds : List Char), (∀ c ∈ ds, isDigit c.toNat = true) →
      ∀ c ∈ Nat.toDigitsCore 10 fuel n ds, isDigit c.toNat = true := by
  induction fuel with
  | zero => intro n ds h c hc; exact h c (by simpa [Nat.toDigitsCore] using hc)
  | succ fuel ih =>
    intro n ds h c hc
    have hd : ∀ c ∈ Nat.digitChar (n % 10) :: ds, isDigit c.toNat = true := by
      intro c hc
      rcases List.mem_cons.mp hc with rfl | hc
      · exact isDigit_digitChar _ (Nat.mod_lt _ (by norm_num))
      · exact h c hc
    simp only [Nat.toDigitsCore] at hc
    split_ifs at hc
    · exact hd c hc
    · exact ih _ _ hd c hc

theorem toDigitsCore_ne_nil (fuel : Nat) :
    ∀ (n : Nat) (ds : List Char), ds ≠ [] → Nat.toDigitsCore 10 fuel n ds ≠ [] := by
  induction fuel with
  | zero => intro n ds h; simpa [Nat.toDigitsCore] using h
  | succ fuel ih =>
    intro n ds _
    simp only [Nat.toDigitsCore]
    split_ifs
    · exact List.cons_ne_nil _ _
    · exact ih _ _ (List.cons_ne_nil _ _)

/-- The decimal digits of a number are digits. -/
theorem decimal_all_digits (n : Nat) : (decimal n).all isDigit = true := by
  rw [List.all_eq_true]
  intro u hu
  obtain ⟨c, hc, rfl⟩ := List.mem_map.mp hu
  exact toDigitsCore_all_digits _ _ _ (fun _ h => absurd h (List.not_mem_nil _)) c hc

theorem decimal_ne_nil (n : Nat) : decimal n ≠ [] := by
  unfold decimal Nat.toDigits
  rw [ne_eq, List.map_eq_nil_iff, Nat.toDigitsCore]
  split_ifs
  · exact not_false
  · exact toDigitsCore_ne_nil _ _ _ (List.cons_ne_nil _ _)

theorem decimal_length_le (n e : Nat) (h : n < 10 ^ e) (he : 0 < e) :
    (decimal n).length ≤ e := by
  unfold decimal Nat.toDigits
  rw [List.length_map]
  exact Nat.toDigitsCore_length 10 (by norm_num) _ _ e h he

theorem takeWhile_digits_append (ds rest : JsString) (h : ds.all isDigit = true) :
    (ds ++ 0x2E :: rest).takeWhile isDigit = ds ∧
      (ds ++ 0x2E :: rest).dropWhile isDigit = 0x2E :: rest := by
  induction ds with
  | nil => exact ⟨rfl, rfl⟩
  | cons d tl ih =>
    simp only [List.all_cons, Bool.and_eq_true] at h
    simp [List.takeWhile_cons, List.dropWhile_cons, h.1, ih h.2]

/-- Below `10^21`, `toFixed(4)` writes exactly four decimal places. -/
theorem isFixedDecimal_toFixed (rt : Runtime) (x : ℚ) (h : |x| < 10 ^ 21) :
    isFixedDecimal 4 (toFixed rt 4 x) = true := by
  obtain ⟨n, hn⟩ : ∃ n : Nat, ⌊|x| * 10 ^ 4 + 1 / 2⌋ = (n : ℤ) :=
    ⟨(⌊|x| * 10 ^ 4 + 1 / 2⌋).toNat,
      (Int.toNat_of_nonneg (Int.floor_nonneg.mpr (by positivity))).symm⟩
  have hlen := decimal_length_le (n % 10 ^ 4) 4 (Nat.mod_lt _ (by norm_num)) (by norm_num)
  have hpad : (List.replicate (4 - (decimal (n % 10 ^ 4)).length) 0x30 ++
      decimal (n % 10 ^ 4)).length = 4 := by
    rw [List.length_append, List.length_replicate]; omega
  have hdig : (List.replicate (4 - (decimal (n % 10 ^ 4)).length) 0x30 ++
      decimal (n % 10 ^ 4)).all isDigit = true := by
    rw [List.all_append, decimal_all_digits, Bool.and_true, List.all_eq_true]
    intro u hu
    rw [List.eq_of_mem_replicate hu]; rfl
  have htw := takeWhile_digits_append (decimal (n / 10 ^ 4))
    (List.replicate (4 - (decimal (n % 10 ^ 4)).length) 0x30 ++ decimal (n % 10 ^ 4))
    (decimal_all_digits _)
  have hne : (decimal (n / 10 ^ 4)).isEmpty = false := by
    cases hd : decimal (n / 10 ^ 4) with
    | nil => exact absurd hd (decimal_ne_nil _)
    | cons a b => rfl
  have hhead : ∀ rest : JsString,
      (match decimal (n / 10 ^ 4) ++ 0x2E :: rest with
        | 0x2D :: r => r
        | _ => decimal (n / 10 ^ 4) ++ 0x2E :: rest) = decimal (n / 10 ^ 4) ++ 0x2E :: rest := by
    intro rest
    cases hd : decimal (n / 10 ^ 4) with
    | nil => exact absurd hd (decimal_ne_nil _)
    | cons a b =>
      have ha : isDigit a = true := by
        have := decimal_all_digits (n / 10 ^ 4)
        rw [hd] at this
        simp only [List.all_cons, Bool.and_eq_true] at this
        exact this.1
      have h2 : a ≠ 0x2D := by
        intro h2; rw [h2] at ha; exact absurd ha (by decide)
      simp only [List.cons_append]
      split
      · next heq => exact absurd (List.cons.inj heq).1 h2
      · rfl
  unfold toFixed
  rw [if_neg (not_le.mpr h)]
  simp only [hn, Int.toNat_ofNat]
  by_cases hx : x < 0
  · simp only [hx, if_true, isFixedDecimal, List.cons_append, List.nil_append,
      show (4 : Nat) ≠ 0 by norm_num, if_false, htw.1, htw.2, hne, hpad, hdig]
    rfl
  · simp only [hx, if_false, isFixedDecimal, List.nil_append,
      show (4 : Nat) ≠ 0 by norm_num, hhead, htw.1, htw.2, hne, hpad, hdig]
    rfl

/-- The body before the optional suffix ends with a full stop, the suffix with a quote. -/
theorem messageSuffix_not_suffix (base : JsString) (message : JsString) :
    ¬ messageSuffix message <:+ base ++ js "." := by
  rintro ⟨t, ht⟩
  have h1 : (t ++ messageSuffix message).getLast? = some 0x22 := by
    have hq : js "\"" = [0x22] := rfl
    simp [messageSuffix, hq, List.getLast?_append]
  have h2 : (base ++ js ".").getLast? = some 0x2E := by
    have hq : js "." = [0x2E] := rfl
    simp [hq, List.getLast?_append]
  rw [ht, h2] at h1
  exact absurd h1 (by decide)

/-- The notification document issued by `handleSendMessage` carries the title and the
body built from the candidate, the position and the message. -/
theorem handleSendMessage_issues_notification (rt : Runtime) (env : SendEnv) (w : World)
    (s : CommunityState) (c : Candidate) (coords : Coords)
    (hstaged : s.scannedPetData = some c) (hidle : s.isProcessing = false)
    (hpos : env.position = some coords) (howner : c.ownerId ≠ []) :
    Call.addNotificationDoc
        { userId := c.ownerId, title := foundTitle rt c.petName,
          body := foundBody rt c coords s.message, createdAt := env.push.serverTime,
          read := some false } ∈ (handleSendMessage rt env w s).1.log := by
  have hpresent : present (some c.ownerId) = some c.ownerId := by
    cases h : c.ownerId with
    | nil => exact absurd h howner
    | cons u rest => rfl
  have hpush : Call.addNotificationDoc
      { userId := c.ownerId, title := foundTitle rt c.petName,
        body := foundBody rt c coords s.message, createdAt := env.push.serverTime,
        read := some false } ∈
      (sendPushNotification env.push c.ownerPushToken (foundTitle rt c.petName)
        (foundBody rt c coords s.message) (some c.ownerId) (w.call .getCurrentPosition)).log := by
    unfold sendPushNotification
    rw [hpresent]
    cases present c.ownerPushToken <;> cases env.push.fetchRejects <;>
      cases env.push.addRejects <;> simp [World.call]
  have hresolved : ∀ (found : List (JsString × ReportDoc)) (w2 : World) (x : Call),
      x ∈ w2.log → x ∈ (resolveFirstReport env c coords found w2).1.log := by
    intro found w2 x hx
    unfold resolveFirstReport
    cases found with
    | nil => exact hx
    | cons first rest => simp only []; split_ifs <;> simp [World.call, hx]
  unfold handleSendMessage
  simp only [hstaged, hidle, hpos, if_false, Bool.false_eq_true]
  generalize sendPushNotification env.push c.ownerPushToken (foundTitle rt c.petName)
    (foundBody rt c coords s.message) (some c.ownerId) (w.call .getCurrentPosition) = w2
    at hpush ⊢
  cases c.petId with
  | undefined => simp [sendFailed, World.call, hpush]
  | str id =>
    simp only []
    split_ifs
    · simp [sendFailed, World.call, hpush]
    · simp only [sendFailed, World.call, List.mem_append]
      exact Or.inl (Or.inl (hresolved _ _ _ (by simp [World.call, hpush])))
    · split
      · simp only [sendFailed, World.call, List.mem_append]
        exact Or.inl (Or.inl (hresolved _ _ _ (by simp [World.call, hpush])))
      · split_ifs
        · simp only [sendFailed, World.call, List.mem_append]
          exact Or.inl (Or.inl (Or.inl (hresolved _ _ _ (by simp [World.call, hpush]))))
        · simp only [World.call, List.mem_append]
          exact Or.inl (Or.inl (hresolved _ _ _ (by simp [World.call, hpush])))
  | _ =>
    simp only []
    split_ifs
    · simp [sendFailed, World.call, hpush]
    · simp only [sendFailed, World.call, List.mem_append]
      exact Or.inl (Or.inl (hresolved _ _ _ (by simp [World.call, hpush])))
    · simp only [sendFailed, World.call, List.mem_append]
      exact Or.inl (Or.inl (hresolved _ _ _ (by simp [World.call, hpush])))

/-- C16 (message format): for every candidate, finder coordinates (below `10^21` in
absolute value, as degrees are) and free-text message, the title built by
`handleSendMessage` contains the pet name; the body is the finder name, the latitude and
the longitude each written by `toFixed(4)` with exactly four decimal places, and the
finder phone, in the fixed wording of lines 177-181; the body ends with the quoted
suffix (two newlines, then Mensaje: "<trimmed message>") if and only if the trimmed
message is non-empty; and this title and body are those of the notification that
`handleSendMessage` issues. -/
theorem message_format (rt : Runtime) (c : Candidate) (coords : Coords) (message : JsString)
    (hlat : |coords.latitude| < 10 ^ 21) (hlon : |coords.longitude| < 10 ^ 21) :
    (foundTitle rt c.petName = js "✅ ¡" ++ c.petName.toStr rt ++ js " ha sido localizada!" ∧
      ∀ name : JsString, c.petName = .str name → name <:+: foundTitle rt c.petName) ∧
    foundBody rt c coords message =
      c.rescuerName ++ js " escaneó el QR de tu mascota en: " ++ js "Lat: " ++
        toFixed rt 4 coords.latitude ++ js ", Lon: " ++ toFixed rt 4 coords.longitude ++
        js ".\nTeléfono del rescatista: " ++ c.rescuerPhone ++ js "." ++
        (if trim message = [] then [] else messageSuffix message) ∧
    isFixedDecimal 4 (toFixed rt 4 coords.latitude) = true ∧
    isFixedDecimal 4 (toFixed rt 4 coords.longitude) = true ∧
    (messageSuffix message <:+ foundBody rt c coords message ↔ trim message ≠ []) ∧
    ∀ (env : SendEnv) (w : World) (s : CommunityState),
      s.scannedPetData = some c → s.isProcessing = false → env.position = some coords →
      s.message = message → c.ownerId ≠ [] →
      Call.addNotificationDoc
          { userId := c.ownerId, title := foundTitle rt c.petName,
            body := foundBody rt c coords message, createdAt := env.push.serverTime,
            read := some false } ∈ (handleSendMessage rt env w s).1.log := by
  have hbody : foundBody rt c coords message =
      c.rescuerName ++ js " escaneó el QR de tu mascota en: " ++ js "Lat: " ++
        toFixed rt 4 coords.latitude ++ js ", Lon: " ++ toFixed rt 4 coords.longitude ++
        js ".\nTeléfono del rescatista: " ++ c.rescuerPhone ++ js "." ++
        (if trim message = [] then [] else messageSuffix message) := by
    unfold foundBody messageSuffix
    cases htrim : trim message with
    | nil => simp
    | cons u rest => simp
  refine ⟨⟨rfl, ?_⟩, hbody, isFixedDecimal_toFixed rt _ hlat, isFixedDecimal_toFixed rt _ hlon,
    ?_, ?_⟩
  · intro name hname
    exact ⟨js "✅ ¡", js " ha sido localizada!", by simp [foundTitle, hname, JsVal.toStr]⟩
  · rw [hbody]
    constructor
    · intro hsuffix htrim
      rw [if_pos htrim, List.append_nil] at hsuffix
      exact messageSuffix_not_suffix _ message hsuffix
    · intro htrim
      rw [if_neg htrim]
      exact List.suffix_append _ _
  · intro env w s hstaged hidle hpos hmessage howner
    rw [← hmessage]
    exact handleSendMessage_issues_notification rt env w s c coords hstaged hidle hpos howner

/-- The message of the finder of `p1`, sent from the park. -/
theorem message_format_witness :
    js "Rex" <:+: foundTitle exampleRuntime rexCandidate.petName ∧
    isFixedDecimal 4 (toFixed exampleRuntime 4 parkCoords.latitude) = true ∧
    isFixedDecimal 4 (toFixed exampleRuntime 4 parkCoords.longitude) = true ∧
    (messageSuffix (js " Encontrado en el parque ") <:+
        foundBody exampleRuntime rexCandidate parkCoords (js " Encontrado en el parque ") ↔
      trim (js " Encontrado en el parque ") ≠ []) ∧
    Call.addNotificationDoc
        { userId := js "u1", title := foundTitle exampleRuntime rexCandidate.petName,
          body := foundBody exampleRuntime rexCandidate parkCoords
            (js "Encontrado en el parque"),
          createdAt := 2000, read := some false } ∈
      (handleSendMessage exampleRuntime okSend finderWorld stagedScreen).1.log :=
  ⟨(message_format exampleRuntime rexCandidate parkCoords (js "Encontrado en el parque")
      (by norm_num [parkCoords, abs_of_nonneg]) (by norm_num [parkCoords, abs_of_neg])).1.2
      (js "Rex") rfl,
    (message_format exampleRuntime rexCandidate parkCoords (js "Encontrado en el parque")
      (by norm_num [parkCoords, abs_of_nonneg]) (by norm_num [parkCoords, abs_of_neg])).2.2.1,
    (message_format exampleRuntime rexCandidate parkCoords (js "Encontrado en el parque")
      (by norm_num [parkCoords, abs_of_nonneg]) (by norm_num [parkCoords, abs_of_neg])).2.2.2.1,
    (message_format exampleRuntime rexCandidate parkCoords (js " Encontrado en el parque ")
      (by norm_num [parkCoords, abs_of_nonneg])
      (by norm_num [parkCoords, abs_of_neg])).2.2.2.2.1,
    (message_format exampleRuntime rexCandidate parkCoords (js "Encontrado en el parque")
      (by norm_num [parkCoords, abs_of_nonneg])
      (by norm_num [parkCoords, abs_of_neg])).2.2.2.2.2 okSend finderWorld stagedScreen
      rfl rfl rfl rfl (by decide)⟩

/-! ## State-machine correspondence -/

/-- The store after a successful `addPet`. -/
theorem addPet_success_store (env : AddPetEnv) (w : World) (s : PetsState) (uid : JsString)
    (hname : s.newPet.name ≠ []) (htype : s.newPet.type ≠ [])
    (huser : w.currentUser = some uid) (hadd : env.addRejects = false) :
    (addPet env w s).1.store.pets =
        w.store.pets ++
          [(env.newId,
            { form := s.newPet, userId := uid, chip := js "QR Simulado", createdAt := env.now,
              location := (getCurrentCoords env.location w).2, status := js "safe" })] ∧
      (addPet env w s).1.store.reports = w.store.reports := by
  constructor <;> simp [addPet, hname, htype, huser, hadd, Store.addPet]

/-- The store after a successful report-lost action. -/
theorem confirmReportLost_success_store (env : ReportEnv) (pet : PetItem) (w : World)
    (coords : Coords) (d : PetDoc) (hloc : env.location = .granted coords)
    (hquery : env.queryRejects = false) (hnone : w.store.activeReports pet.id = [])
    (hadd : env.addRejects = false) (hupdate : env.updateRejects = false)
    (hpet : findDoc pet.id w.store.pets = some d) :
    (confirmReportLost env pet w).store.reports =
        w.store.reports ++
          [(env.newId,
            { petId := pet.id, userId := pet.data.userId, petName := pet.data.form.name,
              petType := pet.data.form.type, location := coords, status := js "active",
              createdAt := env.serverTime, foundBy := none, foundByPhone := none,
              foundAt := none, foundAtTime := none })] ∧
      (confirmReportLost env pet w).store.pets =
        updateAt pet.id (PetPatch.apply ⟨js "lost", none⟩) w.store.pets := by
  constructor <;>
    simp [confirmReportLost, hloc, getCurrentCoords, hnone, hquery, hadd, hupdate, hpet,
      Store.addReport, Store.updatePet]

/-- The store after a successful `handleSendMessage`. -/
theorem handleSendMessage_success_store (rt : Runtime) (env : SendEnv) (w : World)
    (s : CommunityState) (c : Candidate) (id : JsString) (coords : Coords) (d : PetDoc)
    (hstaged : s.scannedPetData = some c) (hidle : s.isProcessing = false)
    (hpos : env.position = some coords) (hid : c.petId = .str id)
    (hquery : env.queryRejects = false) (hreport : env.reportUpdateRejects = false)
    (hupdate : env.petUpdateRejects = false) (hpet : findDoc id w.store.pets = some d) :
    (handleSendMessage rt env w s).1.store.reports =
        (match w.store.activeReports id with
          | [] => w.store.reports
          | first :: _ =>
            updateAt first.1
              (ReportPatch.apply
                ⟨js "found", c.rescuerName, c.rescuerPhone, coords, env.serverTime⟩)
              w.store.reports) ∧
      (handleSendMessage rt env w s).1.store.pets =
        updateAt id (PetPatch.apply ⟨js "safe", some coords⟩) w.store.pets := by
  have hsame : Store.activeReports
      ((sendPushNotification env.push c.ownerPushToken (foundTitle rt c.petName)
        (foundBody rt c coords s.message) (some c.ownerId)
        (w.call .getCurrentPosition)).call (.queryActiveReports (.str id))).store id =
      w.store.activeReports id := by
    simp [Store.activeReports]
  constructor
  · simp only [handleSendMessage, hstaged, hidle, hpos, hid, hquery, hsame, if_false,
      Bool.false_eq_true]
    cases hf : w.store.activeReports id with
    | nil =>
      simp only [resolveFirstReport]
      split_ifs
      · simp [sendFailed]
      · split
        · simp [sendFailed]
        · split_ifs <;> simp [sendFailed, Store.updatePet]
    | cons first rest =>
      have hrf := resolveFirstReport_cons env c coords first rest
        ((sendPushNotification env.push c.ownerPushToken (foundTitle rt c.petName)
          (foundBody rt c coords s.message) (some c.ownerId)
          (w.call .getCurrentPosition)).call (.queryActiveReports (.str id))) hreport
      simp only [World.call_store, sendPushNotification_reports] at hrf
      split_ifs
      · simp [sendFailed, hrf]
      · split
        · simp [sendFailed, hrf]
        · split_ifs <;> simp [sendFailed, Store.updatePet, hrf]
  · simp [handleSendMessage, hstaged, hidle, hpos, hid, hquery, hupdate, hpet,
      resolveFirstReport_accepted _ _ _ _ _ hreport, Store.updatePet,
      docRef_of_findDoc _ _ _ hpet]

theorem activeCount_eq_countP (st : Store) (p : JsString) :
    activeCount st p =
      st.reports.countP (fun r => decide (r.2.petId = p ∧ r.2.status = js "active")) := by
  unfold activeCount Store.activeReports
  rw [List.countP_eq_length_filter]

theorem findDoc_eq_none_iff {α : Type} (id : JsString) (docs : List (JsString × α)) :
    findDoc id docs = none ↔ ∀ e ∈ docs, e.1 ≠ id := by
  induction docs with
  | nil => simp [findDoc]
  | cons d rest ih =>
    by_cases h : d.1 = id
    · simp [findDoc, h]
    · simp [findDoc, h, ih]

theorem findDoc_mem {α : Type} (id : JsString) (docs : List (JsString × α)) (d : α)
    (h : findDoc id docs = some d) : (id, d) ∈ docs := by
  induction docs with
  | nil => simp [findDoc] at h
  | cons e rest ih =>
    by_cases he : e.1 = id
    · simp only [findDoc, he, if_true, Option.some.injEq] at h
      exact List.mem_cons.mpr (Or.inl (by rw [← h, ← he]))
    · simp only [findDoc, he, if_false] at h
      exact List.mem_cons_of_mem _ (ih h)

theorem findDoc_isSome_iff {α : Type} (id : JsString) (docs : List (JsString × α)) :
    (findDoc id docs).isSome = true ↔ ∃ e ∈ docs, e.1 = id := by
  rw [← Option.ne_none_iff_isSome, ne_eq, findDoc_eq_none_iff]
  push_neg
  rfl

theorem findDoc_isSome_append {α : Type} (id : JsString) (docs more : List (JsString × α))
    (h : (findDoc id docs).isSome = true) : (findDoc id (docs ++ more)).isSome = true := by
  rw [findDoc_isSome_iff] at h ⊢
  obtain ⟨e, he, hid⟩ := h
  exact ⟨e, List.mem_append_left _ he, hid⟩

theorem findDoc_isSome_updateAt {α : Type} (id id2 : JsString) (f : α → α)
    (docs : List (JsString × α)) (h : (findDoc id2 docs).isSome = true) :
    (findDoc id2 (updateAt id f docs)).isSome = true := by
  rw [findDoc_isSome_iff] at h ⊢
  obtain ⟨e, he, hid⟩ := h
  refine ⟨if e.1 = id then (e.1, f e.2) else e, ?_, ?_⟩
  · exact List.mem_map.mpr ⟨e, he, rfl⟩
  · split_ifs <;> exact hid

theorem updateAt_fst {α : Type} (id : JsString) (f : α → α) (docs : List (JsString × α)) :
    (updateAt id f docs).map (fun r => r.1) = docs.map (fun r => r.1) := by
  unfold updateAt
  rw [List.map_map]
  apply List.map_congr_left
  intro e _
  simp only [Function.comp]
  split_ifs <;> rfl

theorem mem_updateAt {α : Type} (id : JsString) (f : α → α) (docs : List (JsString × α))
    (x : JsString × α) (h : x ∈ updateAt id f docs) :
    ∃ e ∈ docs, (e.1 = id ∧ x = (e.1, f e.2)) ∨ (e.1 ≠ id ∧ x = e) := by
  obtain ⟨e, he, hx⟩ := List.mem_map.mp h
  refine ⟨e, he, ?_⟩
  by_cases hid : e.1 = id
  · left; exact ⟨hid, by rw [← hx, if_pos hid]⟩
  · right; exact ⟨hid, by rw [← hx, if_neg hid]⟩

/-- A new safe pet with an unused identifier keeps the invariant. -/
theorem invariant_addPet (st st2 : Store) (id : JsString) (doc : PetDoc)
    (hinv : StateMachineInvariant st) (hfresh : findDoc id st.pets = none)
    (hsafe : doc.status = js "safe") (hpets : st2.pets = st.pets ++ [(id, doc)])
    (hreports : st2.reports = st.reports) : StateMachineInvariant st2 := by
  obtain ⟨hnodup, hown, hpet⟩ := hinv
  have hcount : ∀ p, activeCount st2 p = activeCount st p := fun p =>
    activeCount_congr st st2 p hreports
  refine ⟨by rw [hreports]; exact hnodup, ?_, ?_⟩
  · intro r hr hactive
    rw [hreports] at hr
    rw [hpets]
    exact findDoc_isSome_append _ _ _ (hown r hr hactive)
  · intro p hp
    rw [hpets] at hp
    rcases List.mem_append.mp hp with hp | hp
    · rw [hcount]; exact hpet p hp
    · rw [List.mem_singleton] at hp
      subst hp
      right
      refine ⟨hsafe, ?_⟩
      rw [hcount, activeCount_eq_countP, List.countP_eq_zero]
      intro r hr hactive
      simp only [decide_eq_true_eq] at hactive
      have hsome := hown r hr hactive.2
      rw [hactive.1, hfresh] at hsome
      exact absurd hsome (by simp)

/-- Reporting a pet without an active report keeps the invariant. -/
theorem invariant_report (st st2 : Store) (pid rid : JsString) (d : PetDoc) (doc : ReportDoc)
    (hinv : StateMachineInvariant st) (hnone : st.activeReports pid = [])
    (hpet : findDoc pid st.pets = some d) (hfresh : findDoc rid st.reports = none)
    (hdoc : doc.petId = pid ∧ doc.status = js "active")
    (hreports : st2.reports = st.reports ++ [(rid, doc)])
    (hpets : st2.pets = updateAt pid (PetPatch.apply ⟨js "lost", none⟩) st.pets) :
    StateMachineInvariant st2 := by
  obtain ⟨hnodup, hown, hstate⟩ := hinv
  have hcount : ∀ p, activeCount st2 p =
      activeCount st p + if pid = p then 1 else 0 := by
    intro p
    rw [activeCount_eq_countP, activeCount_eq_countP, hreports, List.countP_append]
    congr 1
    by_cases hp : pid = p
    · simp [List.countP_cons, hdoc.1, hdoc.2, hp]
    · simp [List.countP_cons, hdoc.1, hp]
  refine ⟨?_, ?_, ?_⟩
  · rw [hreports, List.map_append, List.nodup_append]
    refine ⟨hnodup, by simp, ?_⟩
    intro a ha hb
    simp only [List.map_cons, List.map_nil, List.mem_singleton] at hb
    obtain ⟨e, he, hea⟩ := List.mem_map.mp ha
    exact (findDoc_eq_none_iff rid st.reports).mp hfresh e he (by rw [hea, hb])
  · intro r hr hactive
    rw [hpets]
    apply findDoc_isSome_updateAt
    rw [hreports] at hr
    rcases List.mem_append.mp hr with hr | hr
    · exact hown r hr hactive
    · rw [List.mem_singleton] at hr
      rw [hr, hdoc.1, hpet]; rfl
  · intro p hp
    rw [hpets] at hp
    obtain ⟨e, he, ⟨hid, hx⟩ | ⟨hid, hx⟩⟩ := mem_updateAt _ _ _ p hp
    · left
      rw [hx]
      refine ⟨rfl, ?_⟩
      simp only [hcount, hid, if_true]
      have h0 : activeCount st pid = 0 := by simp [activeCount, hnone]
      rw [h0]
    · rw [hx, hcount, if_neg (fun h => hid h.symm), Nat.add_zero]
      exact hstate e he

/-- Resolving a stored pet keeps the invariant. -/
theorem invariant_resolve (st st2 : Store) (id : JsString) (d : PetDoc) (patch : ReportPatch)
    (coords : Coords) (hinv : StateMachineInvariant st) (hpet : findDoc id st.pets = some d)
    (hfound : patch.status = js "found")
    (hreports : st2.reports =
      match st.activeReports id with
      | [] => st.reports
      | first :: _ => updateAt first.1 patch.apply st.reports)
    (hpets : st2.pets = updateAt id (PetPatch.apply ⟨js "safe", some coords⟩) st.pets) :
    StateMachineInvariant st2 := by
  obtain ⟨hnodup, hown, hstate⟩ := hinv
  have hne : js "found" ≠ js "active" := by decide
  -- the active reports of the pet after the action: none
  have hzero : activeCount st2 id = 0 := by
    rw [activeCount_eq_countP, List.countP_eq_zero]
    intro r hr hactive
    simp only [decide_eq_true_eq] at hactive
    cases hf : st.activeReports id with
    | nil =>
      rw [hf] at hreports
      rw [hreports] at hr
      have hmem : r ∈ st.activeReports id :=
        List.mem_filter.mpr ⟨hr, by simpa using hactive⟩
      rw [hf] at hmem
      exact absurd hmem (List.not_mem_nil _)
    | cons first rest =>
      rw [hf] at hreports
      rw [hreports] at hr
      have hone : activeCount st id = 1 := by
        rcases hstate (id, d) (findDoc_mem _ _ _ hpet) with h | h
        · exact h.2
        · have := h.2
          simp [activeCount, hf] at this
      have hrest : rest = [] := by
        simp only [activeCount, hf, List.length_cons, add_left_eq_self,
          List.length_eq_zero] at hone
        exact hone
      obtain ⟨e, he, ⟨hid, hx⟩ | ⟨hid, hx⟩⟩ := mem_updateAt _ _ _ r hr
      · rw [hx] at hactive
        exact hne (by rw [← hfound]; exact hactive.2)
      · rw [hx] at hactive
        have hmem : e ∈ st.activeReports id :=
          List.mem_filter.mpr ⟨he, by simpa using hactive⟩
        rw [hf, hrest, List.mem_singleton] at hmem
        exact hid (by rw [hmem])
  -- the active reports of every other pet: as before
  have hother : ∀ p, p ≠ id → activeCount st2 p = activeCount st p := by
    intro p hp
    cases hf : st.activeReports id with
    | nil =>
      rw [hf] at hreports
      exact activeCount_congr st st2 p hreports
    | cons first rest =>
      rw [hf] at hreports
      have hfirst : first ∈ st.activeReports id := by rw [hf]; exact List.mem_cons_self _ _
      have hfmem : first ∈ st.reports := (List.mem_filter.mp hfirst).1
      have hfpet : first.2.petId = id := by
        have := (List.mem_filter.mp hfirst).2
        simp only [decide_eq_true_eq] at this
        exact this.1
      rw [activeCount_eq_countP, activeCount_eq_countP, hreports]
      unfold updateAt
      rw [List.countP_map]
      apply List.countP_congr
      intro e he
      by_cases hid : e.1 = first.1
      · have heq : e = first :=
          List.inj_on_of_nodup_map hnodup he hfmem hid
        simp [hid, heq, ReportPatch.apply, hfpet, Ne.symm hp]
      · simp [hid]
  refine ⟨?_, ?_, ?_⟩
  · rw [hreports]
    cases st.activeReports id with
    | nil => exact hnodup
    | cons first rest => simp only []; rw [updateAt_fst]; exact hnodup
  · intro r hr hactive
    rw [hpets]
    apply findDoc_isSome_updateAt
    rw [hreports] at hr
    cases hf : st.activeReports id with
    | nil => rw [hf] at hr; exact hown r hr hactive
    | cons first rest =>
      rw [hf] at hr
      obtain ⟨e, he, ⟨hid, hx⟩ | ⟨hid, hx⟩⟩ := mem_updateAt _ _ _ r hr
      · rw [hx] at hactive
        exact absurd (by rw [← hfound]; exact hactive) hne
      · rw [hx] at hactive ⊢
        exact hown e he hactive
  · intro p hp
    rw [hpets] at hp
    obtain ⟨e, he, ⟨hid, hx⟩ | ⟨hid, hx⟩⟩ := mem_updateAt _ _ _ p hp
    · right
      rw [hx]
      exact ⟨rfl, by simp only [hid]; exact hzero⟩
    · rw [hx, hother e.1 hid]
      exact hstate e he

theorem invariant_of_reachable (st : Store) (h : ReachableByExactIds st) :
    StateMachineInvariant st := by
  induction h with
  | init st hpets hreports =>
    refine ⟨by simp [hreports], by simp [hreports], by simp [hpets]⟩
  | addPet env w s uid _ hname htype huser hadd hfresh ih =>
    obtain ⟨hp, hr⟩ := addPet_success_store env w s uid hname htype huser hadd
    exact invariant_addPet w.store _ env.newId _ ih hfresh rfl hp hr
  | report env pet w coords d _ hloc hquery hnone hadd hupdate hpet hfresh ih =>
    obtain ⟨hr, hp⟩ := confirmReportLost_success_store env pet w coords d hloc hquery hnone
      hadd hupdate hpet
    exact invariant_report w.store _ pet.id env.newId d _ ih hnone hpet hfresh ⟨rfl, rfl⟩ hr hp
  | resolve rt env w s c id coords d _ hstaged hidle hpos hid hquery hreport hupdate hpet ih =>
    obtain ⟨hr, hp⟩ := handleSendMessage_success_store rt env w s c id coords d hstaged hidle
      hpos hid hquery hreport hupdate hpet
    exact invariant_resolve w.store _ id d
      ⟨js "found", c.rescuerName, c.rescuerPhone, coords, env.serverTime⟩ coords ih hpet rfl
      hr hp

/-- A sequence of successful actions whose candidates carry identifiers of stored pets is
a sequence of successful actions. -/
theorem reachableBySuccess_of_exactIds (st : Store) (h : ReachableByExactIds st) :
    ReachableBySuccess st := by
  induction h with
  | init st hpets hreports => exact .init st hpets hreports
  | addPet env w s uid _ hname htype huser hadd hfresh ih =>
    exact .addPet env w s uid ih hname htype huser hadd hfresh
  | report env pet w coords d _ hloc hquery hnone hadd hupdate hpet hfresh ih =>
    exact .report env pet w coords d ih hloc hquery hnone hadd hupdate hpet hfresh
  | resolve rt env w s c id coords d _ hstaged hidle hpos hid hquery hreport hupdate hpet ih =>
    exact .resolve rt env w s c id id coords d ih hstaged hidle hpos hid hquery hreport
      hupdate (docRef_of_findDoc _ _ _ hpet) hpet

/-- C19 fails as stated: from the store without pets and reports, `u1` registers a pet
(stored as `p2`) and reports it lost (report `r1`); `u2` then scans a QR text whose
`petId` is "p2/" and sends the message. Every action reaches its success notice: the
query for the reports with `petId` "p2/" finds none, and `doc(db, "pets", "p2/")` denotes
`pets/p2`, which is set to "safe". The pet `p2` is then "safe" while its report `r1` is
still active. -/
theorem resolve_by_path_leaves_report_active :
    slashScreen.scannedPetData = some { rexCandidate with petId := .str (js "p2/") } ∧
    ReachableBySuccess slashResolvedWorld.store ∧
    slashResolvedWorld.log.getLast? =
      some (.alert (js "¡Notificación Enviada!")
        (js "Gracias por ayudar. El dueño de Rex ha sido notificado.")) ∧
    slashResolvedWorld.store.pets.map (fun d => (d.1, d.2.status)) = [(js "p2", js "safe")] ∧
    slashResolvedWorld.store.reports.map (fun r => (r.1, r.2.petId, r.2.status)) =
      [(js "r1", js "p2", js "active")] ∧
    activeCount slashResolvedWorld.store (js "p2") = 1 ∧
    ¬ (js "safe" = js "safe" ↔ activeCount slashResolvedWorld.store (js "p2") = 0) := by
  have hcount : activeCount slashResolvedWorld.store (js "p2") = 1 := by decide
  refine ⟨rfl, ?_, rfl, rfl, rfl, hcount, ?_⟩
  · exact ReachableBySuccess.resolve exampleRuntime okSend registeredFinderWorld slashScreen
      { rexCandidate with petId := .str (js "p2/") } (js "p2/") (js "p2") parkCoords
      { rexPet.data with location := some homeCoords, status := js "lost" }
      (ReachableBySuccess.report okReport { rexPet with id := js "p2" }
        (addPet okAddPet emptyWorld filledForm).1 homeCoords _
        (ReachableBySuccess.addPet okAddPet emptyWorld filledForm (js "u1")
          (ReachableBySuccess.init _ rfl rfl) (by decide) (by decide) rfl rfl rfl)
        rfl rfl rfl rfl rfl rfl rfl)
      rfl rfl rfl rfl rfl rfl rfl rfl rfl
  · rw [hcount]
    exact fun h => absurd (h.mp rfl) (by decide)

/-- C19, amended: in every store reached from a store without pets and reports by fully
successful `addPet`, report-lost and resolve-found actions run one after the other, where
each resolve-found action is run for a candidate whose `petId` is the identifier of a
stored pet, every pet has status "lost" if and only if exactly one active report exists
for it, and status "safe" if and only if no active report exists for it. -/
theorem state_machine_correspondence (st : Store) (h : ReachableByExactIds st)
    (p : JsString × PetDoc) (hp : p ∈ st.pets) :
    (p.2.status = js "lost" ↔ activeCount st p.1 = 1) ∧
      (p.2.status = js "safe" ↔ activeCount st p.1 = 0) := by
  have hne : js "lost" ≠ js "safe" := by decide
  rcases (invariant_of_reachable st h).2.2 p hp with ⟨hs, hc⟩ | ⟨hs, hc⟩
  · rw [hs, hc]
    exact ⟨⟨fun _ => rfl, fun _ => rfl⟩, ⟨fun h => absurd h hne, fun h => absurd h (by decide)⟩⟩
  · rw [hs, hc]
    exact ⟨⟨fun h => absurd h.symm hne, fun h => absurd h (by decide)⟩,
      ⟨fun _ => rfl, fun _ => rfl⟩⟩

/-- The pet `p2`, registered and then reported lost, is "lost" with one active report. -/
theorem state_machine_correspondence_witness :
    ReachableByExactIds registeredLostWorld.store ∧
    registeredLostWorld.store.pets.map (fun d => (d.1, d.2.status)) = [(js "p2", js "lost")] ∧
    activeCount registeredLostWorld.store (js "p2") = 1 ∧
    ((js "lost" = js "lost" ↔ activeCount registeredLostWorld.store (js "p2") = 1) ∧
      (js "lost" = js "safe" ↔ activeCount registeredLostWorld.store (js "p2") = 0)) :=
  ⟨ReachableByExactIds.report okReport { rexPet with id := js "p2" }
      (addPet okAddPet emptyWorld filledForm).1 homeCoords _
      (ReachableByExactIds.addPet okAddPet emptyWorld filledForm (js "u1")
        (ReachableByExactIds.init _ rfl rfl) (by decide) (by decide) rfl rfl rfl)
      rfl rfl rfl rfl rfl rfl rfl,
    rfl, by decide,
    state_machine_correspondence registeredLostWorld.store
      (ReachableByExactIds.report okReport { rexPet with id := js "p2" }
        (addPet okAddPet emptyWorld filledForm).1 homeCoords _
        (ReachableByExactIds.addPet okAddPet emptyWorld filledForm (js "u1")
          (ReachableByExactIds.init _ rfl rfl) (by decide) (by decide) rfl rfl rfl)
        rfl rfl rfl rfl rfl rfl rfl)
      (js "p2", { rexPet.data with location := some homeCoords, status := js "lost" })
      (List.mem_singleton.mpr rfl)⟩

/-! ## No failure propagates -/

theorem getCurrentCoordsCode_run {σ : Type} (outcome : LocationOutcome) (w : World) (s : σ) :
    (getCurrentCoordsCode outcome).run w s =
      ((getCurrentCoords outcome w).1, s, .normal (getCurrentCoords outcome w).2) := by
  cases outcome <;> rfl

theorem createAndSaveNotificationCode_run {σ : Type} (env : NotifyEnv) (title body : JsString)
    (w : World) (s : σ) :
    (createAndSaveNotificationCode env title body).run w s =
      (createAndSaveNotification env title body w, s, .normal ()) := by
  obtain ⟨store, user, log⟩ := w
  obtain ⟨scheduleRejects, addRejects, t, newId⟩ := env
  cases scheduleRejects <;> cases addRejects <;> cases user <;> rfl

theorem sendPushNotificationCode_run {σ : Type} (env : PushEnv) (token : Option JsString)
    (title message : JsString) (recipientId : Option JsString) (w : World) (s : σ) :
    (sendPushNotificationCode env token title message recipientId).run w s =
      (sendPushNotification env token title message recipientId w, s, .normal ()) := by
  obtain ⟨fetchRejects, addRejects, t, newId⟩ := env
  unfold sendPushNotificationCode sendPushNotification
  cases present token <;> cases present recipientId <;> cases fetchRejects <;>
    cases addRejects <;> rfl

theorem await_rejected_run {σ : Type} (c : Call) (w : World) (s : σ) :
    (Code.await true c : Code σ Unit).run w s = (w.call c, s, .thrown (js "rejected")) := rfl

theorem addPetCode_run (env : AddPetEnv) (w : World) (s : PetsState) :
    (addPetCode env).run w s = ((addPet env w s).1, (addPet env w s).2, .normal ()) := by
  obtain ⟨store, user, log⟩ := w
  obtain ⟨location, addRejects, now, newId, ⟨scheduleRejects, notifyRejects, t, notifyId⟩⟩ := env
  obtain ⟨modalVisible, ⟨name, age, breed, color, type, weight, vaccines⟩, saving, qr, sel⟩ := s
  cases name <;> cases type <;> cases location <;> cases user <;> cases addRejects <;>
    cases scheduleRejects <;> cases notifyRejects <;> rfl

theorem confirmDeletePetCode_run {σ : Type} (env : DeleteEnv) (petId petName : JsString)
    (w : World) (s : σ) :
    (confirmDeletePetCode env petId petName).run w s =
      (confirmDeletePet env petId petName w, s, .normal ()) := by
  obtain ⟨store, user, log⟩ := w
  obtain ⟨deleteRejects, ⟨scheduleRejects, notifyRejects, t, notifyId⟩⟩ := env
  cases deleteRejects <;> cases user <;> cases scheduleRejects <;> cases notifyRejects <;> rfl

theorem createAndSaveNotificationCode_apply {σ : Type} (env : NotifyEnv)
    (title body : JsString) (w : World) (s : σ) :
    createAndSaveNotificationCode env title body w s =
      (createAndSaveNotification env title body w, s, .normal ()) :=
  createAndSaveNotificationCode_run env title body w s

theorem sendPushNotificationCode_apply {σ : Type} (env : PushEnv) (token : Option JsString)
    (title message : JsString) (recipientId : Option JsString) (w : World) (s : σ) :
    sendPushNotificationCode env token title message recipientId w s =
      (sendPushNotification env token title message recipientId w, s, .normal ()) :=
  sendPushNotificationCode_run env token title message recipientId w s

theorem getCurrentCoordsCode_apply {σ : Type} (outcome : LocationOutcome) (w : World) (s : σ) :
    getCurrentCoordsCode outcome w s =
      ((getCurrentCoords outcome w).1, s, .normal (getCurrentCoords outcome w).2) :=
  getCurrentCoordsCode_run outcome w s

theorem confirmReportLostCode_run {σ : Type} (env : ReportEnv) (pet : PetItem)
    (w : World) (s : σ) :
    (confirmReportLostCode env pet).run w s = (confirmReportLost env pet w, s, .normal ()) := by
  obtain ⟨store, user, log⟩ := w
  obtain ⟨location, queryRejects, addRejects, updateRejects, t, newId, notify⟩ := env
  cases location <;> cases queryRejects <;> try rfl
  cases hactive : store.activeReports pet.id <;> cases addRejects <;> cases updateRejects <;>
    cases hfind : findDoc pet.id store.pets <;>
    simp [confirmReportLostCode, confirmReportLost, Code.run, bind, Code.bind, tryCatch,
      tryCatchThe, MonadExcept.tryCatch, Code.tryCatch, Code.log, Code.await, Code.getStore,
      Code.writeStore, Code.updatePet, pure, Code.pure, getCurrentCoordsCode_apply,
      createAndSaveNotificationCode_apply, getCurrentCoords, World.call, hactive, hfind,
      Store.addReport, reportFailed]

theorem handleBarCodeScannedCode_run (env : ScanEnv) (data : JsString) (w : World)
    (s : CommunityState) :
    (handleBarCodeScannedCode env data).run w s =
      ((handleBarCodeScanned env data w s).1, (handleBarCodeScanned env data w s).2,
        .normal ()) := by
  obtain ⟨store, user, log⟩ := w
  obtain ⟨rescuerReadRejects, ownerReadRejects⟩ := env
  obtain ⟨scannerVisible, scanned, messageModalVisible, scannedPetData, message, isProcessing⟩ := s
  cases scanned <;> cases user <;> try rfl
  rename_i uid
  cases hq : decodeQr data with
  | none =>
    simp [handleBarCodeScannedCode, handleBarCodeScanned, Code.run, bind, Code.bind, tryCatch,
      tryCatchThe, MonadExcept.tryCatch, Code.tryCatch, Code.log, Code.getState, Code.setState,
      Code.currentUser, pure, Code.pure, throw, throwThe, MonadExcept.throw, Code.throw,
      World.call, hq, scanFailed]
  | some q =>
    obtain ⟨petId, ownerId, name⟩ := q
    cases ownerId with
    | str o =>
      cases hkey : docRef store.users o with
      | none =>
        by_cases ho : o = uid <;> cases hres : findDoc uid store.users <;>
          cases rescuerReadRejects <;> cases ownerReadRejects <;>
          simp_all [handleBarCodeScannedCode, handleBarCodeScanned, Code.run, bind, Code.bind,
            tryCatch, tryCatchThe, MonadExcept.tryCatch, Code.tryCatch, Code.log, Code.await,
            Code.getStore, Code.getState, Code.setState, Code.currentUser, Code.doc, pure,
            Code.pure, throw, throwThe, MonadExcept.throw, Code.throw, World.call, scanFailed,
            JsVal.isString]
      | some key =>
        by_cases ho : o = uid <;> cases hown : findDoc key store.users <;>
          cases hres : findDoc uid store.users <;> cases rescuerReadRejects <;>
          cases ownerReadRejects <;>
          simp_all [handleBarCodeScannedCode, handleBarCodeScanned, Code.run, bind, Code.bind,
            tryCatch, tryCatchThe, MonadExcept.tryCatch, Code.tryCatch, Code.log, Code.await,
            Code.getStore, Code.getState, Code.setState, Code.currentUser, Code.doc, pure,
            Code.pure, throw, throwThe, MonadExcept.throw, Code.throw, World.call, scanFailed,
            JsVal.isString]
    | _ =>
      cases rescuerReadRejects <;> cases ownerReadRejects <;>
        simp [handleBarCodeScannedCode, handleBarCodeScanned, Code.run, bind, Code.bind,
          tryCatch, tryCatchThe, MonadExcept.tryCatch, Code.tryCatch, Code.log, Code.await,
          Code.getStore, Code.getState, Code.setState, Code.currentUser, pure, Code.pure, throw,
          throwThe, MonadExcept.throw, Code.throw, World.call, hq, scanFailed, JsVal.isString]

theorem handleSendMessageCode_run (rt : Runtime) (env : SendEnv) (w : World)
    (s : CommunityState) :
    (handleSendMessageCode rt env).run w s =
      ((handleSendMessage rt env w s).1, (handleSendMessage rt env w s).2, .normal ()) := by
  obtain ⟨scannerVisible, scanned, messageModalVisible, scannedPetData, message, isProcessing⟩ := s
  obtain ⟨position, push, queryRejects, reportUpdateRejects, petUpdateRejects, t⟩ := env
  cases scannedPetData with
  | none => rfl
  | some c =>
    cases isProcessing
    swap
    · rfl
    cases position with
    | none => rfl
    | some coords =>
      simp only [handleSendMessageCode, handleSendMessage, Code.run, bind, Code.bind,
        Code.getState, Code.setState, Code.currentPosition, Code.log, pure, Code.pure,
        tryFinally, MonadFinally.tryFinally', Code.tryFinally, Functor.map, tryCatch,
        tryCatchThe, MonadExcept.tryCatch, Code.tryCatch, Bool.false_eq_true, if_false,
        sendPushNotificationCode_apply]
      generalize sendPushNotification push c.ownerPushToken (foundTitle rt c.petName)
        (foundBody rt c coords message) (some c.ownerId) (w.call .getCurrentPosition) = w2
      obtain ⟨store, user, log⟩ := w2
      obtain ⟨petId, petName, ownerId, ownerName, ownerPhone, token, rescuerName,
        rescuerPhone⟩ := c
      cases petId with
      | str id =>
        cases hkey : docRef store.pets id with
        | none =>
          cases hactive : store.activeReports id <;> cases queryRejects <;>
            cases reportUpdateRejects <;> cases petUpdateRejects <;>
            simp [Code.await, Code.getStore, Code.writeStore, Code.updatePet, Code.log,
              Code.setState, Code.doc, pure, Code.pure, Code.throw, throw, throwThe,
              MonadExcept.throw, bind, Code.bind, World.call, sendFailed, resolveFirstReport,
              hactive, hkey, Store.updateReport, closeMessageModal]
        | some key =>
          cases hactive : store.activeReports id <;> cases hfind : findDoc key store.pets <;>
            cases queryRejects <;> cases reportUpdateRejects <;> cases petUpdateRejects <;>
            simp [Code.await, Code.getStore, Code.writeStore, Code.updatePet, Code.log,
              Code.setState, Code.doc, pure, Code.pure, Code.throw, throw, throwThe,
              MonadExcept.throw, bind, Code.bind, World.call, sendFailed, resolveFirstReport,
              hactive, hkey, hfind, Store.updateReport, closeMessageModal]
      | _ =>
        cases queryRejects <;>
          simp [Code.await, Code.getStore, Code.writeStore, Code.updatePet, Code.log,
            Code.setState, Code.pure, Code.throw, throw, throwThe, MonadExcept.throw,
            bind, Code.bind, World.call, sendFailed, resolveFirstReport, closeMessageModal]

/-- C14. No failure propagates: whatever the location, store, local-notification and push
calls answer (each of them accepted or rejected), `addPet`, the confirmed report-lost
action, the confirmed delete action, `handleBarCodeScanned`, `handleSendMessage` and
`sendPushNotification`, run statement by statement, end normally and never with a thrown
exception; the world and the screen state they leave are those computed by the handlers
with their `catch` blocks resolved, which log the failure or show a notice. -/
theorem no_failure_propagates {σ : Type} (rt : Runtime) (w : World) (ps : PetsState)
    (cs : CommunityState) (s : σ) :
    (∀ env : AddPetEnv,
      (addPetCode env).run w ps = ((addPet env w ps).1, (addPet env w ps).2, .normal ())) ∧
    (∀ (env : ReportEnv) (pet : PetItem),
      (confirmReportLostCode env pet).run w s = (confirmReportLost env pet w, s, .normal ())) ∧
    (∀ (env : DeleteEnv) (petId petName : JsString),
      (confirmDeletePetCode env petId petName).run w s =
        (confirmDeletePet env petId petName w, s, .normal ())) ∧
    (∀ (env : ScanEnv) (data : JsString),
      (handleBarCodeScannedCode env data).run w cs =
        ((handleBarCodeScanned env data w cs).1, (handleBarCodeScanned env data w cs).2,
          .normal ())) ∧
    (∀ env : SendEnv,
      (handleSendMessageCode rt env).run w cs =
        ((handleSendMessage rt env w cs).1, (handleSendMessage rt env w cs).2, .normal ())) ∧
    (∀ (env : PushEnv) (expoPushToken : Option JsString) (title message : JsString)
        (recipientId : Option JsString),
      (sendPushNotificationCode env expoPushToken title message recipientId).run w s =
        (sendPushNotification env expoPushToken title message recipientId w, s, .normal ())) :=
  ⟨fun env => addPetCode_run env w ps,
    fun env pet => confirmReportLostCode_run env pet w s,
    fun env petId petName => confirmDeletePetCode_run env petId petName w s,
    fun env data => handleBarCodeScannedCode_run env data w cs,
    fun env => handleSendMessageCode_run rt env w cs,
    fun env token title message recipientId =>
      sendPushNotificationCode_run env token title message recipientId w s⟩

/-! ## Pet icons -/

theorem findDoc_append {α : Type} (id : JsString) (xs ys : List (JsString × α)) :
    findDoc id (xs ++ ys) =
      match findDoc id xs with
      | some d => some d
      | none => findDoc id ys := by
  induction xs with
  | nil => rfl
  | cons x rest ih =>
    by_cases h : x.1 = id
    · simp [findDoc, h]
    · simp [findDoc, h, ih]

theorem findDoc_mem_snd {α : Type} (id : JsString) (docs : List (JsString × α)) (d : α)
    (h : findDoc id docs = some d) : d ∈ docs.map (fun p => p.2) := by
  induction docs with
  | nil => simp [findDoc] at h
  | cons x rest ih =>
    by_cases hx : x.1 = id
    · simp [findDoc, hx] at h
      simp [h]
    · simp only [findDoc, hx, if_false] at h
      simp [ih h]

theorem icons_truthy (key s : JsString) (h : findDoc key icons = some s) :
    IconValue.truthy (.url s) = true := by
  have hmem := findDoc_mem_snd key icons s h
  have hall : ∀ u ∈ icons.map (fun p => p.2), IconValue.truthy (.url u) = true := by decide
  exact hall s hmem

theorem icons_split :
    icons = icons.take 14 ++
      [(js "default", js "https://cdn-icons-png.flaticon.com/512/616/616554.png")] := rfl

/-- Outside the names of `Object.prototype`, `getPetIcon` returns the URL that the table
registers for the trimmed, lower-cased type, and the default URL when there is none. -/
theorem getPetIcon_of_not_inherited (cm : CaseMapping) (type : JsString)
    (h : toLowerCase cm (trim type) ∉ objectPrototypeNames) :
    getPetIcon cm (some type) = some (.url (registeredIcon (toLowerCase cm (trim type)))) := by
  have hdefault : iconsGet (js "default") =
      some (.url (js "https://cdn-icons-png.flaticon.com/512/616/616554.png")) := rfl
  simp only [getPetIcon]
  generalize toLowerCase cm (trim type) = key at h
  have hsplit := findDoc_append key (icons.take 14)
    [(js "default", js "https://cdn-icons-png.flaticon.com/512/616/616554.png")]
  rw [← icons_split] at hsplit
  cases hown : findDoc key icons with
  | some s =>
    have htruthy := icons_truthy key s hown
    have hreg : registeredIcon key = s := by
      unfold registeredIcon
      rw [hown] at hsplit
      cases hspecies : findDoc key (icons.take 14) with
      | some u =>
        rw [hspecies] at hsplit
        exact (Option.some.inj hsplit).symm
      | none =>
        rw [hspecies] at hsplit
        simp only [findDoc] at hsplit
        split_ifs at hsplit
        exact (Option.some.inj hsplit).symm
    simp only [iconsGet, hown, htruthy, hreg, if_true]
  | none =>
    have hreg : registeredIcon key =
        js "https://cdn-icons-png.flaticon.com/512/616/616554.png" := by
      unfold registeredIcon
      rw [hown] at hsplit
      cases hspecies : findDoc key (icons.take 14) with
      | some u =>
        rw [hspecies] at hsplit
        exact absurd hsplit (by simp)
      | none => rfl
    simp only [iconsGet, hown, h, hreg, if_false]
    exact hdefault

/-- C21. `getPetIcon` returns a value that is no icon URL for a type whose trimmed,
lower-cased text names a property of `Object.prototype`: for "constructor" (also
written " Constructor ") and for "__proto__" the read `icons[key]` finds the inherited
function or object, which is truthy, and `getPetIcon` returns it. -/
theorem pet_icon_of_inherited_name (cm : CaseMapping) :
    getPetIcon cm (some (js "constructor")) = some (.inherited (js "constructor")) ∧
    getPetIcon cm (some (js " Constructor ")) = some (.inherited (js "constructor")) ∧
    getPetIcon cm (some (js "__proto__")) = some (.inherited (js "__proto__")) ∧
    getPetIcon cm (some (js " Perro")) =
      some (.url (js "https://cdn-icons-png.flaticon.com/512/616/616408.png")) :=
  ⟨rfl, rfl, rfl, rfl⟩

/-! ## New-pet form -/

/-- The change handlers of the six fields other than the age set their field to the text
and keep the other six fields. -/
theorem form_handlers_set_one_field (t : JsString) (w : World) (s : PetsState) :
    (onChangeName t).run w s =
      (w, { s with newPet := { s.newPet with name := t } }, .normal ()) ∧
    (onChangeType t).run w s =
      (w, { s with newPet := { s.newPet with type := t } }, .normal ()) ∧
    (onChangeBreed t).run w s =
      (w, { s with newPet := { s.newPet with breed := t } }, .normal ()) ∧
    (onChangeColor t).run w s =
      (w, { s with newPet := { s.newPet with color := t } }, .normal ()) ∧
    (onChangeWeight t).run w s =
      (w, { s with newPet := { s.newPet with weight := t } }, .normal ()) ∧
    (onChangeVaccines t).run w s =
      (w, { s with newPet := { s.newPet with vaccines := t } }, .normal ()) :=
  ⟨rfl, rfl, rfl, rfl, rfl, rfl⟩

/-- C22. The change handler of the age ("Edad") sets no field: it spreads `newMascota`, a
name that nothing binds, so it throws a `ReferenceError` before `setNewPet` is called and
the form stays as it was, for the text "3" typed into the form that holds the name "Rex"
and for every other text and form. -/
theorem age_handler_throws :
    (onChangeAge (js "3")).run emptyWorld namedForm =
      (emptyWorld, namedForm, .thrown (js "ReferenceError")) ∧
    ∀ (t : JsString) (w : World) (s : PetsState),
      (onChangeAge t).run w s = (w, s, .thrown (js "ReferenceError")) :=
  ⟨rfl, fun _ _ _ => rfl⟩

/-! ## Map centre -/

/-- Away from zero, the coordinates of a valid location are the ones used for the
map. -/
theorem renderCommunity_of_nonzero (p q : ℚ) (hp : p ≠ 0) (hq : q ≠ 0) :
    renderCommunity false (some { latitude := .finite p, longitude := .finite q }) =
      .map (Number (.finite p)) (Number (.finite q)) := by
  simp [renderCommunity, locationValid, safeLat, safeLng, JsNumber.or, JsNumber.truthy,
    JsNumber.isFinite, Number, hp, hq]

/-- A location that is not valid shows the loader. -/
theorem renderCommunity_of_not_valid (loading : Bool) (location : Option MapLocation)
    (h : locationValid location = false) : renderCommunity loading location = .loader := by
  simp [renderCommunity, h]

/-- C23. On the prime meridian the map is not centred on the device: the location
(51.5, 0) is valid, and `safeLng` is the longitude of `INITIAL_REGION`, -99.1332, not
`Number(location.longitude)`, which is 0; `safeLat` is the latitude of the device. -/
theorem map_centre_on_prime_meridian :
    locationValid (some meridianLocation) = true ∧
    Number meridianLocation.longitude = .finite 0 ∧
    renderCommunity false (some meridianLocation) =
      .map (.finite 51.5) (.finite (-99.1332)) ∧
    safeLng meridianLocation ≠ Number meridianLocation.longitude := by
  refine ⟨rfl, rfl, ?_, ?_⟩
  · simp [renderCommunity, locationValid, safeLat, safeLng, JsNumber.or, JsNumber.truthy,
      JsNumber.isFinite, Number, meridianLocation, INITIAL_REGION]
    norm_num
  · simp [safeLng, JsNumber.or, JsNumber.truthy, Number, meridianLocation, INITIAL_REGION]
    norm_num

end MiHuella
